import Mathlib

/-!
Verification development for the `docker_image` BuildStream element
(`bst_plugins_container/elements/docker_image.py`).

The development shallowly embeds the layer-partitioning and
content-addressed packaging engine of the plugin:

* the content hasher (`_hash_digest` / `_read_file_block`, backed by
  `hashlib.sha256`), modelled by a full SHA-256 implementation;
* the archive builder (`tarfile.TarFile.add` with the
  `set_tar_headers` filter), modelled at the level of tar member headers
  and the serialized tar byte stream;
* the dependency flattener (`_stage_layers` / `_stage_layer`), modelled
  as a fuel-indexed depth-first traversal with an explicit shared
  visited list;
* the metadata generators (`_create_repositories_file`,
  `_create_manifest`, `_create_image_config`, `_create_layer`) modelled
  over a small JSON value type mirroring the Python dict literals;
* `configure` / `preflight`, including Python `dict` construction,
  `str.split(sep, 1)`, `int()` and the repository-name regular
  expression, modelled by executable functions.

Byte streams are represented by their length together with their
big-endian base-256 value (`Bytes`), so that concatenation and padding
are arithmetic on `Nat`; a well-formedness predicate (`Bytes.WF`) states
that the value fits in the length.
-/

/-! ## Byte streams -/

/-- A byte stream: its length in bytes and its big-endian base-256
value. -/
structure Bytes where
  len : Nat
  val : Nat
deriving DecidableEq

instance : Append Bytes :=
  ⟨fun a b => ⟨a.len + b.len, a.val * 256 ^ b.len + b.val⟩⟩

theorem Bytes.append_def (a b : Bytes) :
    a ++ b = ⟨a.len + b.len, a.val * 256 ^ b.len + b.val⟩ := rfl

/-- A single byte. -/
def Bytes.byte (b : Nat) : Bytes := ⟨1, b % 256⟩

/-- `n` zero bytes. -/
def Bytes.zeros (n : Nat) : Bytes := ⟨n, 0⟩

/-- The empty byte stream. -/
def Bytes.nil : Bytes := ⟨0, 0⟩

/-- Byte stream of a list of byte values. -/
def Bytes.ofList (l : List Nat) : Bytes :=
  ⟨l.length, l.foldl (fun a b => a * 256 + b % 256) 0⟩

/-- The bytes of an ASCII string. -/
def Bytes.ofString (s : String) : Bytes := Bytes.ofList (s.toList.map Char.toNat)

/-- Well-formed byte stream: the value fits in the length. -/
def Bytes.WF (b : Bytes) : Prop := b.val < 256 ^ b.len

instance (b : Bytes) : Decidable b.WF := by unfold Bytes.WF; infer_instance

theorem Bytes.WF.append {a b : Bytes} (ha : a.WF) (hb : b.WF) : (a ++ b).WF := by
  unfold Bytes.WF at *
  rw [Bytes.append_def]
  show a.val * 256 ^ b.len + b.val < 256 ^ (a.len + b.len)
  rw [pow_add]
  have hmul : (a.val + 1) * 256 ^ b.len = a.val * 256 ^ b.len + 256 ^ b.len := by
    ring
  have h2 : (a.val + 1) * 256 ^ b.len ≤ 256 ^ a.len * 256 ^ b.len :=
    Nat.mul_le_mul_right _ ha
  omega

theorem Bytes.WF.byte (b : Nat) : (Bytes.byte b).WF := by
  unfold Bytes.WF Bytes.byte
  simp only [pow_one]
  omega

theorem Bytes.WF.zeros (n : Nat) : (Bytes.zeros n).WF := by
  unfold Bytes.WF Bytes.zeros
  exact Nat.pos_pow_of_pos _ (by omega)

theorem Bytes.WF.nil : Bytes.nil.WF := by
  unfold Bytes.WF Bytes.nil
  simp

theorem foldl_bytes_lt (l : List Nat) :
    ∀ (a k : Nat), a < k →
      l.foldl (fun a b => a * 256 + b % 256) a < k * 256 ^ l.length := by
  induction l with
  | nil => intro a k h; simpa using h
  | cons x xs ih =>
      intro a k h
      simp only [List.foldl_cons, List.length_cons]
      have hx : x % 256 < 256 := Nat.mod_lt _ (by omega)
      have h1 : a * 256 + x % 256 < k * 256 := by
        have := Nat.succ_mul a 256
        have h2 : (a + 1) * 256 ≤ k * 256 := Nat.mul_le_mul_right _ h
        omega
      have := ih (a * 256 + x % 256) (k * 256) h1
      calc xs.foldl (fun a b => a * 256 + b % 256) (a * 256 + x % 256)
          < k * 256 * 256 ^ xs.length := this
        _ = k * 256 ^ (xs.length + 1) := by rw [pow_succ]; ring

theorem Bytes.WF.ofList (l : List Nat) : (Bytes.ofList l).WF := by
  unfold Bytes.WF Bytes.ofList
  simpa using foldl_bytes_lt l 0 1 (by omega)

theorem Bytes.WF.ofString (s : String) : (Bytes.ofString s).WF :=
  Bytes.WF.ofList _

theorem Bytes.append_assoc (a b c : Bytes) : a ++ b ++ c = a ++ (b ++ c) := by
  simp only [Bytes.append_def, Bytes.mk.injEq]
  constructor
  · omega
  · rw [pow_add]
    ring

theorem Bytes.nil_append (b : Bytes) : Bytes.nil ++ b = b := by
  simp [Bytes.append_def, Bytes.nil]

theorem Bytes.append_nil (b : Bytes) : b ++ Bytes.nil = b := by
  simp [Bytes.append_def, Bytes.nil]

/-! ## SHA-256 (model of `hashlib.sha256`)

Words, the running state (8 words) and the message schedule (up to 64
words) are processed as packed big-endian base-2^32 values, so that the
whole computation is arithmetic on `Nat`. -/

/-- Mask to a 32-bit word, written with an explicit modulus. -/
def w32 (n : Nat) : Nat := n % 4294967296

/-- 32-bit right rotation. -/
def rotr32 (n x : Nat) : Nat :=
  w32 ((x >>> n) ||| (x <<< (32 - n)))

/-- The SHA-256 round constants (FIPS 180-4; the fractional parts of the
cube roots of the first 64 primes, `0x428a2f98`, `0x71374491`, ...,
`0xc67178f2`), packed big-endian into one value. -/
def k256 : Nat :=
  0x428a2f9871374491b5c0fbcfe9b5dba53956c25b59f111f1923f82a4ab1c5ed5d807aa9812835b01243185be550c7dc372be5d7480deb1fe9bdc06a7c19bf174e49b69c1efbe47860fc19dc6240ca1cc2de92c6f4a7484aa5cb0a9dc76f988da983e5152a831c66db00327c8bf597fc7c6e00bf3d5a7914706ca63511429296727b70a852e1b21384d2c6dfc53380d13650a7354766a0abb81c2c92e92722c85a2bfe8a1a81a664bc24b8b70c76c51a3d192e819d6990624f40e3585106aa07019a4c1161e376c082748774c34b0bcb5391c0cb34ed8aa4a5b9cca4f682e6ff3748f82ee78a5636f84c878148cc7020890befffaa4506cebbef9a3f7c67178f2

/-- SHA-256 initial hash state (8 words). -/
def h256 : List Nat :=
  [0x6a09e667, 0xbb67ae85, 0x3c6ef372, 0xa54ff53a,
   0x510e527f, 0x9b05688c, 0x1f83d9ab, 0x5be0cd19]

/-- Word `i` (0-based from the most significant) of a `t`-word packed
value. -/
def wordOf (t ws i : Nat) : Nat := ws / 2 ^ (32 * (t - 1 - i)) % 4294967296

/-- Extend the 16 packed message-schedule words to 64 (48 extension
steps of `W t = sigma1 W(t-2) + W(t-7) + sigma0 W(t-15) + W(t-16)`);
`t` is the current word count. -/
def extendWs : Nat → Nat → Nat → Nat
  | 0, _, ws => ws
  | fuel + 1, t, ws =>
      let x := wordOf t ws (t - 15)
      let s0 := (rotr32 7 x) ^^^ (rotr32 18 x) ^^^ (x >>> 3)
      let y := wordOf t ws (t - 2)
      let s1 := (rotr32 17 y) ^^^ (rotr32 19 y) ^^^ (y >>> 10)
      extendWs fuel (t + 1)
        (ws * 4294967296 + w32 (s1 + wordOf t ws (t - 7) + s0 + wordOf t ws (t - 16)))

/-- The SHA-256 compression rounds on a packed 8-word state; `t` is the
round index into the packed schedule `ws`. -/
def rounds256 : Nat → Nat → Nat → Nat → Nat
  | 0, _, _, st => st
  | fuel + 1, t, ws, st =>
      let a := st / 2 ^ 224 % 4294967296
      let b := st / 2 ^ 192 % 4294967296
      let c := st / 2 ^ 160 % 4294967296
      let d := st / 2 ^ 128 % 4294967296
      let e := st / 2 ^ 96 % 4294967296
      let f := st / 2 ^ 64 % 4294967296
      let g := st / 2 ^ 32 % 4294967296
      let hh := st % 4294967296
      let s1 := (rotr32 6 e) ^^^ (rotr32 11 e) ^^^ (rotr32 25 e)
      let ch := (e &&& f) ^^^ ((4294967295 - e) &&& g)
      let t1 := w32 (hh + s1 + ch + wordOf 64 k256 t + wordOf 64 ws t)
      let s0 := (rotr32 2 a) ^^^ (rotr32 13 a) ^^^ (rotr32 22 a)
      let mj := (a &&& b) ^^^ (a &&& c) ^^^ (b &&& c)
      let t2 := w32 (s0 + mj)
      rounds256 fuel (t + 1) ws
        (w32 (t1 + t2) * 2 ^ 224 + a * 2 ^ 192 + b * 2 ^ 160 + c * 2 ^ 128 +
          w32 (d + t1) * 2 ^ 96 + e * 2 ^ 64 + f * 2 ^ 32 + g)

/-- Wordwise sum (mod 2^32) of two packed 8-word states. -/
def addStates (x y : Nat) : Nat :=
  w32 (x / 2 ^ 224 + y / 2 ^ 224) * 2 ^ 224 +
    w32 (x / 2 ^ 192 % 4294967296 + y / 2 ^ 192 % 4294967296) * 2 ^ 192 +
    w32 (x / 2 ^ 160 % 4294967296 + y / 2 ^ 160 % 4294967296) * 2 ^ 160 +
    w32 (x / 2 ^ 128 % 4294967296 + y / 2 ^ 128 % 4294967296) * 2 ^ 128 +
    w32 (x / 2 ^ 96 % 4294967296 + y / 2 ^ 96 % 4294967296) * 2 ^ 96 +
    w32 (x / 2 ^ 64 % 4294967296 + y / 2 ^ 64 % 4294967296) * 2 ^ 64 +
    w32 (x / 2 ^ 32 % 4294967296 + y / 2 ^ 32 % 4294967296) * 2 ^ 32 +
    w32 (x % 4294967296 + y % 4294967296)

/-- Pack a word list big-endian. -/
def packWords (ws : List Nat) : Nat :=
  ws.foldl (fun a w => a * 4294967296 + w % 4294967296) 0

/-- Unpack a packed 8-word state. -/
def unpackState (p : Nat) : List Nat :=
  [p / 2 ^ 224 % 4294967296, p / 2 ^ 192 % 4294967296, p / 2 ^ 160 % 4294967296,
   p / 2 ^ 128 % 4294967296, p / 2 ^ 96 % 4294967296, p / 2 ^ 64 % 4294967296,
   p / 2 ^ 32 % 4294967296, p % 4294967296]

/-- Compress one 64-byte block (given by its value) into the running
8-word state: 48 schedule-extension steps, 64 rounds, then the feed
forward addition. -/
def compress256 (st : List Nat) (block : Nat) : List Nat :=
  unpackState (addStates (packWords st) (rounds256 64 0 (extendWs 48 16 block) (packWords st)))

/-- Process `n` leading 64-byte blocks of a value, left to right. -/
def sha256blocks : Nat → Nat → List Nat → List Nat
  | 0, _, st => st
  | n + 1, v, st =>
      sha256blocks n (v % 256 ^ (64 * n)) (compress256 st (v / 256 ^ (64 * n)))

/-- SHA-256 message padding: `0x80`, zeros to 56 mod 64, 8-byte
big-endian bit length. -/
def sha256pad (m : Bytes) : Bytes :=
  m ++ Bytes.byte 128 ++ Bytes.zeros ((64 + 56 - (m.len + 1) % 64) % 64) ++
    ⟨8, m.len * 8 % 18446744073709551616⟩

/-- SHA-256 state after hashing a byte stream (8 words). -/
def sha256words (m : Bytes) : List Nat :=
  let p := sha256pad m
  sha256blocks (p.len / 64) p.val h256

/-- Lowercase hex character of a nibble. -/
def hexChar (n : Nat) : Char :=
  if n < 10 then Char.ofNat (48 + n) else Char.ofNat (87 + n)

/-- Lowercase hex string of a list of 32-bit words. -/
def hexOfWords (ws : List Nat) : String :=
  String.mk (ws.flatMap (fun wd => (List.range 8).map (fun i => hexChar (wd / 16 ^ (7 - i) % 16))))

/-- Lowercase hex SHA-256 digest of a byte stream (as `hexdigest()`). -/
def sha256hex (m : Bytes) : String := hexOfWords (sha256words m)

set_option exponentiation.threshold 700000
set_option maxRecDepth 1000000

set_option maxRecDepth 1000000 in
/-- Test vector: SHA-256 of the empty message (FIPS 180-4). -/
theorem sha256_empty_vector :
    sha256hex Bytes.nil =
      "e3b0c44298fc1c149afbf4c8996fb92427ae41e4649b934ca495991b7852b855" := by
  decide

set_option maxRecDepth 1000000 in
/-- Test vector: SHA-256 of `"abc"`. -/
theorem sha256_abc_vector :
    sha256hex (Bytes.ofString "abc") =
      "ba7816bf8f01cfea414140de5dae2223b00361a396177a9cb410ff61f20015ad" := by
  decide

set_option maxRecDepth 1000000 in
/-- Test vector: SHA-256 of a 56-byte message (two blocks after
padding). -/
theorem sha256_two_block_vector :
    sha256hex (Bytes.ofString "abcdbcdecdefdefgefghfghighijhijkijkljklmklmnlmnomnopnopq") =
      "248d6a61d20638b8e5c026930c3e6039a33ce45964ff2167f6ecedd419db06c1" := by
  decide

/-! ## The content hasher `_hash_digest` / `_read_file_block`

`_read_file_block` yields successive 8192-byte blocks of the file;
`_hash_digest` feeds each block to the running `hashlib.sha256` object
(modelled as accumulation of the fed bytes) and returns the lowercase
hex digest. -/

/-- The successive 8192-byte blocks of a byte stream (fuel-indexed). -/
def readBlocksGo : Nat → Bytes → List Bytes
  | 0, _ => []
  | fuel + 1, f =>
      if f.len = 0 then []
      else if f.len ≤ 8192 then [f]
      else
        ⟨8192, f.val / 256 ^ (f.len - 8192)⟩ ::
          readBlocksGo fuel ⟨f.len - 8192, f.val % 256 ^ (f.len - 8192)⟩

/-- Model of `_read_file_block`: the 8192-byte blocks of a file. -/
def read_file_block (f : Bytes) : List Bytes := readBlocksGo (f.len / 8192 + 1) f

/-- Concatenation of a list of byte streams. -/
def joinBytes (l : List Bytes) : Bytes := l.foldl (· ++ ·) Bytes.nil

/-- Model of `_hash_digest`: digest of the accumulated blocks produced
by `_read_file_block`. -/
def hash_digest (f : Bytes) : String := sha256hex (joinBytes (read_file_block f))

theorem joinBytes_foldl (l : List Bytes) :
    ∀ x : Bytes, l.foldl (· ++ ·) x = x ++ joinBytes l := by
  induction l with
  | nil =>
      intro x
      simp [joinBytes, Bytes.append_nil]
  | cons y ys ih =>
      intro x
      simp only [joinBytes, List.foldl_cons]
      rw [ih (x ++ y), Bytes.nil_append, ih y, Bytes.append_assoc]

theorem joinBytes_cons (x : Bytes) (l : List Bytes) :
    joinBytes (x :: l) = x ++ joinBytes l := by
  unfold joinBytes
  simp only [List.foldl_cons]
  rw [Bytes.nil_append]
  exact joinBytes_foldl l x

theorem readBlocksGo_join (fuel : Nat) : ∀ (l v : Nat), v < 256 ^ l →
    l ≤ fuel * 8192 → joinBytes (readBlocksGo fuel ⟨l, v⟩) = ⟨l, v⟩ := by
  induction fuel with
  | zero =>
      intro l v hwf hfuel
      have h0 : l = 0 := by omega
      subst h0
      have hv : v = 0 := by omega
      subst hv
      rfl
  | succ n ih =>
      intro l v hwf hfuel
      unfold readBlocksGo
      by_cases h0 : l = 0
      · subst h0
        have hv : v = 0 := by
          have : (256 : Nat) ^ 0 = 1 := rfl
          omega
        subst hv
        rfl
      · have h0' : (Bytes.mk l v).len = 0 ↔ False := by
          simp only [h0]
        simp only [h0, if_false]
        by_cases hsmall : l ≤ 8192
        · simp only [hsmall, if_true]
          rw [joinBytes_cons]
          simp [joinBytes, Bytes.append_nil]
        · simp only [hsmall, if_false]
          rw [joinBytes_cons]
          have hmod : v % 256 ^ (l - 8192) < 256 ^ (l - 8192) :=
            Nat.mod_lt _ (Nat.pos_pow_of_pos _ (by omega))
          rw [ih (l - 8192) (v % 256 ^ (l - 8192)) hmod (by omega)]
          simp only [Bytes.append_def]
          have hd := Nat.div_add_mod v (256 ^ (l - 8192))
          have hl : 8192 + (l - 8192) = l := by omega
          simp only [Bytes.mk.injEq]
          exact ⟨hl, by rw [Nat.mul_comm]; exact hd⟩

/-- The chunked reading of `_read_file_block` reconstructs the file:
`_hash_digest` equals the SHA-256 of the whole byte stream. -/
theorem hash_digest_eq_sha256hex (f : Bytes) (hwf : f.WF) :
    hash_digest f = sha256hex f := by
  cases f with
  | mk l v =>
      show sha256hex (joinBytes (readBlocksGo (l / 8192 + 1) ⟨l, v⟩)) = sha256hex ⟨l, v⟩
      rw [readBlocksGo_join (l / 8192 + 1) l v hwf (by
        have h1 := Nat.div_add_mod l 8192
        have h2 := Nat.mod_lt l (show 0 < 8192 by omega)
        omega)]

/-! ## The archive builder

`_create_layer` adds each top-level entry of the staged directory to a
tar archive, passing every `TarInfo` through `set_tar_headers`, which
fixes the owner/group *names* and the modification time but leaves the
numeric `uid`/`gid` (read from `os.lstat`) untouched.  The tar byte
stream is the sequence of 512-byte headers, each followed by the entry
content padded to 512 bytes, then two zero blocks, padded to the tar
record size of 10240 bytes — as `tarfile` writes it. -/

/-- BuildStream's `buildstream.utils._magic_timestamp`:
2011-11-11 11:11:11 UTC. -/
def magicTimestamp : Nat := 1321009871

/-- The tar header fields of one archive member (the fields of a Python
`tarfile.TarInfo` that are serialized for a regular file). -/
structure TarInfo where
  name : String
  mode : Nat
  uid : Nat
  gid : Nat
  size : Nat
  mtime : Nat
  uname : String
  gname : String
deriving DecidableEq

/-- A regular file of a staged directory as the archive builder sees it:
name and byte contents, plus the metadata `tarfile.TarFile.gettarinfo`
reads from `os.lstat` (mode, mtime, numeric uid/gid) and from the
`pwd`/`grp` databases (owner/group names). -/
structure FsEntry where
  name : String
  content : List Nat
  mode : Nat
  mtime : Nat
  uid : Nat
  gid : Nat
  uname : String
  gname : String
deriving DecidableEq

/-- Model of `tarfile.TarFile.gettarinfo` for a regular file. -/
def gettarinfo (e : FsEntry) : TarInfo :=
  { name := e.name, mode := e.mode, uid := e.uid, gid := e.gid,
    size := e.content.length, mtime := e.mtime, uname := e.uname, gname := e.gname }

/-- Model of the `set_tar_headers` filter in `_create_layer`: fixes the
owner and group names and the modification time.  The numeric
`uid`/`gid` fields are not touched. -/
def set_tar_headers (t : TarInfo) : TarInfo :=
  { t with uname := "buildstream", gname := "buildstream", mtime := magicTimestamp }

/-- `w` ASCII octal digits of `n`, most significant first (as Python
`tarfile.itn` renders numeric header fields). -/
def octDigits : Nat → Nat → Bytes
  | 0, _ => Bytes.nil
  | w + 1, n => octDigits w (n / 8) ++ Bytes.byte (48 + n % 8)

/-- A numeric tar header field: `width - 1` octal digits and a NUL. -/
def octField (width n : Nat) : Bytes := octDigits (width - 1) n ++ Bytes.byte 0

/-- NUL-pad a byte stream to `n` bytes. -/
def padZeros (n : Nat) (b : Bytes) : Bytes := b ++ Bytes.zeros (n - b.len)

/-- Sum of the 8 bytes of a 64-bit group. -/
def byteSum8 (v : Nat) : Nat :=
  v % 256 + v / 256 % 256 + v / 65536 % 256 + v / 16777216 % 256 +
    v / 4294967296 % 256 + v / 1099511627776 % 256 +
    v / 281474976710656 % 256 + v / 72057594037927936 % 256

/-- Sum of the base-256 digits of `v`, processed in 8-byte groups. -/
def byteSumGo : Nat → Nat → Nat
  | 0, _ => 0
  | n + 1, v => byteSum8 (v / 256 ^ (8 * n)) + byteSumGo n (v % 256 ^ (8 * n))

/-- Sum of the bytes of a byte stream. -/
def byteSum (b : Bytes) : Nat := byteSumGo ((b.len + 7) / 8) b.val

/-- Header fields before the checksum field: name (100), mode (8),
uid (8), gid (8), size (12), mtime (12). -/
def tarHeaderPartA (t : TarInfo) : Bytes :=
  padZeros 100 (Bytes.ofString t.name) ++ octField 8 t.mode ++ octField 8 t.uid ++
    octField 8 t.gid ++ octField 12 t.size ++ octField 12 t.mtime

/-- Header fields after the checksum field: typeflag `'0'`, linkname
(100), GNU magic `"ustar  \x00"`, uname (32), gname (32), the NUL
devmajor/devminor fields `tarfile` writes for non-device files, and zero
padding to 512 bytes. -/
def tarHeaderPartB (t : TarInfo) : Bytes :=
  Bytes.byte 48 ++ Bytes.zeros 100 ++
    Bytes.ofList [117, 115, 116, 97, 114, 32, 32, 0] ++
    padZeros 32 (Bytes.ofString t.uname) ++ padZeros 32 (Bytes.ofString t.gname) ++
    Bytes.zeros 8 ++ Bytes.zeros 8 ++ Bytes.zeros 155 ++ Bytes.zeros 12

/-- Eight ASCII spaces (the checksum field while the checksum is being
computed). -/
def spaces8 : Bytes := Bytes.ofList [32, 32, 32, 32, 32, 32, 32, 32]

/-- A serialized 512-byte tar header: the checksum is the byte sum of
the header with the checksum field blanked to spaces, rendered as 6
octal digits, NUL, space. -/
def tarHeader (t : TarInfo) : Bytes :=
  let chk := byteSum (tarHeaderPartA t ++ spaces8 ++ tarHeaderPartB t)
  tarHeaderPartA t ++ (octDigits 6 chk ++ Bytes.byte 0 ++ Bytes.byte 32) ++
    tarHeaderPartB t

/-- Zero padding of a member's content to a 512-byte boundary. -/
def pad512 (n : Nat) : Nat := (512 - n % 512) % 512

/-- One archive member produced by `tar_handle.add(..., filter=set_tar_headers)`:
the filtered header, the content, and block padding. -/
def tarMember (e : FsEntry) : Bytes :=
  tarHeader (set_tar_headers (gettarinfo e)) ++ Bytes.ofList e.content ++
    Bytes.zeros (pad512 e.content.length)

/-- The full layer tar stream: all members in directory order, the two
zero end-of-archive blocks, padded to the 10240-byte record size. -/
def tarArchive (es : List FsEntry) : Bytes :=
  let body := joinBytes (es.map tarMember) ++ Bytes.zeros 1024
  body ++ Bytes.zeros ((10240 - body.len % 10240) % 10240)

/-- The digest `_create_layer` computes for a staged directory: the
content hash of the serialized `layer.tar`. -/
def layer_tar_digest (es : List FsEntry) : String := hash_digest (tarArchive es)

theorem octDigits_wf (w n : Nat) : (octDigits w n).WF := by
  induction w generalizing n with
  | zero => exact Bytes.WF.nil
  | succ w ih => exact Bytes.WF.append (ih _) (Bytes.WF.byte _)

theorem octField_wf (width n : Nat) : (octField width n).WF :=
  Bytes.WF.append (octDigits_wf _ _) (Bytes.WF.byte _)

theorem padZeros_wf (n : Nat) {b : Bytes} (hb : b.WF) : (padZeros n b).WF :=
  Bytes.WF.append hb (Bytes.WF.zeros _)

theorem tarHeader_wf (t : TarInfo) : (tarHeader t).WF := by
  unfold tarHeader tarHeaderPartA tarHeaderPartB
  refine Bytes.WF.append (Bytes.WF.append ?_ ?_) ?_
  · exact Bytes.WF.append (Bytes.WF.append (Bytes.WF.append (Bytes.WF.append
      (padZeros_wf _ (Bytes.WF.ofString _)) (octField_wf _ _)) (octField_wf _ _))
      (octField_wf _ _)) (octField_wf _ _) |>.append (octField_wf _ _)
  · exact Bytes.WF.append (Bytes.WF.append (octDigits_wf _ _) (Bytes.WF.byte _))
      (Bytes.WF.byte _)
  · exact Bytes.WF.append (Bytes.WF.append (Bytes.WF.append (Bytes.WF.append
      (Bytes.WF.append (Bytes.WF.append (Bytes.WF.append (Bytes.WF.append
        (Bytes.WF.byte _) (Bytes.WF.zeros _)) (Bytes.WF.ofList _))
        (padZeros_wf _ (Bytes.WF.ofString _))) (padZeros_wf _ (Bytes.WF.ofString _)))
        (Bytes.WF.zeros _)) (Bytes.WF.zeros _)) (Bytes.WF.zeros _)) (Bytes.WF.zeros _)

theorem joinBytes_wf {l : List Bytes} (h : ∀ b ∈ l, b.WF) : (joinBytes l).WF := by
  induction l with
  | nil => exact Bytes.WF.nil
  | cons x xs ih =>
      rw [joinBytes_cons]
      exact Bytes.WF.append (h x (by simp)) (ih (fun b hb => h b (by simp [hb])))

theorem tarMember_wf (e : FsEntry) : (tarMember e).WF :=
  Bytes.WF.append (Bytes.WF.append (tarHeader_wf _) (Bytes.WF.ofList _)) (Bytes.WF.zeros _)

theorem tarArchive_wf (es : List FsEntry) : (tarArchive es).WF := by
  unfold tarArchive
  refine Bytes.WF.append (Bytes.WF.append ?_ (Bytes.WF.zeros _)) (Bytes.WF.zeros _)
  exact joinBytes_wf (fun b hb => by
    obtain ⟨e, _, rfl⟩ := List.mem_map.mp hb
    exact tarMember_wf e)

/-! ## C2: determinism of the layer digest -/

theorem tarMember_congr {a b : FsEntry}
    (hname : a.name = b.name) (hcontent : a.content = b.content)
    (hmode : a.mode = b.mode) (huid : a.uid = b.uid) (hgid : a.gid = b.gid) :
    tarMember a = tarMember b := by
  have ht : set_tar_headers (gettarinfo a) = set_tar_headers (gettarinfo b) := by
    unfold set_tar_headers gettarinfo
    simp [hname, hcontent, hmode, huid, hgid]
  unfold tarMember
  rw [ht, hcontent]

theorem tarArchive_congr {xs ys : List FsEntry}
    (h : List.Forall₂ (fun a b => a.name = b.name ∧ a.content = b.content ∧
      a.mode = b.mode ∧ a.uid = b.uid ∧ a.gid = b.gid) xs ys) :
    tarArchive xs = tarArchive ys := by
  have hm : xs.map tarMember = ys.map tarMember := by
    induction h with
    | nil => rfl
    | cons hab _ ih =>
        simp only [List.map_cons, ih, List.cons.injEq, and_true]
        exact tarMember_congr hab.1 hab.2.1 hab.2.2.1 hab.2.2.2.1 hab.2.2.2.2
  unfold tarArchive
  rw [hm]

/-- C2 (amended): the layer digest of a staged directory is unchanged
under any change of on-disk modification times and owner/group *names*,
provided names, byte contents, permission bits and numeric uid/gid
agree: the `set_tar_headers` filter normalizes `mtime`, `uname` and
`gname` before the tar stream is hashed. -/
theorem layer_digest_deterministic (xs ys : List FsEntry)
    (h : List.Forall₂ (fun a b => a.name = b.name ∧ a.content = b.content ∧
      a.mode = b.mode ∧ a.uid = b.uid ∧ a.gid = b.gid) xs ys) :
    layer_tar_digest xs = layer_tar_digest ys := by
  unfold layer_tar_digest
  rw [tarArchive_congr h]

/-- First counterexample entry: a file owned by uid 0, mtime
1000000000, owner name `root`. -/
def c2entryA : FsEntry :=
  { name := "f", content := [104, 105], mode := 420, mtime := 1000000000,
    uid := 0, gid := 0, uname := "root", gname := "root" }

/-- Second counterexample entry: the same file name, bytes and mode, but
staged with uid 1000 and different mtime and owner names. -/
def c2entryB : FsEntry :=
  { name := "f", content := [104, 105], mode := 420, mtime := 999,
    uid := 1000, gid := 0, uname := "user", gname := "user" }

/-- Witness for the amended C2 at a concrete input: two one-file trees
that differ in mtime and owner/group names but agree on name, bytes,
mode and numeric ids have equal layer digests. -/
theorem layer_digest_deterministic_witness :
    layer_tar_digest [c2entryA] =
      layer_tar_digest [{ c2entryA with mtime := 4242, uname := "alice", gname := "users" }] :=
  layer_digest_deterministic _ _
    (List.Forall₂.cons ⟨rfl, rfl, rfl, rfl, rfl⟩ List.Forall₂.nil)

/-- The `n` leading 64-byte blocks of a value, as a list. -/
def blocksOf : Nat → Nat → List Nat
  | 0, _ => []
  | n + 1, v => (v / 256 ^ (64 * n)) :: blocksOf n (v % 256 ^ (64 * n))

theorem sha256blocks_eq_foldl (n : Nat) : ∀ (v : Nat) (st : List Nat),
    sha256blocks n v st = (blocksOf n v).foldl compress256 st := by
  induction n with
  | zero => intro v st; rfl
  | succ m ih =>
      intro v st
      simp only [sha256blocks, blocksOf, List.foldl_cons]
      exact ih _ _

/-! ### Blockwise evaluation of the two counterexample digests

The per-block state lemmas below evaluate the SHA-256 of the two layer
tar streams one compression at a time (a monolithic evaluation of a
10240-byte archive is out of reach of kernel reduction). -/

theorem c2blocksA : blocksOf 161 (sha256pad (tarArchive [c2entryA])).val = [5342173472086503531861525585222641816417559819142281736436731512732890355732428873569496790675875584470247068496178035887042562682884961463032157025861632, 5074813490434683377700672089252522485276595257103185675270627536944, 2523822669165665673646423343940351292051190607872039660692015388498184845996703488688238060612884086670236487004490517598788004610021154799332634499481600, 0, 24028936408679978757231481608905203234597278010913474886756700503683651041207699053999620039711808987833582480502353938087387937705049290740072078901248, 0, 0, 0, 5468403597403498502723909212906556108724914078042817422381180936115097515256284136092182893611193263530378136252847071125335503138435666932651138371026944, 0, 0, 0, 0, 0, 0, 0, 0, 0, 0, 0, 0, 0, 0, 0, 0, 0, 0, 0, 0, 0, 0, 0, 0, 0, 0, 0, 0, 0, 0, 0, 0, 0, 0, 0, 0, 0, 0, 0, 0, 0, 0, 0, 0, 0, 0, 0, 0, 0, 0, 0, 0, 0, 0, 0, 0, 0, 0, 0, 0, 0, 0, 0, 0, 0, 0, 0, 0, 0, 0, 0, 0, 0, 0, 0, 0, 0, 0, 0, 0, 0, 0, 0, 0, 0, 0, 0, 0, 0, 0, 0, 0, 0, 0, 0, 0, 0, 0, 0, 0, 0, 0, 0, 0, 0, 0, 0, 0, 0, 0, 0, 0, 0, 0, 0, 0, 0, 0, 0, 0, 0, 0, 0, 0, 0, 0, 0, 0, 0, 0, 0, 0, 0, 0, 0, 0, 0, 0, 0, 0, 0, 0, 0, 0, 0, 0, 0, 0, 0, 0, 0, 6703903964971298549787012499102923063739682910296196688861780721860882015036773488400937149083451713845015929093243025426876941405973284973216824503123968] := by decide

theorem c2cA0 : compress256 h256 5342173472086503531861525585222641816417559819142281736436731512732890355732428873569496790675875584470247068496178035887042562682884961463032157025861632 = [4184963423, 2758575863, 2220464518, 629599861, 1990312209, 1316737971, 3502225047, 267253099] := by decide
theorem c2cA1 : compress256 [4184963423, 2758575863, 2220464518, 629599861, 1990312209, 1316737971, 3502225047, 267253099] 5074813490434683377700672089252522485276595257103185675270627536944 = [3084166551, 3855213666, 651188858, 843057787, 3502035391, 2512763798, 1873324587, 2404924736] := by decide
theorem c2cA2 : compress256 [3084166551, 3855213666, 651188858, 843057787, 3502035391, 2512763798, 1873324587, 2404924736] 2523822669165665673646423343940351292051190607872039660692015388498184845996703488688238060612884086670236487004490517598788004610021154799332634499481600 = [2968284643, 464247452, 1503802419, 90519134, 3659911112, 3733108364, 3225690975, 2333968249] := by decide
theorem c2cA3 : compress256 [2968284643, 464247452, 1503802419, 90519134, 3659911112, 3733108364, 3225690975, 2333968249] 0 = [2809921798, 3227603490, 166335948, 2699332647, 2745663403, 3326497162, 17716588, 3189162198] := by decide
theorem c2cA4 : compress256 [2809921798, 3227603490, 166335948, 2699332647, 2745663403, 3326497162, 17716588, 3189162198] 24028936408679978757231481608905203234597278010913474886756700503683651041207699053999620039711808987833582480502353938087387937705049290740072078901248 = [996658851, 1798716296, 401780729, 3532714593, 2671407738, 3982519234, 854369822, 3720589080] := by decide
theorem c2cA5 : compress256 [996658851, 1798716296, 401780729, 3532714593, 2671407738, 3982519234, 854369822, 3720589080] 0 = [1308198516, 3801786791, 1777829436, 3742065189, 1251736856, 1006510794, 1914658791, 1620740163] := by decide
theorem c2cA6 : compress256 [1308198516, 3801786791, 1777829436, 3742065189, 1251736856, 1006510794, 1914658791, 1620740163] 0 = [29693849, 817178212, 3016070031, 201067625, 3495915161, 1416179703, 3661352110, 1165153086] := by decide
theorem c2cA7 : compress256 [29693849, 817178212, 3016070031, 201067625, 3495915161, 1416179703, 3661352110, 1165153086] 0 = [65199560, 2563574797, 2309782801, 3565900322, 2745540157, 2793805223, 61820627, 1150915787] := by decide
theorem c2cA8 : compress256 [65199560, 2563574797, 2309782801, 3565900322, 2745540157, 2793805223, 61820627, 1150915787] 5468403597403498502723909212906556108724914078042817422381180936115097515256284136092182893611193263530378136252847071125335503138435666932651138371026944 = [1505767332, 812126858, 557603321, 2540964252, 3584346558, 3882854195, 3917623986, 3899836803] := by decide
theorem c2cA9 : compress256 [1505767332, 812126858, 557603321, 2540964252, 3584346558, 3882854195, 3917623986, 3899836803] 0 = [2946341071, 1054025688, 2443947629, 1667600472, 3055615606, 234216902, 2475602940, 1887500025] := by decide
theorem c2cA10 : compress256 [2946341071, 1054025688, 2443947629, 1667600472, 3055615606, 234216902, 2475602940, 1887500025] 0 = [3949838982, 2265286533, 525793513, 255792169, 3539951035, 711366951, 3565460666, 1939748147] := by decide
theorem c2cA11 : compress256 [3949838982, 2265286533, 525793513, 255792169, 3539951035, 711366951, 3565460666, 1939748147] 0 = [1104846622, 49136990, 616094445, 2812754675, 3041551810, 1378698991, 593339871, 2482159861] := by decide
theorem c2cA12 : compress256 [1104846622, 49136990, 616094445, 2812754675, 3041551810, 1378698991, 593339871, 2482159861] 0 = [2957453598, 2755997048, 1632176246, 3572929178, 618552162, 1727689544, 482107291, 3574839585] := by decide
theorem c2cA13 : compress256 [2957453598, 2755997048, 1632176246, 3572929178, 618552162, 1727689544, 482107291, 3574839585] 0 = [1496089028, 1875466483, 2846207589, 638402831, 3500847912, 1004716002, 1068703190, 1647637301] := by decide
theorem c2cA14 : compress256 [1496089028, 1875466483, 2846207589, 638402831, 3500847912, 1004716002, 1068703190, 1647637301] 0 = [3269020665, 671067921, 424376136, 2249113910, 1353062987, 775363209, 4254969452, 1125149638] := by decide
theorem c2cA15 : compress256 [3269020665, 671067921, 424376136, 2249113910, 1353062987, 775363209, 4254969452, 1125149638] 0 = [3228389411, 3445172613, 1660116525, 1481061321, 2578475249, 2170350010, 2713847601, 1921472830] := by decide
theorem c2cA16 : compress256 [3228389411, 3445172613, 1660116525, 1481061321, 2578475249, 2170350010, 2713847601, 1921472830] 0 = [2050796096, 2151033998, 1538401964, 2301078856, 1005110210, 2590846245, 1630231657, 1604184014] := by decide
theorem c2cA17 : compress256 [2050796096, 2151033998, 1538401964, 2301078856, 1005110210, 2590846245, 1630231657, 1604184014] 0 = [2259588420, 3929382436, 1528024669, 4152386840, 2116644007, 1136373825, 708006974, 1554340002] := by decide
theorem c2cA18 : compress256 [2259588420, 3929382436, 1528024669, 4152386840, 2116644007, 1136373825, 708006974, 1554340002] 0 = [3288163255, 1704731897, 1649687891, 2002019084, 1142405317, 364133651, 776532821, 1826307481] := by decide
theorem c2cA19 : compress256 [3288163255, 1704731897, 1649687891, 2002019084, 1142405317, 364133651, 776532821, 1826307481] 0 = [3245907548, 3646986238, 2071226551, 1198575645, 3772316074, 1039522604, 1126787519, 3659492107] := by decide
theorem c2cA20 : compress256 [3245907548, 3646986238, 2071226551, 1198575645, 3772316074, 1039522604, 1126787519, 3659492107] 0 = [219253878, 3126119675, 3850637944, 955238504, 975854086, 2021527995, 1026764362, 4064403517] := by decide
theorem c2cA21 : compress256 [219253878, 3126119675, 3850637944, 955238504, 975854086, 2021527995, 1026764362, 4064403517] 0 = [2868252937, 3178445180, 1593803505, 2289323620, 2237081582, 2389591087, 483919489, 3522063211] := by decide
theorem c2cA22 : compress256 [2868252937, 3178445180, 1593803505, 2289323620, 2237081582, 2389591087, 483919489, 3522063211] 0 = [377275924, 3142448895, 3686739668, 1676525682, 1508923877, 2462025965, 1192938128, 1224924131] := by decide
theorem c2cA23 : compress256 [377275924, 3142448895, 3686739668, 1676525682, 1508923877, 2462025965, 1192938128, 1224924131] 0 = [2446589545, 2309237442, 1937672802, 2041532027, 2209307473, 2861643309, 3782078409, 1055354680] := by decide
theorem c2cA24 : compress256 [2446589545, 2309237442, 1937672802, 2041532027, 2209307473, 2861643309, 3782078409, 1055354680] 0 = [2555759113, 807736171, 4076935916, 853609328, 4252685303, 20051035, 1036128071, 1646581569] := by decide
theorem c2cA25 : compress256 [2555759113, 807736171, 4076935916, 853609328, 4252685303, 20051035, 1036128071, 1646581569] 0 = [1670565607, 1585758890, 3188952136, 579097346, 1396506119, 339540269, 2267319778, 4241659545] := by decide
theorem c2cA26 : compress256 [1670565607, 1585758890, 3188952136, 579097346, 1396506119, 339540269, 2267319778, 4241659545] 0 = [1798743415, 644490986, 3461626681, 602727252, 583518141, 1798852028, 718105744, 3779264781] := by decide
theorem c2cA27 : compress256 [1798743415, 644490986, 3461626681, 602727252, 583518141, 1798852028, 718105744, 3779264781] 0 = [703536640, 1529800941, 2189585881, 3760789609, 27377368, 1716586147, 2491928673, 2056582206] := by decide
theorem c2cA28 : compress256 [703536640, 1529800941, 2189585881, 3760789609, 27377368, 1716586147, 2491928673, 2056582206] 0 = [3401936760, 2550247854, 3175708822, 2152313415, 3815413686, 1011753981, 2597098625, 2969743278] := by decide
theorem c2cA29 : compress256 [3401936760, 2550247854, 3175708822, 2152313415, 3815413686, 1011753981, 2597098625, 2969743278] 0 = [3852388410, 2897763591, 1172616935, 1714837923, 614954651, 341947149, 3201748497, 1389685175] := by decide
theorem c2cA30 : compress256 [3852388410, 2897763591, 1172616935, 1714837923, 614954651, 341947149, 3201748497, 1389685175] 0 = [3688189680, 829678623, 2095445430, 4000841647, 1052866833, 1097631194, 2106482638, 1460734302] := by decide
theorem c2cA31 : compress256 [3688189680, 829678623, 2095445430, 4000841647, 1052866833, 1097631194, 2106482638, 1460734302] 0 = [369556076, 4214426067, 1845188316, 1404002893, 3792276622, 2164576086, 2217062216, 3334211669] := by decide
theorem c2cA32 : compress256 [369556076, 4214426067, 1845188316, 1404002893, 3792276622, 2164576086, 2217062216, 3334211669] 0 = [1790277704, 3274813452, 3918969553, 2540609108, 881560301, 321737197, 3846587342, 4124045142] := by decide
theorem c2cA33 : compress256 [1790277704, 3274813452, 3918969553, 2540609108, 881560301, 321737197, 3846587342, 4124045142] 0 = [3107947543, 3989086217, 445353498, 915811192, 349768466, 1338794450, 1714767043, 3212528287] := by decide
theorem c2cA34 : compress256 [3107947543, 3989086217, 445353498, 915811192, 349768466, 1338794450, 1714767043, 3212528287] 0 = [2414003701, 2312324408, 2185233478, 438339057, 2914554124, 4147333075, 288949105, 1524469671] := by decide
theorem c2cA35 : compress256 [2414003701, 2312324408, 2185233478, 438339057, 2914554124, 4147333075, 288949105, 1524469671] 0 = [27804059, 2717487560, 1163346555, 1946939656, 305093323, 1279505009, 1564377388, 3036601002] := by decide
theorem c2cA36 : compress256 [27804059, 2717487560, 1163346555, 1946939656, 305093323, 1279505009, 1564377388, 3036601002] 0 = [1849906747, 4070246009, 283387973, 334703926, 2968260160, 1185557606, 302928176, 3482709921] := by decide
theorem c2cA37 : compress256 [1849906747, 4070246009, 283387973, 334703926, 2968260160, 1185557606, 302928176, 3482709921] 0 = [1421034238, 1067699821, 133026396, 1661680978, 2081103677, 2677489576, 1630901912, 3278905241] := by decide
theorem c2cA38 : compress256 [1421034238, 1067699821, 133026396, 1661680978, 2081103677, 2677489576, 1630901912, 3278905241] 0 = [2107974918, 3355142260, 4092366682, 1732544260, 3408589251, 1083312780, 969574306, 4083419567] := by decide
theorem c2cA39 : compress256 [2107974918, 3355142260, 4092366682, 1732544260, 3408589251, 1083312780, 969574306, 4083419567] 0 = [2731605439, 2677848286, 542162787, 3239367397, 1258797105, 4236972430, 3115246199, 462312099] := by decide
theorem c2cA40 : compress256 [2731605439, 2677848286, 542162787, 3239367397, 1258797105, 4236972430, 3115246199, 462312099] 0 = [3968868956, 3378337378, 1510120028, 2821023721, 4102869543, 1587067292, 256057631, 1792889622] := by decide
theorem c2cA41 : compress256 [3968868956, 3378337378, 1510120028, 2821023721, 4102869543, 1587067292, 256057631, 1792889622] 0 = [2969432053, 330573344, 3289767547, 856995654, 2938243435, 1258638378, 1095567102, 172403540] := by decide
theorem c2cA42 : compress256 [2969432053, 330573344, 3289767547, 856995654, 2938243435, 1258638378, 1095567102, 172403540] 0 = [374799469, 461898487, 1413606234, 184321080, 2267843223, 2610753853, 857051952, 927395026] := by decide
theorem c2cA43 : compress256 [374799469, 461898487, 1413606234, 184321080, 2267843223, 2610753853, 857051952, 927395026] 0 = [3817745090, 3235933321, 1423253644, 4184175963, 3293755776, 4015897814, 3224167083, 684756158] := by decide
theorem c2cA44 : compress256 [3817745090, 3235933321, 1423253644, 4184175963, 3293755776, 4015897814, 3224167083, 684756158] 0 = [571291555, 267857716, 1308982803, 1981528357, 3424625655, 2713374710, 3131596841, 4000905727] := by decide
theorem c2cA45 : compress256 [571291555, 267857716, 1308982803, 1981528357, 3424625655, 2713374710, 3131596841, 4000905727] 0 = [2840351221, 86168443, 4251113976, 1992646991, 1513914765, 336999062, 2985904510, 3208505475] := by decide
theorem c2cA46 : compress256 [2840351221, 86168443, 4251113976, 1992646991, 1513914765, 336999062, 2985904510, 3208505475] 0 = [3239413230, 876537933, 1022773125, 1454717955, 1703098740, 2023433537, 2612647897, 972954791] := by decide
theorem c2cA47 : compress256 [3239413230, 876537933, 1022773125, 1454717955, 1703098740, 2023433537, 2612647897, 972954791] 0 = [2743292858, 1794834214, 111895305, 1274505384, 1909051484, 3789334391, 1425857938, 1977077588] := by decide
theorem c2cA48 : compress256 [2743292858, 1794834214, 111895305, 1274505384, 1909051484, 3789334391, 1425857938, 1977077588] 0 = [1585474879, 1589216969, 2171404622, 3658992851, 4173875696, 3824780477, 3932784233, 1512690043] := by decide
theorem c2cA49 : compress256 [1585474879, 1589216969, 2171404622, 3658992851, 4173875696, 3824780477, 3932784233, 1512690043] 0 = [1529888205, 990409299, 109050938, 2372892871, 3805762325, 1311521957, 280163102, 2098837061] := by decide
theorem c2cA50 : compress256 [1529888205, 990409299, 109050938, 2372892871, 3805762325, 1311521957, 280163102, 2098837061] 0 = [3294605003, 3780264911, 1582251786, 2682928311, 2558507861, 484192528, 310212630, 1515914436] := by decide
theorem c2cA51 : compress256 [3294605003, 3780264911, 1582251786, 2682928311, 2558507861, 484192528, 310212630, 1515914436] 0 = [2928110541, 2169183205, 3647978636, 1624350785, 1582579893, 3419995019, 3556266281, 2420935240] := by decide
theorem c2cA52 : compress256 [2928110541, 2169183205, 3647978636, 1624350785, 1582579893, 3419995019, 3556266281, 2420935240] 0 = [2896376393, 1438085926, 4280713651, 2340804625, 1426306154, 4071525352, 1608685609, 2834897978] := by decide
theorem c2cA53 : compress256 [2896376393, 1438085926, 4280713651, 2340804625, 1426306154, 4071525352, 1608685609, 2834897978] 0 = [4186843007, 113277028, 3609829449, 2855807494, 586139365, 344578984, 3443174729, 2597809659] := by decide
theorem c2cA54 : compress256 [4186843007, 113277028, 3609829449, 2855807494, 586139365, 344578984, 3443174729, 2597809659] 0 = [864312074, 2764851135, 3174397817, 429106868, 81431814, 1767088516, 1173339765, 1800005291] := by decide
theorem c2cA55 : compress256 [864312074, 2764851135, 3174397817, 429106868, 81431814, 1767088516, 1173339765, 1800005291] 0 = [301527682, 530667985, 1139465156, 2211162739, 2831302237, 3719733181, 1148986245, 2421652659] := by decide
theorem c2cA56 : compress256 [301527682, 530667985, 1139465156, 2211162739, 2831302237, 3719733181, 1148986245, 2421652659] 0 = [1323063765, 2400072775, 1925652308, 338344179, 3628270551, 17644003, 812676206, 3518111359] := by decide
theorem c2cA57 : compress256 [1323063765, 2400072775, 1925652308, 338344179, 3628270551, 17644003, 812676206, 3518111359] 0 = [1432508956, 2569473253, 1792195921, 2498446709, 3771978922, 57240099, 1762664726, 3697635161] := by decide
theorem c2cA58 : compress256 [1432508956, 2569473253, 1792195921, 2498446709, 3771978922, 57240099, 1762664726, 3697635161] 0 = [4172245759, 2779256750, 3121253026, 4041631390, 54656727, 994574803, 2113199403, 282874907] := by decide
theorem c2cA59 : compress256 [4172245759, 2779256750, 3121253026, 4041631390, 54656727, 994574803, 2113199403, 282874907] 0 = [2274860598, 1833050507, 1797160862, 3143885262, 1820563938, 1675716154, 877836308, 1367811439] := by decide
theorem c2cA60 : compress256 [2274860598, 1833050507, 1797160862, 3143885262, 1820563938, 1675716154, 877836308, 1367811439] 0 = [1665520826, 1747115670, 2411443937, 4188972740, 3470899955, 98731778, 1846437043, 2790388582] := by decide
theorem c2cA61 : compress256 [1665520826, 1747115670, 2411443937, 4188972740, 3470899955, 98731778, 1846437043, 2790388582] 0 = [2876192310, 1227577021, 911057396, 399941667, 2079577334, 1285427155, 434359779, 3582803836] := by decide
theorem c2cA62 : compress256 [2876192310, 1227577021, 911057396, 399941667, 2079577334, 1285427155, 434359779, 3582803836] 0 = [1141676821, 2230239, 1717634583, 1676153671, 3548510661, 2985915576, 1554631618, 2042834403] := by decide
theorem c2cA63 : compress256 [1141676821, 2230239, 1717634583, 1676153671, 3548510661, 2985915576, 1554631618, 2042834403] 0 = [3131424152, 2768585925, 2145358284, 2730304456, 907453119, 1596349331, 1794328296, 322626329] := by decide
theorem c2cA64 : compress256 [3131424152, 2768585925, 2145358284, 2730304456, 907453119, 1596349331, 1794328296, 322626329] 0 = [1173491692, 2544628781, 4263013940, 3782894916, 2468212567, 4053339915, 3834339244, 2264112077] := by decide
theorem c2cA65 : compress256 [1173491692, 2544628781, 4263013940, 3782894916, 2468212567, 4053339915, 3834339244, 2264112077] 0 = [2783642901, 2575868656, 3511034605, 3874792480, 894905521, 638455214, 1332411169, 1191642740] := by decide
theorem c2cA66 : compress256 [2783642901, 2575868656, 3511034605, 3874792480, 894905521, 638455214, 1332411169, 1191642740] 0 = [1827307622, 830659096, 3152633551, 3102093030, 2944794135, 2441310327, 1052676514, 4288144318] := by decide
theorem c2cA67 : compress256 [1827307622, 830659096, 3152633551, 3102093030, 2944794135, 2441310327, 1052676514, 4288144318] 0 = [2339097096, 372359473, 236477530, 378087692, 362259211, 3516267601, 3845832599, 962262137] := by decide
theorem c2cA68 : compress256 [2339097096, 372359473, 236477530, 378087692, 362259211, 3516267601, 3845832599, 962262137] 0 = [898168932, 390148450, 2805977479, 45466814, 801062172, 1858752798, 931253148, 2359690652] := by decide
theorem c2cA69 : compress256 [898168932, 390148450, 2805977479, 45466814, 801062172, 1858752798, 931253148, 2359690652] 0 = [3631636903, 1993336191, 2543624219, 134525946, 430628233, 1538940759, 1798041784, 2100518057] := by decide
theorem c2cA70 : compress256 [3631636903, 1993336191, 2543624219, 134525946, 430628233, 1538940759, 1798041784, 2100518057] 0 = [2171445874, 3509717155, 2779831012, 3963098812, 2746054632, 2329693006, 4056789679, 2814806980] := by decide
theorem c2cA71 : compress256 [2171445874, 3509717155, 2779831012, 3963098812, 2746054632, 2329693006, 4056789679, 2814806980] 0 = [2014081575, 3459220208, 3129208350, 1378195431, 3614689800, 124591851, 436374006, 2052658985] := by decide
theorem c2cA72 : compress256 [2014081575, 3459220208, 3129208350, 1378195431, 3614689800, 124591851, 436374006, 2052658985] 0 = [4279113827, 3892752756, 682829208, 1293525324, 1806435558, 488606201, 1718804846, 615856078] := by decide
theorem c2cA73 : compress256 [4279113827, 3892752756, 682829208, 1293525324, 1806435558, 488606201, 1718804846, 615856078] 0 = [2876993998, 1969498667, 1991067715, 308364207, 539269305, 163190999, 3823273320, 1492214208] := by decide
theorem c2cA74 : compress256 [2876993998, 1969498667, 1991067715, 308364207, 539269305, 163190999, 3823273320, 1492214208] 0 = [2289735390, 1426722182, 3061483286, 3679197047, 3760067846, 893604707, 1813796701, 3761533611] := by decide
theorem c2cA75 : compress256 [2289735390, 1426722182, 3061483286, 3679197047, 3760067846, 893604707, 1813796701, 3761533611] 0 = [2297135774, 3423305038, 1722455914, 1564970073, 245639887, 632890066, 4033633217, 1230855364] := by decide
theorem c2cA76 : compress256 [2297135774, 3423305038, 1722455914, 1564970073, 245639887, 632890066, 4033633217, 1230855364] 0 = [3245166522, 3687749386, 1009971875, 2113705064, 2342301028, 2791252302, 300889645, 1066394489] := by decide
theorem c2cA77 : compress256 [3245166522, 3687749386, 1009971875, 2113705064, 2342301028, 2791252302, 300889645, 1066394489] 0 = [3397045467, 3837174064, 3857949068, 2856235963, 2517589702, 2987577212, 2733075723, 2438776705] := by decide
theorem c2cA78 : compress256 [3397045467, 3837174064, 3857949068, 2856235963, 2517589702, 2987577212, 2733075723, 2438776705] 0 = [3043740715, 3140303353, 4009088329, 2181448987, 1678090900, 2173650664, 588442074, 4164468107] := by decide
theorem c2cA79 : compress256 [3043740715, 3140303353, 4009088329, 2181448987, 1678090900, 2173650664, 588442074, 4164468107] 0 = [1127939318, 1859720119, 3239367991, 3506567987, 901532855, 2891249455, 3851056849, 2371129545] := by decide
theorem c2cA80 : compress256 [1127939318, 1859720119, 3239367991, 3506567987, 901532855, 2891249455, 3851056849, 2371129545] 0 = [3533549603, 3076876472, 2553911788, 2928187963, 1427826276, 819880356, 2105875363, 1558588940] := by decide
theorem c2cA81 : compress256 [3533549603, 3076876472, 2553911788, 2928187963, 1427826276, 819880356, 2105875363, 1558588940] 0 = [1635491836, 599391506, 2468566054, 2092698892, 2712988789, 268437474, 4284907357, 3453115697] := by decide
theorem c2cA82 : compress256 [1635491836, 599391506, 2468566054, 2092698892, 2712988789, 268437474, 4284907357, 3453115697] 0 = [3944239921, 3686077612, 1031821187, 1485540431, 2111062006, 1613649503, 2752545976, 2262460225] := by decide
theorem c2cA83 : compress256 [3944239921, 3686077612, 1031821187, 1485540431, 2111062006, 1613649503, 2752545976, 2262460225] 0 = [3111428996, 1040570509, 4124801845, 1037992891, 3871679695, 4187024813, 312822226, 4232931664] := by decide
theorem c2cA84 : compress256 [3111428996, 1040570509, 4124801845, 1037992891, 3871679695, 4187024813, 312822226, 4232931664] 0 = [3767620492, 2030126454, 403418982, 797939352, 901734243, 525593177, 1296997003, 929405583] := by decide
theorem c2cA85 : compress256 [3767620492, 2030126454, 403418982, 797939352, 901734243, 525593177, 1296997003, 929405583] 0 = [1109517428, 779225290, 1607259981, 2560699801, 1786257696, 2177704897, 2862310235, 1364219530] := by decide
theorem c2cA86 : compress256 [1109517428, 779225290, 1607259981, 2560699801, 1786257696, 2177704897, 2862310235, 1364219530] 0 = [1349636050, 4128782290, 3058153821, 3196046643, 414841899, 4024262078, 866122146, 1362191646] := by decide
theorem c2cA87 : compress256 [1349636050, 4128782290, 3058153821, 3196046643, 414841899, 4024262078, 866122146, 1362191646] 0 = [3102192400, 2643816444, 257409979, 3818839610, 505500002, 2776491294, 379647517, 1871510627] := by decide
theorem c2cA88 : compress256 [3102192400, 2643816444, 257409979, 3818839610, 505500002, 2776491294, 379647517, 1871510627] 0 = [3637721270, 1397391120, 3284552158, 2193725448, 3259940805, 1113569615, 4064913943, 3165672171] := by decide
theorem c2cA89 : compress256 [3637721270, 1397391120, 3284552158, 2193725448, 3259940805, 1113569615, 4064913943, 3165672171] 0 = [4057739790, 574191321, 2874995463, 4233877537, 4019854095, 715075017, 511071745, 3888662406] := by decide
theorem c2cA90 : compress256 [4057739790, 574191321, 2874995463, 4233877537, 4019854095, 715075017, 511071745, 3888662406] 0 = [1328453895, 2871149152, 3386545003, 799961839, 3978343315, 13573367, 2026406173, 2690028210] := by decide
theorem c2cA91 : compress256 [1328453895, 2871149152, 3386545003, 799961839, 3978343315, 13573367, 2026406173, 2690028210] 0 = [3334313237, 3220641234, 3664626640, 3094025590, 2353220147, 3779632125, 1018908469, 812753726] := by decide
theorem c2cA92 : compress256 [3334313237, 3220641234, 3664626640, 3094025590, 2353220147, 3779632125, 1018908469, 812753726] 0 = [1782419154, 868235789, 2528880173, 990319779, 3714939657, 73589931, 549319771, 509527331] := by decide
theorem c2cA93 : compress256 [1782419154, 868235789, 2528880173, 990319779, 3714939657, 73589931, 549319771, 509527331] 0 = [563578904, 1509394210, 2685770301, 1999690623, 2049256886, 2706915445, 2322804725, 1044399444] := by decide
theorem c2cA94 : compress256 [563578904, 1509394210, 2685770301, 1999690623, 2049256886, 2706915445, 2322804725, 1044399444] 0 = [4122873713, 2646546771, 3192429694, 1591691005, 590031686, 2857714067, 1169727740, 676284332] := by decide
theorem c2cA95 : compress256 [4122873713, 2646546771, 3192429694, 1591691005, 590031686, 2857714067, 1169727740, 676284332] 0 = [1844017880, 4174712540, 3085863902, 1497774955, 1350515957, 438062964, 3872073413, 3640833375] := by decide
theorem c2cA96 : compress256 [1844017880, 4174712540, 3085863902, 1497774955, 1350515957, 438062964, 3872073413, 3640833375] 0 = [3210373377, 2954119935, 1025005643, 257037232, 1016890354, 1600356917, 867464815, 2388959149] := by decide
theorem c2cA97 : compress256 [3210373377, 2954119935, 1025005643, 257037232, 1016890354, 1600356917, 867464815, 2388959149] 0 = [3347859525, 3163556870, 2770832172, 1149776041, 2972456387, 1444818139, 2582669525, 3993079455] := by decide
theorem c2cA98 : compress256 [3347859525, 3163556870, 2770832172, 1149776041, 2972456387, 1444818139, 2582669525, 3993079455] 0 = [1016395492, 1808741502, 346327341, 3298176792, 2585021161, 1383046494, 917431948, 2469693845] := by decide
theorem c2cA99 : compress256 [1016395492, 1808741502, 346327341, 3298176792, 2585021161, 1383046494, 917431948, 2469693845] 0 = [278768373, 2926030777, 820490094, 2099883965, 614390095, 115385410, 285931787, 2648703920] := by decide
theorem c2cA100 : compress256 [278768373, 2926030777, 820490094, 2099883965, 614390095, 115385410, 285931787, 2648703920] 0 = [3316895607, 3338917774, 2873178551, 98188812, 4075003721, 3652073887, 1174544988, 204656527] := by decide
theorem c2cA101 : compress256 [3316895607, 3338917774, 2873178551, 98188812, 4075003721, 3652073887, 1174544988, 204656527] 0 = [1877158932, 2216304506, 4204577016, 431589432, 2901687449, 3767165765, 4209996697, 413756814] := by decide
theorem c2cA102 : compress256 [1877158932, 2216304506, 4204577016, 431589432, 2901687449, 3767165765, 4209996697, 413756814] 0 = [3362234212, 3801664577, 881914818, 1879698060, 398668783, 2507900978, 2437560340, 1193593667] := by decide
theorem c2cA103 : compress256 [3362234212, 3801664577, 881914818, 1879698060, 398668783, 2507900978, 2437560340, 1193593667] 0 = [2873564976, 366859968, 3358572245, 3844860142, 2969537273, 2172183261, 2716427150, 1847533900] := by decide
theorem c2cA104 : compress256 [2873564976, 366859968, 3358572245, 3844860142, 2969537273, 2172183261, 2716427150, 1847533900] 0 = [2854750009, 1547494176, 612387695, 3493094869, 2421171276, 1011457567, 1492047693, 125560189] := by decide
theorem c2cA105 : compress256 [2854750009, 1547494176, 612387695, 3493094869, 2421171276, 1011457567, 1492047693, 125560189] 0 = [862655823, 4026691155, 3349394793, 1425991241, 3284600849, 1710307613, 2403432809, 1500851124] := by decide
theorem c2cA106 : compress256 [862655823, 4026691155, 3349394793, 1425991241, 3284600849, 1710307613, 2403432809, 1500851124] 0 = [2258402016, 279767513, 297694879, 1965442289, 2398294521, 745504216, 991159932, 1983994953] := by decide
theorem c2cA107 : compress256 [2258402016, 279767513, 297694879, 1965442289, 2398294521, 745504216, 991159932, 1983994953] 0 = [3877584938, 2414579885, 4038695414, 4076703974, 283113904, 632574831, 608518596, 1053105497] := by decide
theorem c2cA108 : compress256 [3877584938, 2414579885, 4038695414, 4076703974, 283113904, 632574831, 608518596, 1053105497] 0 = [2387700481, 887196228, 807579623, 973597397, 2724251198, 1178676298, 2572882140, 3889234987] := by decide
theorem c2cA109 : compress256 [2387700481, 887196228, 807579623, 973597397, 2724251198, 1178676298, 2572882140, 3889234987] 0 = [2364128115, 3178692041, 199125722, 4117644061, 1319108952, 2204582464, 1210137956, 3784771417] := by decide
theorem c2cA110 : compress256 [2364128115, 3178692041, 199125722, 4117644061, 1319108952, 2204582464, 1210137956, 3784771417] 0 = [3781861218, 2713847015, 419757685, 773563224, 2651807356, 3606853426, 4269894907, 3351871261] := by decide
theorem c2cA111 : compress256 [3781861218, 2713847015, 419757685, 773563224, 2651807356, 3606853426, 4269894907, 3351871261] 0 = [1490301141, 3924232412, 3540917648, 3733891508, 3035043623, 144337443, 865959671, 98255757] := by decide
theorem c2cA112 : compress256 [1490301141, 3924232412, 3540917648, 3733891508, 3035043623, 144337443, 865959671, 98255757] 0 = [1099872452, 4047580214, 1900828024, 2550958649, 3626674750, 1719526977, 3894684180, 4030546446] := by decide
theorem c2cA113 : compress256 [1099872452, 4047580214, 1900828024, 2550958649, 3626674750, 1719526977, 3894684180, 4030546446] 0 = [3319712721, 1228215329, 3583911805, 2987386947, 258215217, 1637424434, 708743951, 1631173637] := by decide
theorem c2cA114 : compress256 [3319712721, 1228215329, 3583911805, 2987386947, 258215217, 1637424434, 708743951, 1631173637] 0 = [247045653, 4224824467, 123773516, 1468039385, 1035025210, 2402011700, 3953346454, 2232454601] := by decide
theorem c2cA115 : compress256 [247045653, 4224824467, 123773516, 1468039385, 1035025210, 2402011700, 3953346454, 2232454601] 0 = [2067137747, 4293132779, 2278414886, 493227087, 1780084679, 4138596033, 682380088, 2287787634] := by decide
theorem c2cA116 : compress256 [2067137747, 4293132779, 2278414886, 493227087, 1780084679, 4138596033, 682380088, 2287787634] 0 = [2638590285, 90962491, 1507698457, 1933622438, 838187501, 2747712560, 3030122694, 3051426476] := by decide
theorem c2cA117 : compress256 [2638590285, 90962491, 1507698457, 1933622438, 838187501, 2747712560, 3030122694, 3051426476] 0 = [3654694266, 1640321017, 768311603, 407933445, 1298417609, 2078685636, 923079355, 1339609871] := by decide
theorem c2cA118 : compress256 [3654694266, 1640321017, 768311603, 407933445, 1298417609, 2078685636, 923079355, 1339609871] 0 = [3673882811, 4258394235, 2846143596, 4209118473, 3360537577, 2504273860, 1543283601, 171588392] := by decide
theorem c2cA119 : compress256 [3673882811, 4258394235, 2846143596, 4209118473, 3360537577, 2504273860, 1543283601, 171588392] 0 = [2128121921, 2135431325, 1817380842, 4126322724, 839945078, 2546840850, 3858467337, 76757041] := by decide
theorem c2cA120 : compress256 [2128121921, 2135431325, 1817380842, 4126322724, 839945078, 2546840850, 3858467337, 76757041] 0 = [1366883815, 405652163, 1069762448, 2008217982, 3104597472, 1045737413, 493528849, 3411987693] := by decide
theorem c2cA121 : compress256 [1366883815, 405652163, 1069762448, 2008217982, 3104597472, 1045737413, 493528849, 3411987693] 0 = [3600768206, 1771492797, 3384468665, 1206747001, 771466299, 3048744305, 741997286, 1683131097] := by decide
theorem c2cA122 : compress256 [3600768206, 1771492797, 3384468665, 1206747001, 771466299, 3048744305, 741997286, 1683131097] 0 = [907747850, 53803397, 1031935540, 3607782900, 1033583680, 4241940229, 1108341482, 2426136361] := by decide
theorem c2cA123 : compress256 [907747850, 53803397, 1031935540, 3607782900, 1033583680, 4241940229, 1108341482, 2426136361] 0 = [2652602969, 521725897, 2751725106, 769026786, 3942443984, 3453452449, 2300865511, 4022137510] := by decide
theorem c2cA124 : compress256 [2652602969, 521725897, 2751725106, 769026786, 3942443984, 3453452449, 2300865511, 4022137510] 0 = [990717900, 3296308763, 233629819, 958228806, 3733731753, 1681909050, 1722279965, 3535521202] := by decide
theorem c2cA125 : compress256 [990717900, 3296308763, 233629819, 958228806, 3733731753, 1681909050, 1722279965, 3535521202] 0 = [1245836682, 2791364467, 2182261834, 1446223640, 3860137392, 336355013, 1720761046, 80190814] := by decide
theorem c2cA126 : compress256 [1245836682, 2791364467, 2182261834, 1446223640, 3860137392, 336355013, 1720761046, 80190814] 0 = [3976986750, 553754219, 336204390, 122974910, 529696925, 3208322230, 2486805365, 127405084] := by decide
theorem c2cA127 : compress256 [3976986750, 553754219, 336204390, 122974910, 529696925, 3208322230, 2486805365, 127405084] 0 = [1225193542, 3482822166, 118569227, 4078617364, 1206811816, 1970771642, 4145967981, 1985234611] := by decide
theorem c2cA128 : compress256 [1225193542, 3482822166, 118569227, 4078617364, 1206811816, 1970771642, 4145967981, 1985234611] 0 = [3360070992, 904091844, 1166286664, 3007839448, 2555388489, 2414383578, 3127833506, 3681525747] := by decide
theorem c2cA129 : compress256 [3360070992, 904091844, 1166286664, 3007839448, 2555388489, 2414383578, 3127833506, 3681525747] 0 = [596980121, 4028834604, 1226918756, 3787764272, 2210663547, 2816485837, 502273670, 2159444248] := by decide
theorem c2cA130 : compress256 [596980121, 4028834604, 1226918756, 3787764272, 2210663547, 2816485837, 502273670, 2159444248] 0 = [532698966, 1567438816, 1957144988, 3616176096, 1067577822, 716759870, 1144064657, 2869682269] := by decide
theorem c2cA131 : compress256 [532698966, 1567438816, 1957144988, 3616176096, 1067577822, 716759870, 1144064657, 2869682269] 0 = [3854253120, 1817353954, 3051259375, 2496610286, 4283475096, 940436981, 641466353, 410646629] := by decide
theorem c2cA132 : compress256 [3854253120, 1817353954, 3051259375, 2496610286, 4283475096, 940436981, 641466353, 410646629] 0 = [1051486967, 1159276879, 3147055512, 2467817380, 1066177772, 1152585765, 348538950, 1256001164] := by decide
theorem c2cA133 : compress256 [1051486967, 1159276879, 3147055512, 2467817380, 1066177772, 1152585765, 348538950, 1256001164] 0 = [1603936717, 1128906650, 1459088500, 803999862, 3560987794, 4010403514, 1798092718, 3680511705] := by decide
theorem c2cA134 : compress256 [1603936717, 1128906650, 1459088500, 803999862, 3560987794, 4010403514, 1798092718, 3680511705] 0 = [2573101960, 1633124328, 765816372, 2537099461, 926503088, 1936731321, 1232489187, 3745394083] := by decide
theorem c2cA135 : compress256 [2573101960, 1633124328, 765816372, 2537099461, 926503088, 1936731321, 1232489187, 3745394083] 0 = [523822875, 2195666653, 157577451, 1759229787, 1156661097, 3544089310, 753367803, 2749927539] := by decide
theorem c2cA136 : compress256 [523822875, 2195666653, 157577451, 1759229787, 1156661097, 3544089310, 753367803, 2749927539] 0 = [1870176451, 2465587241, 630902650, 1382645198, 3047093266, 3686694545, 3343854158, 444091734] := by decide
theorem c2cA137 : compress256 [1870176451, 2465587241, 630902650, 1382645198, 3047093266, 3686694545, 3343854158, 444091734] 0 = [1520791448, 2730277301, 2338632239, 3369523812, 2438544980, 1992219171, 237323593, 3234078463] := by decide
theorem c2cA138 : compress256 [1520791448, 2730277301, 2338632239, 3369523812, 2438544980, 1992219171, 237323593, 3234078463] 0 = [1520063134, 1133388009, 2972683676, 906906157, 3593670160, 3976013401, 2092088646, 2724168651] := by decide
theorem c2cA139 : compress256 [1520063134, 1133388009, 2972683676, 906906157, 3593670160, 3976013401, 2092088646, 2724168651] 0 = [3319438332, 1540997449, 3580860155, 2462473802, 2449716697, 1442132871, 3583205945, 3148203687] := by decide
theorem c2cA140 : compress256 [3319438332, 1540997449, 3580860155, 2462473802, 2449716697, 1442132871, 3583205945, 3148203687] 0 = [4228406147, 2415526391, 2777429609, 2529837077, 2982264191, 1355638110, 1791490785, 2249884355] := by decide
theorem c2cA141 : compress256 [4228406147, 2415526391, 2777429609, 2529837077, 2982264191, 1355638110, 1791490785, 2249884355] 0 = [3783175449, 3411016198, 639783574, 1410711726, 2488685203, 973295972, 1293926561, 1817790928] := by decide
theorem c2cA142 : compress256 [3783175449, 3411016198, 639783574, 1410711726, 2488685203, 973295972, 1293926561, 1817790928] 0 = [853933940, 2135984432, 3494800738, 63215473, 3288281684, 2633328777, 4092598371, 369995617] := by decide
theorem c2cA143 : compress256 [853933940, 2135984432, 3494800738, 63215473, 3288281684, 2633328777, 4092598371, 369995617] 0 = [3682822788, 3207472666, 1498233662, 1926758174, 987386072, 3964967796, 462008987, 1913535963] := by decide
theorem c2cA144 : compress256 [3682822788, 3207472666, 1498233662, 1926758174, 987386072, 3964967796, 462008987, 1913535963] 0 = [3947156940, 2796468342, 3992150067, 3164373050, 2835654006, 707095376, 3292460940, 3199798118] := by decide
theorem c2cA145 : compress256 [3947156940, 2796468342, 3992150067, 3164373050, 2835654006, 707095376, 3292460940, 3199798118] 0 = [1050457652, 67916828, 3235492107, 1207525095, 1302765336, 3914590922, 3759861773, 2095628329] := by decide
theorem c2cA146 : compress256 [1050457652, 67916828, 3235492107, 1207525095, 1302765336, 3914590922, 3759861773, 2095628329] 0 = [757891343, 3365048995, 994976483, 989040986, 1441947827, 1643673558, 2717915748, 818898683] := by decide
theorem c2cA147 : compress256 [757891343, 3365048995, 994976483, 989040986, 1441947827, 1643673558, 2717915748, 818898683] 0 = [3294127760, 1656111017, 3541707345, 427283724, 3816405001, 3642638288, 2997968577, 2142247218] := by decide
theorem c2cA148 : compress256 [3294127760, 1656111017, 3541707345, 427283724, 3816405001, 3642638288, 2997968577, 2142247218] 0 = [1454283857, 3907721504, 1254622407, 65386697, 2143669838, 1644440891, 1618503634, 2331946366] := by decide
theorem c2cA149 : compress256 [1454283857, 3907721504, 1254622407, 65386697, 2143669838, 1644440891, 1618503634, 2331946366] 0 = [658455666, 2353545334, 3616102900, 4035966744, 141414205, 2580909392, 519053310, 1577326908] := by decide
theorem c2cA150 : compress256 [658455666, 2353545334, 3616102900, 4035966744, 141414205, 2580909392, 519053310, 1577326908] 0 = [2727785316, 1252661203, 1549456503, 1319235957, 4109479016, 650321537, 1013930411, 104095055] := by decide
theorem c2cA151 : compress256 [2727785316, 1252661203, 1549456503, 1319235957, 4109479016, 650321537, 1013930411, 104095055] 0 = [1250918559, 877445951, 4181396766, 3581679235, 1059112720, 702080735, 569670462, 3599674093] := by decide
theorem c2cA152 : compress256 [1250918559, 877445951, 4181396766, 3581679235, 1059112720, 702080735, 569670462, 3599674093] 0 = [646172809, 1938619996, 1813481926, 4095319105, 3480575026, 3922211956, 911542001, 53916699] := by decide
theorem c2cA153 : compress256 [646172809, 1938619996, 1813481926, 4095319105, 3480575026, 3922211956, 911542001, 53916699] 0 = [2279269574, 592586702, 1219831163, 2385533348, 1654427394, 1549295436, 3708536763, 3314731241] := by decide
theorem c2cA154 : compress256 [2279269574, 592586702, 1219831163, 2385533348, 1654427394, 1549295436, 3708536763, 3314731241] 0 = [363539655, 4178394768, 1655693890, 1067400122, 4223022519, 1903469742, 808405874, 3076204827] := by decide
theorem c2cA155 : compress256 [363539655, 4178394768, 1655693890, 1067400122, 4223022519, 1903469742, 808405874, 3076204827] 0 = [3557057208, 1041859757, 1308097230, 2464392493, 1911264677, 3118531227, 4119185266, 2361373878] := by decide
theorem c2cA156 : compress256 [3557057208, 1041859757, 1308097230, 2464392493, 1911264677, 3118531227, 4119185266, 2361373878] 0 = [1397560813, 1939628112, 3944895186, 2882276514, 812590580, 749491126, 186732761, 310854966] := by decide
theorem c2cA157 : compress256 [1397560813, 1939628112, 3944895186, 2882276514, 812590580, 749491126, 186732761, 310854966] 0 = [3315219908, 240901593, 314320245, 2549470047, 2466001342, 3377924972, 3137025214, 3397921987] := by decide
theorem c2cA158 : compress256 [3315219908, 240901593, 314320245, 2549470047, 2466001342, 3377924972, 3137025214, 3397921987] 0 = [560693179, 46099249, 3202800338, 2178917156, 3769346557, 1911611928, 148656508, 674479677] := by decide
theorem c2cA159 : compress256 [560693179, 46099249, 3202800338, 2178917156, 3769346557, 1911611928, 148656508, 674479677] 0 = [3351373596, 3080482301, 2297315757, 2056515125, 3046794458, 1708456970, 2712940373, 868302962] := by decide
theorem c2cA160 : compress256 [3351373596, 3080482301, 2297315757, 2056515125, 3046794458, 1708456970, 2712940373, 868302962] 6703903964971298549787012499102923063739682910296196688861780721860882015036773488400937149083451713845015929093243025426876941405973284973216824503123968 = [926627548, 2601661217, 2800506889, 2450410613, 77923116, 2979169747, 2216458529, 984373011] := by decide

theorem c2wordsA : sha256words (tarArchive [c2entryA]) = [926627548, 2601661217, 2800506889, 2450410613, 77923116, 2979169747, 2216458529, 984373011] := by
  show sha256blocks ((sha256pad (tarArchive [c2entryA])).len / 64) (sha256pad (tarArchive [c2entryA])).val h256 = [926627548, 2601661217, 2800506889, 2450410613, 77923116, 2979169747, 2216458529, 984373011]
  rw [show (sha256pad (tarArchive [c2entryA])).len / 64 = 161 from by decide]
  rw [sha256blocks_eq_foldl, c2blocksA]
  simp only [List.foldl_cons, List.foldl_nil]
  rw [c2cA0, c2cA1, c2cA2, c2cA3, c2cA4, c2cA5, c2cA6, c2cA7, c2cA8, c2cA9, c2cA10, c2cA11, c2cA12, c2cA13, c2cA14, c2cA15, c2cA16, c2cA17, c2cA18, c2cA19, c2cA20, c2cA21, c2cA22, c2cA23, c2cA24, c2cA25, c2cA26, c2cA27, c2cA28, c2cA29, c2cA30, c2cA31, c2cA32, c2cA33, c2cA34, c2cA35, c2cA36, c2cA37, c2cA38, c2cA39, c2cA40, c2cA41, c2cA42, c2cA43, c2cA44, c2cA45, c2cA46, c2cA47, c2cA48, c2cA49, c2cA50, c2cA51, c2cA52, c2cA53, c2cA54, c2cA55, c2cA56, c2cA57, c2cA58, c2cA59, c2cA60, c2cA61, c2cA62, c2cA63, c2cA64, c2cA65, c2cA66, c2cA67, c2cA68, c2cA69, c2cA70, c2cA71, c2cA72, c2cA73, c2cA74, c2cA75, c2cA76, c2cA77, c2cA78, c2cA79, c2cA80, c2cA81, c2cA82, c2cA83, c2cA84, c2cA85, c2cA86, c2cA87, c2cA88, c2cA89, c2cA90, c2cA91, c2cA92, c2cA93, c2cA94, c2cA95, c2cA96, c2cA97, c2cA98, c2cA99, c2cA100, c2cA101, c2cA102, c2cA103, c2cA104, c2cA105, c2cA106, c2cA107, c2cA108, c2cA109, c2cA110, c2cA111, c2cA112, c2cA113, c2cA114, c2cA115, c2cA116, c2cA117, c2cA118, c2cA119, c2cA120, c2cA121, c2cA122, c2cA123, c2cA124, c2cA125, c2cA126, c2cA127, c2cA128, c2cA129, c2cA130, c2cA131, c2cA132, c2cA133, c2cA134, c2cA135, c2cA136, c2cA137, c2cA138, c2cA139, c2cA140, c2cA141, c2cA142, c2cA143, c2cA144, c2cA145, c2cA146, c2cA147, c2cA148, c2cA149, c2cA150, c2cA151, c2cA152, c2cA153, c2cA154, c2cA155, c2cA156, c2cA157, c2cA158, c2cA159, c2cA160]

/-- Digest of the layer tar of the A directory, evaluated blockwise. -/
theorem c2digestA : layer_tar_digest [c2entryA] = "373b36dc9b123321a6ec5809920e4c7504a5032cb19285d3841c79213aac5713" := by
  unfold layer_tar_digest
  rw [hash_digest_eq_sha256hex _ (tarArchive_wf _)]
  show hexOfWords (sha256words (tarArchive [c2entryA])) = _
  rw [c2wordsA]
  decide

theorem c2blocksB : blocksOf 161 (sha256pad (tarArchive [c2entryB])).val = [5342173472086503531861525585222641816417559819142281736436731512732890355732428873569496790675875584470247068496178035887042562682884961463032157025861632, 5074813490434683377700672089602135409652320805815029584606004260912, 2523822669165665673646423343940351292051190607872039660694101215560224495693710236187776220199649059834867509760201894884185322050676422946302536609431552, 0, 24028936408679978757231481608905203234597278010913474886756700503683651041207699053999620039711808987833582480502353938087387937705049290740072078901248, 0, 0, 0, 5468403597403498502723909212906556108724914078042817422381180936115097515256284136092182893611193263530378136252847071125335503138435666932651138371026944, 0, 0, 0, 0, 0, 0, 0, 0, 0, 0, 0, 0, 0, 0, 0, 0, 0, 0, 0, 0, 0, 0, 0, 0, 0, 0, 0, 0, 0, 0, 0, 0, 0, 0, 0, 0, 0, 0, 0, 0, 0, 0, 0, 0, 0, 0, 0, 0, 0, 0, 0, 0, 0, 0, 0, 0, 0, 0, 0, 0, 0, 0, 0, 0, 0, 0, 0, 0, 0, 0, 0, 0, 0, 0, 0, 0, 0, 0, 0, 0, 0, 0, 0, 0, 0, 0, 0, 0, 0, 0, 0, 0, 0, 0, 0, 0, 0, 0, 0, 0, 0, 0, 0, 0, 0, 0, 0, 0, 0, 0, 0, 0, 0, 0, 0, 0, 0, 0, 0, 0, 0, 0, 0, 0, 0, 0, 0, 0, 0, 0, 0, 0, 0, 0, 0, 0, 0, 0, 0, 0, 0, 0, 0, 0, 0, 0, 0, 0, 0, 0, 0, 6703903964971298549787012499102923063739682910296196688861780721860882015036773488400937149083451713845015929093243025426876941405973284973216824503123968] := by decide

theorem c2cB0 : compress256 h256 5342173472086503531861525585222641816417559819142281736436731512732890355732428873569496790675875584470247068496178035887042562682884961463032157025861632 = [4184963423, 2758575863, 2220464518, 629599861, 1990312209, 1316737971, 3502225047, 267253099] := by decide
theorem c2cB1 : compress256 [4184963423, 2758575863, 2220464518, 629599861, 1990312209, 1316737971, 3502225047, 267253099] 5074813490434683377700672089602135409652320805815029584606004260912 = [3923597794, 557900728, 2075912946, 2865237899, 3123499404, 3829228171, 935344161, 2168224153] := by decide
theorem c2cB2 : compress256 [3923597794, 557900728, 2075912946, 2865237899, 3123499404, 3829228171, 935344161, 2168224153] 2523822669165665673646423343940351292051190607872039660694101215560224495693710236187776220199649059834867509760201894884185322050676422946302536609431552 = [3169197878, 2032983122, 1057270498, 1965798592, 3903143908, 3590170055, 2381332236, 2873337366] := by decide
theorem c2cB3 : compress256 [3169197878, 2032983122, 1057270498, 1965798592, 3903143908, 3590170055, 2381332236, 2873337366] 0 = [249778871, 2988388604, 715507055, 1942195032, 1282936586, 2477533500, 2663787499, 3019078380] := by decide
theorem c2cB4 : compress256 [249778871, 2988388604, 715507055, 1942195032, 1282936586, 2477533500, 2663787499, 3019078380] 24028936408679978757231481608905203234597278010913474886756700503683651041207699053999620039711808987833582480502353938087387937705049290740072078901248 = [1774384450, 418930946, 452276603, 1631588569, 2995736236, 30794354, 1064766248, 4162521998] := by decide
theorem c2cB5 : compress256 [1774384450, 418930946, 452276603, 1631588569, 2995736236, 30794354, 1064766248, 4162521998] 0 = [4221586549, 1963698125, 505741197, 4147920648, 269993182, 3632313986, 2395367846, 3787128342] := by decide
theorem c2cB6 : compress256 [4221586549, 1963698125, 505741197, 4147920648, 269993182, 3632313986, 2395367846, 3787128342] 0 = [882502271, 2260789067, 871021135, 4147229002, 2467240477, 2572748412, 1442205938, 3658784764] := by decide
theorem c2cB7 : compress256 [882502271, 2260789067, 871021135, 4147229002, 2467240477, 2572748412, 1442205938, 3658784764] 0 = [2228539593, 2684180128, 1820903182, 3941299582, 3209691667, 1761442482, 462430921, 295298900] := by decide
theorem c2cB8 : compress256 [2228539593, 2684180128, 1820903182, 3941299582, 3209691667, 1761442482, 462430921, 295298900] 5468403597403498502723909212906556108724914078042817422381180936115097515256284136092182893611193263530378136252847071125335503138435666932651138371026944 = [4258470034, 3452038606, 2736086846, 2853131346, 2182426471, 616661676, 3532073063, 1922089839] := by decide
theorem c2cB9 : compress256 [4258470034, 3452038606, 2736086846, 2853131346, 2182426471, 616661676, 3532073063, 1922089839] 0 = [3299790991, 249065674, 846025250, 3688228524, 3957207474, 1790560302, 3737728038, 1927147345] := by decide
theorem c2cB10 : compress256 [3299790991, 249065674, 846025250, 3688228524, 3957207474, 1790560302, 3737728038, 1927147345] 0 = [4063702156, 4107161562, 4043905633, 95231797, 3868944472, 994383324, 6567937, 2691740789] := by decide
theorem c2cB11 : compress256 [4063702156, 4107161562, 4043905633, 95231797, 3868944472, 994383324, 6567937, 2691740789] 0 = [3464088620, 4186416213, 827604926, 388246331, 2316195785, 3639891962, 1485981959, 1924756269] := by decide
theorem c2cB12 : compress256 [3464088620, 4186416213, 827604926, 388246331, 2316195785, 3639891962, 1485981959, 1924756269] 0 = [2429380572, 1860796301, 3600934504, 1957744301, 279136650, 222646194, 2952272231, 536974565] := by decide
theorem c2cB13 : compress256 [2429380572, 1860796301, 3600934504, 1957744301, 279136650, 222646194, 2952272231, 536974565] 0 = [3589814358, 2399627622, 3203808926, 3199335664, 2508270753, 388518381, 1704721146, 3359933091] := by decide
theorem c2cB14 : compress256 [3589814358, 2399627622, 3203808926, 3199335664, 2508270753, 388518381, 1704721146, 3359933091] 0 = [1809483329, 3966248109, 1134280180, 2572193867, 3008693862, 880633069, 4117610085, 2151404057] := by decide
theorem c2cB15 : compress256 [1809483329, 3966248109, 1134280180, 2572193867, 3008693862, 880633069, 4117610085, 2151404057] 0 = [3382729177, 1607539337, 1228908499, 3512818934, 2779104714, 2267424561, 2652212280, 409725881] := by decide
theorem c2cB16 : compress256 [3382729177, 1607539337, 1228908499, 3512818934, 2779104714, 2267424561, 2652212280, 409725881] 0 = [3990254618, 3252041434, 2642343283, 580442368, 570524501, 2050191813, 1759853566, 2129365865] := by decide
theorem c2cB17 : compress256 [3990254618, 3252041434, 2642343283, 580442368, 570524501, 2050191813, 1759853566, 2129365865] 0 = [3519219463, 3109303780, 936759372, 1122824873, 1441958578, 2537029379, 2839244007, 1027191470] := by decide
theorem c2cB18 : compress256 [3519219463, 3109303780, 936759372, 1122824873, 1441958578, 2537029379, 2839244007, 1027191470] 0 = [1863303226, 1227708230, 3337183195, 453528446, 2026307382, 831760910, 1741886713, 4180039644] := by decide
theorem c2cB19 : compress256 [1863303226, 1227708230, 3337183195, 453528446, 2026307382, 831760910, 1741886713, 4180039644] 0 = [979395269, 4002178560, 3836244238, 2698433258, 442322085, 3516691950, 1107356997, 4253436057] := by decide
theorem c2cB20 : compress256 [979395269, 4002178560, 3836244238, 2698433258, 442322085, 3516691950, 1107356997, 4253436057] 0 = [3822630448, 1527889687, 2755375005, 850741947, 2291719739, 3690510074, 3840864640, 2015480914] := by decide
theorem c2cB21 : compress256 [3822630448, 1527889687, 2755375005, 850741947, 2291719739, 3690510074, 3840864640, 2015480914] 0 = [2593824006, 2766234213, 2942960654, 3656595857, 3987300725, 1750957263, 3828177375, 328500186] := by decide
theorem c2cB22 : compress256 [2593824006, 2766234213, 2942960654, 3656595857, 3987300725, 1750957263, 3828177375, 328500186] 0 = [3651759472, 2136512417, 724978877, 2535238513, 1425505306, 912449782, 1193876806, 3701851972] := by decide
theorem c2cB23 : compress256 [3651759472, 2136512417, 724978877, 2535238513, 1425505306, 912449782, 1193876806, 3701851972] 0 = [1435296092, 552660948, 172899087, 666414981, 2913176362, 1090223495, 3307513512, 538613612] := by decide
theorem c2cB24 : compress256 [1435296092, 552660948, 172899087, 666414981, 2913176362, 1090223495, 3307513512, 538613612] 0 = [416362160, 3592804650, 2642722689, 209391422, 195205342, 92755920, 1414552610, 397758469] := by decide
theorem c2cB25 : compress256 [416362160, 3592804650, 2642722689, 209391422, 195205342, 92755920, 1414552610, 397758469] 0 = [1146735294, 3590736448, 96551940, 2441372541, 1551858401, 3094653713, 1153381919, 4190462537] := by decide
theorem c2cB26 : compress256 [1146735294, 3590736448, 96551940, 2441372541, 1551858401, 3094653713, 1153381919, 4190462537] 0 = [23976207, 1308248255, 1925347352, 1979338608, 4242952415, 1405056824, 1160398828, 2111200987] := by decide
theorem c2cB27 : compress256 [23976207, 1308248255, 1925347352, 1979338608, 4242952415, 1405056824, 1160398828, 2111200987] 0 = [1506421873, 40598455, 1776917448, 2310587242, 4146190754, 2403657660, 2220520290, 2052763056] := by decide
theorem c2cB28 : compress256 [1506421873, 40598455, 1776917448, 2310587242, 4146190754, 2403657660, 2220520290, 2052763056] 0 = [2045265348, 1265484837, 1241831952, 3882759141, 882567509, 1257259704, 352467632, 2680850674] := by decide
theorem c2cB29 : compress256 [2045265348, 1265484837, 1241831952, 3882759141, 882567509, 1257259704, 352467632, 2680850674] 0 = [3457924080, 3181455900, 3365884128, 2533418023, 710772890, 1290452196, 1522855255, 4176379958] := by decide
theorem c2cB30 : compress256 [3457924080, 3181455900, 3365884128, 2533418023, 710772890, 1290452196, 1522855255, 4176379958] 0 = [3466550572, 3449234612, 457907058, 2874440339, 1232652092, 944629841, 3375583294, 1480642720] := by decide
theorem c2cB31 : compress256 [3466550572, 3449234612, 457907058, 2874440339, 1232652092, 944629841, 3375583294, 1480642720] 0 = [3394533096, 1083124777, 1360281551, 1160618122, 2323799921, 2026451832, 2413611421, 662234785] := by decide
theorem c2cB32 : compress256 [3394533096, 1083124777, 1360281551, 1160618122, 2323799921, 2026451832, 2413611421, 662234785] 0 = [628695594, 1733704326, 522563206, 2650214156, 2747992103, 486126283, 3160679712, 3971880339] := by decide
theorem c2cB33 : compress256 [628695594, 1733704326, 522563206, 2650214156, 2747992103, 486126283, 3160679712, 3971880339] 0 = [2751674151, 3887628954, 371197292, 1697478045, 2457156270, 3388402921, 342384902, 1758009339] := by decide
theorem c2cB34 : compress256 [2751674151, 3887628954, 371197292, 1697478045, 2457156270, 3388402921, 342384902, 1758009339] 0 = [2178131686, 2274536512, 3618441099, 196004435, 624902443, 2448331348, 2612818252, 1987568642] := by decide
theorem c2cB35 : compress256 [2178131686, 2274536512, 3618441099, 196004435, 624902443, 2448331348, 2612818252, 1987568642] 0 = [3061945439, 3922335334, 3369157256, 1206369355, 1158229263, 694769065, 889512134, 2611205901] := by decide
theorem c2cB36 : compress256 [3061945439, 3922335334, 3369157256, 1206369355, 1158229263, 694769065, 889512134, 2611205901] 0 = [4278389739, 3041773758, 1423549307, 1420321710, 1989528962, 1617842766, 3643229237, 3916506004] := by decide
theorem c2cB37 : compress256 [4278389739, 3041773758, 1423549307, 1420321710, 1989528962, 1617842766, 3643229237, 3916506004] 0 = [1221101514, 1803888862, 2130191111, 2748369580, 243155097, 2575027960, 180941629, 53029563] := by decide
theorem c2cB38 : compress256 [1221101514, 1803888862, 2130191111, 2748369580, 243155097, 2575027960, 180941629, 53029563] 0 = [3425253772, 581290519, 2406180409, 3095473297, 3973642546, 1147347146, 688361858, 3795785131] := by decide
theorem c2cB39 : compress256 [3425253772, 581290519, 2406180409, 3095473297, 3973642546, 1147347146, 688361858, 3795785131] 0 = [3779636683, 1889373929, 1961545349, 656988313, 4115507559, 2724891496, 1466402369, 4099983556] := by decide
theorem c2cB40 : compress256 [3779636683, 1889373929, 1961545349, 656988313, 4115507559, 2724891496, 1466402369, 4099983556] 0 = [171059626, 1055733203, 1272996189, 3577689080, 2735237410, 3250366601, 685403083, 2959100585] := by decide
theorem c2cB41 : compress256 [171059626, 1055733203, 1272996189, 3577689080, 2735237410, 3250366601, 685403083, 2959100585] 0 = [3270733206, 31960924, 2071901177, 2249647237, 2043004670, 2902254624, 3045150850, 1319768356] := by decide
theorem c2cB42 : compress256 [3270733206, 31960924, 2071901177, 2249647237, 2043004670, 2902254624, 3045150850, 1319768356] 0 = [409908999, 103391315, 2502013545, 511327750, 2050635369, 1463690849, 2140746378, 2202480283] := by decide
theorem c2cB43 : compress256 [409908999, 103391315, 2502013545, 511327750, 2050635369, 1463690849, 2140746378, 2202480283] 0 = [1522511535, 3616419415, 223750638, 326009736, 1748223869, 559697975, 2730205266, 856141046] := by decide
theorem c2cB44 : compress256 [1522511535, 3616419415, 223750638, 326009736, 1748223869, 559697975, 2730205266, 856141046] 0 = [1683246036, 1344858047, 3666059250, 298513315, 1393842660, 1699342629, 2608192752, 36183131] := by decide
theorem c2cB45 : compress256 [1683246036, 1344858047, 3666059250, 298513315, 1393842660, 1699342629, 2608192752, 36183131] 0 = [695772105, 3422014865, 2311690421, 1792433859, 3012802383, 293857724, 1194570566, 1111766263] := by decide
theorem c2cB46 : compress256 [695772105, 3422014865, 2311690421, 1792433859, 3012802383, 293857724, 1194570566, 1111766263] 0 = [2230354713, 1495254707, 2717348521, 3733167203, 308764966, 2932330770, 729841126, 2926748352] := by decide
theorem c2cB47 : compress256 [2230354713, 1495254707, 2717348521, 3733167203, 308764966, 2932330770, 729841126, 2926748352] 0 = [1888501371, 3839970671, 47448900, 4055663875, 252714320, 749375176, 3817669668, 2542637750] := by decide
theorem c2cB48 : compress256 [1888501371, 3839970671, 47448900, 4055663875, 252714320, 749375176, 3817669668, 2542637750] 0 = [3925835904, 1528136957, 1654827276, 786655754, 390741181, 2522326303, 1310820770, 1192946563] := by decide
theorem c2cB49 : compress256 [3925835904, 1528136957, 1654827276, 786655754, 390741181, 2522326303, 1310820770, 1192946563] 0 = [1021626516, 4215037737, 158127057, 732312138, 1984248203, 356812407, 1762964492, 2578994915] := by decide
theorem c2cB50 : compress256 [1021626516, 4215037737, 158127057, 732312138, 1984248203, 356812407, 1762964492, 2578994915] 0 = [1973928917, 3391246199, 2762470743, 4156752951, 1820446779, 2467740215, 2846827838, 1009692073] := by decide
theorem c2cB51 : compress256 [1973928917, 3391246199, 2762470743, 4156752951, 1820446779, 2467740215, 2846827838, 1009692073] 0 = [2290263983, 4029059537, 3906298757, 2625707559, 1299393411, 3050108932, 3082603163, 2096613300] := by decide
theorem c2cB52 : compress256 [2290263983, 4029059537, 3906298757, 2625707559, 1299393411, 3050108932, 3082603163, 2096613300] 0 = [3023539499, 1338738167, 3175532672, 2291945936, 1017289897, 3706096908, 846186878, 175761866] := by decide
theorem c2cB53 : compress256 [3023539499, 1338738167, 3175532672, 2291945936, 1017289897, 3706096908, 846186878, 175761866] 0 = [3717510949, 553016195, 4210775441, 258663836, 3357654505, 4034686294, 3481437859, 340926453] := by decide
theorem c2cB54 : compress256 [3717510949, 553016195, 4210775441, 258663836, 3357654505, 4034686294, 3481437859, 340926453] 0 = [69282823, 1036730956, 2580869301, 3069302621, 3328738168, 2122439900, 3655134295, 3835563296] := by decide
theorem c2cB55 : compress256 [69282823, 1036730956, 2580869301, 3069302621, 3328738168, 2122439900, 3655134295, 3835563296] 0 = [4269193681, 3805947793, 3697735478, 2963829965, 2353211670, 1997380299, 2549348746, 3056983967] := by decide
theorem c2cB56 : compress256 [4269193681, 3805947793, 3697735478, 2963829965, 2353211670, 1997380299, 2549348746, 3056983967] 0 = [2785031120, 4032398983, 1293401488, 3080975693, 3128954315, 2540201711, 2889818951, 2571776450] := by decide
theorem c2cB57 : compress256 [2785031120, 4032398983, 1293401488, 3080975693, 3128954315, 2540201711, 2889818951, 2571776450] 0 = [502734992, 3466645422, 2254215869, 1854306277, 3704343767, 313830315, 387207423, 3105098991] := by decide
theorem c2cB58 : compress256 [502734992, 3466645422, 2254215869, 1854306277, 3704343767, 313830315, 387207423, 3105098991] 0 = [1585715016, 1397437837, 667915984, 1639502139, 3696766346, 3781201071, 3720040777, 135705162] := by decide
theorem c2cB59 : compress256 [1585715016, 1397437837, 667915984, 1639502139, 3696766346, 3781201071, 3720040777, 135705162] 0 = [1792765510, 3634740869, 3336778435, 329062684, 144419563, 888287918, 1000164648, 611003680] := by decide
theorem c2cB60 : compress256 [1792765510, 3634740869, 3336778435, 329062684, 144419563, 888287918, 1000164648, 611003680] 0 = [756922328, 2627888607, 2661758160, 4126050887, 2713985098, 2850348692, 209612124, 1146491023] := by decide
theorem c2cB61 : compress256 [756922328, 2627888607, 2661758160, 4126050887, 2713985098, 2850348692, 209612124, 1146491023] 0 = [867700190, 683537310, 155496319, 115525796, 3771163246, 508978529, 1302302158, 3378693427] := by decide
theorem c2cB62 : compress256 [867700190, 683537310, 155496319, 115525796, 3771163246, 508978529, 1302302158, 3378693427] 0 = [2991203116, 1774873718, 2320628347, 3171660445, 2831529676, 3014672212, 3641461895, 509496959] := by decide
theorem c2cB63 : compress256 [2991203116, 1774873718, 2320628347, 3171660445, 2831529676, 3014672212, 3641461895, 509496959] 0 = [3070449596, 1628559687, 2585241686, 3080369087, 2581396505, 326078358, 2409449431, 757365351] := by decide
theorem c2cB64 : compress256 [3070449596, 1628559687, 2585241686, 3080369087, 2581396505, 326078358, 2409449431, 757365351] 0 = [2276149430, 708929629, 1057509854, 3376633915, 316374575, 224449813, 3009540112, 3005330664] := by decide
theorem c2cB65 : compress256 [2276149430, 708929629, 1057509854, 3376633915, 316374575, 224449813, 3009540112, 3005330664] 0 = [2561016439, 1872513537, 1496158764, 874529017, 2982521495, 1277382809, 663029734, 4252574127] := by decide
theorem c2cB66 : compress256 [2561016439, 1872513537, 1496158764, 874529017, 2982521495, 1277382809, 663029734, 4252574127] 0 = [4982913, 1815014778, 1298383136, 2786917917, 1139544803, 2772894612, 3169870406, 1302662430] := by decide
theorem c2cB67 : compress256 [4982913, 1815014778, 1298383136, 2786917917, 1139544803, 2772894612, 3169870406, 1302662430] 0 = [1309289939, 3586401024, 1324512825, 2510149597, 2345036165, 3437262362, 844284788, 3550387314] := by decide
theorem c2cB68 : compress256 [1309289939, 3586401024, 1324512825, 2510149597, 2345036165, 3437262362, 844284788, 3550387314] 0 = [2001357358, 923296528, 1318854799, 1348043651, 2605050300, 1127003093, 3697512150, 1650473563] := by decide
theorem c2cB69 : compress256 [2001357358, 923296528, 1318854799, 1348043651, 2605050300, 1127003093, 3697512150, 1650473563] 0 = [2906262000, 538315089, 2198732079, 680913736, 499819156, 2009802561, 347548422, 330893149] := by decide
theorem c2cB70 : compress256 [2906262000, 538315089, 2198732079, 680913736, 499819156, 2009802561, 347548422, 330893149] 0 = [813799678, 3361060087, 2815595472, 933299142, 2467411083, 649959586, 1426116539, 957135925] := by decide
theorem c2cB71 : compress256 [813799678, 3361060087, 2815595472, 933299142, 2467411083, 649959586, 1426116539, 957135925] 0 = [3780992447, 1213914109, 3630257051, 1691993611, 195422475, 3620762348, 1414365473, 134214077] := by decide
theorem c2cB72 : compress256 [3780992447, 1213914109, 3630257051, 1691993611, 195422475, 3620762348, 1414365473, 134214077] 0 = [3597724650, 899060543, 2613792902, 1155922805, 1963754243, 1586187314, 4168293252, 3702432107] := by decide
theorem c2cB73 : compress256 [3597724650, 899060543, 2613792902, 1155922805, 1963754243, 1586187314, 4168293252, 3702432107] 0 = [2113601683, 1080232623, 979738473, 1499951120, 1243619496, 3949262741, 3860761549, 624308738] := by decide
theorem c2cB74 : compress256 [2113601683, 1080232623, 979738473, 1499951120, 1243619496, 3949262741, 3860761549, 624308738] 0 = [1393296155, 3631359047, 2349311963, 3886779158, 1792764468, 74163061, 1186806332, 563367857] := by decide
theorem c2cB75 : compress256 [1393296155, 3631359047, 2349311963, 3886779158, 1792764468, 74163061, 1186806332, 563367857] 0 = [2877860265, 3863427178, 2191784146, 3895279943, 1015197645, 2177746097, 1840502365, 1168567832] := by decide
theorem c2cB76 : compress256 [2877860265, 3863427178, 2191784146, 3895279943, 1015197645, 2177746097, 1840502365, 1168567832] 0 = [3563198591, 1103397273, 22799897, 4247486392, 3702250636, 1651213816, 565756036, 585790294] := by decide
theorem c2cB77 : compress256 [3563198591, 1103397273, 22799897, 4247486392, 3702250636, 1651213816, 565756036, 585790294] 0 = [3566783590, 777144076, 462247676, 1525609192, 3075841161, 920982443, 1369513710, 3120258822] := by decide
theorem c2cB78 : compress256 [3566783590, 777144076, 462247676, 1525609192, 3075841161, 920982443, 1369513710, 3120258822] 0 = [2806522621, 1121475856, 3640060003, 4088418782, 306294687, 994362618, 130937161, 2141451586] := by decide
theorem c2cB79 : compress256 [2806522621, 1121475856, 3640060003, 4088418782, 306294687, 994362618, 130937161, 2141451586] 0 = [1169249733, 1807690703, 624890704, 3575750302, 787012820, 1451234457, 850717530, 2631484730] := by decide
theorem c2cB80 : compress256 [1169249733, 1807690703, 624890704, 3575750302, 787012820, 1451234457, 850717530, 2631484730] 0 = [3297836091, 853652958, 1459732381, 1651048160, 1132786567, 3643822047, 4118065462, 1364764001] := by decide
theorem c2cB81 : compress256 [3297836091, 853652958, 1459732381, 1651048160, 1132786567, 3643822047, 4118065462, 1364764001] 0 = [3829558538, 1188244918, 4291154109, 3861549070, 2153206949, 38551275, 3669037011, 89713412] := by decide
theorem c2cB82 : compress256 [3829558538, 1188244918, 4291154109, 3861549070, 2153206949, 38551275, 3669037011, 89713412] 0 = [1006911998, 2847449273, 936998952, 1898079315, 2582954189, 4131965600, 4088058444, 4017207974] := by decide
theorem c2cB83 : compress256 [1006911998, 2847449273, 936998952, 1898079315, 2582954189, 4131965600, 4088058444, 4017207974] 0 = [49931349, 780414412, 273769063, 1704581482, 1868794719, 1273305735, 1339294490, 684336191] := by decide
theorem c2cB84 : compress256 [49931349, 780414412, 273769063, 1704581482, 1868794719, 1273305735, 1339294490, 684336191] 0 = [1777666945, 4194693127, 2975376396, 2723505643, 440652059, 4110104104, 360490227, 3464746591] := by decide
theorem c2cB85 : compress256 [1777666945, 4194693127, 2975376396, 2723505643, 440652059, 4110104104, 360490227, 3464746591] 0 = [3234218802, 1399468826, 3051976785, 3396206788, 1077199915, 3798343465, 1732812697, 1273084146] := by decide
theorem c2cB86 : compress256 [3234218802, 1399468826, 3051976785, 3396206788, 1077199915, 3798343465, 1732812697, 1273084146] 0 = [755815635, 3604301067, 1051544786, 942149261, 440587325, 2327854617, 3708333088, 3426068332] := by decide
theorem c2cB87 : compress256 [755815635, 3604301067, 1051544786, 942149261, 440587325, 2327854617, 3708333088, 3426068332] 0 = [3344638067, 4137676314, 138222651, 717701761, 3021932181, 375022854, 1417842015, 1780869938] := by decide
theorem c2cB88 : compress256 [3344638067, 4137676314, 138222651, 717701761, 3021932181, 375022854, 1417842015, 1780869938] 0 = [638336865, 359891122, 2431572188, 268346578, 915510217, 3029776637, 2851569993, 4166242351] := by decide
theorem c2cB89 : compress256 [638336865, 359891122, 2431572188, 268346578, 915510217, 3029776637, 2851569993, 4166242351] 0 = [990382560, 1859773339, 701902844, 2171337037, 3132376710, 3616566512, 3915995314, 2276713725] := by decide
theorem c2cB90 : compress256 [990382560, 1859773339, 701902844, 2171337037, 3132376710, 3616566512, 3915995314, 2276713725] 0 = [267108372, 3012130535, 3718331904, 1876449746, 2498950647, 1084660856, 1582076672, 4234791653] := by decide
theorem c2cB91 : compress256 [267108372, 3012130535, 3718331904, 1876449746, 2498950647, 1084660856, 1582076672, 4234791653] 0 = [1169654708, 245241871, 1954635509, 176359103, 2028586757, 386885101, 2589033540, 4273339027] := by decide
theorem c2cB92 : compress256 [1169654708, 245241871, 1954635509, 176359103, 2028586757, 386885101, 2589033540, 4273339027] 0 = [345377286, 1419322075, 2338442747, 2734456998, 655506479, 3526756690, 130623269, 2297335567] := by decide
theorem c2cB93 : compress256 [345377286, 1419322075, 2338442747, 2734456998, 655506479, 3526756690, 130623269, 2297335567] 0 = [3558317228, 3052120605, 2372161669, 2414239627, 1987103548, 4048531147, 2014233388, 2127709588] := by decide
theorem c2cB94 : compress256 [3558317228, 3052120605, 2372161669, 2414239627, 1987103548, 4048531147, 2014233388, 2127709588] 0 = [2164024623, 3283100602, 3118931401, 3855502059, 3815405078, 3877308955, 2689285010, 3651773321] := by decide
theorem c2cB95 : compress256 [2164024623, 3283100602, 3118931401, 3855502059, 3815405078, 3877308955, 2689285010, 3651773321] 0 = [3960870357, 4034155406, 2883844473, 3020819157, 1334041473, 3963374595, 900953058, 3257056401] := by decide
theorem c2cB96 : compress256 [3960870357, 4034155406, 2883844473, 3020819157, 1334041473, 3963374595, 900953058, 3257056401] 0 = [2162822063, 7551835, 1125709706, 2740236377, 3503869631, 807108992, 4189406624, 1535372233] := by decide
theorem c2cB97 : compress256 [2162822063, 7551835, 1125709706, 2740236377, 3503869631, 807108992, 4189406624, 1535372233] 0 = [1110693206, 2427974950, 4083992504, 1856476072, 3810268907, 46754244, 4146584790, 2204108088] := by decide
theorem c2cB98 : compress256 [1110693206, 2427974950, 4083992504, 1856476072, 3810268907, 46754244, 4146584790, 2204108088] 0 = [1305997403, 3999291113, 2392167396, 3347005925, 2930090174, 1906672727, 1474449610, 2668439102] := by decide
theorem c2cB99 : compress256 [1305997403, 3999291113, 2392167396, 3347005925, 2930090174, 1906672727, 1474449610, 2668439102] 0 = [1823002148, 2422368342, 3945379608, 2464846595, 2155812074, 3804976951, 2395135803, 1955164581] := by decide
theorem c2cB100 : compress256 [1823002148, 2422368342, 3945379608, 2464846595, 2155812074, 3804976951, 2395135803, 1955164581] 0 = [468879008, 4258641146, 2002233585, 1342118177, 2830687898, 1187078182, 698368960, 2350757026] := by decide
theorem c2cB101 : compress256 [468879008, 4258641146, 2002233585, 1342118177, 2830687898, 1187078182, 698368960, 2350757026] 0 = [779528494, 755040398, 1866197625, 869966747, 2053073576, 2214954396, 1069302220, 2346825050] := by decide
theorem c2cB102 : compress256 [779528494, 755040398, 1866197625, 869966747, 2053073576, 2214954396, 1069302220, 2346825050] 0 = [2312187649, 1424913921, 1617042734, 480277883, 4241934753, 1624275497, 3987435219, 41728572] := by decide
theorem c2cB103 : compress256 [2312187649, 1424913921, 1617042734, 480277883, 4241934753, 1624275497, 3987435219, 41728572] 0 = [1619390434, 180082603, 313515771, 3035390646, 2338198706, 2063066183, 4149004872, 1034360567] := by decide
theorem c2cB104 : compress256 [1619390434, 180082603, 313515771, 3035390646, 2338198706, 2063066183, 4149004872, 1034360567] 0 = [2869246475, 3397697045, 115909508, 2498329856, 2373472696, 3037868893, 4067479700, 2346303726] := by decide
theorem c2cB105 : compress256 [2869246475, 3397697045, 115909508, 2498329856, 2373472696, 3037868893, 4067479700, 2346303726] 0 = [3106677833, 2130498004, 2719063946, 2757974230, 3200209730, 1494676743, 1825830767, 4121219169] := by decide
theorem c2cB106 : compress256 [3106677833, 2130498004, 2719063946, 2757974230, 3200209730, 1494676743, 1825830767, 4121219169] 0 = [2659883781, 702372370, 3380122453, 4041155333, 1051031319, 4124629286, 3777831915, 721487866] := by decide
theorem c2cB107 : compress256 [2659883781, 702372370, 3380122453, 4041155333, 1051031319, 4124629286, 3777831915, 721487866] 0 = [3323194640, 2299191401, 2931408654, 3248078448, 986633748, 1623872446, 2038931379, 2325933282] := by decide
theorem c2cB108 : compress256 [3323194640, 2299191401, 2931408654, 3248078448, 986633748, 1623872446, 2038931379, 2325933282] 0 = [2395995875, 3852926653, 3501866019, 4209944323, 2215789869, 1539377284, 1477083814, 1958615937] := by decide
theorem c2cB109 : compress256 [2395995875, 3852926653, 3501866019, 4209944323, 2215789869, 1539377284, 1477083814, 1958615937] 0 = [2914867870, 2122131952, 112589938, 1571763134, 546301020, 4059481749, 2910593246, 1103518985] := by decide
theorem c2cB110 : compress256 [2914867870, 2122131952, 112589938, 1571763134, 546301020, 4059481749, 2910593246, 1103518985] 0 = [2896412515, 1648832876, 1956457339, 3824862772, 2310390094, 401965624, 834298824, 2788982287] := by decide
theorem c2cB111 : compress256 [2896412515, 1648832876, 1956457339, 3824862772, 2310390094, 401965624, 834298824, 2788982287] 0 = [769700206, 1977777893, 3445559451, 60591392, 1562064646, 1384427967, 1297806502, 119536770] := by decide
theorem c2cB112 : compress256 [769700206, 1977777893, 3445559451, 60591392, 1562064646, 1384427967, 1297806502, 119536770] 0 = [982154472, 4127124872, 1164053678, 1554158038, 3509148997, 3803732804, 4151191160, 440700075] := by decide
theorem c2cB113 : compress256 [982154472, 4127124872, 1164053678, 1554158038, 3509148997, 3803732804, 4151191160, 440700075] 0 = [1355337810, 3667992994, 3648758779, 2142149418, 3814528551, 597705509, 3906106663, 3536927990] := by decide
theorem c2cB114 : compress256 [1355337810, 3667992994, 3648758779, 2142149418, 3814528551, 597705509, 3906106663, 3536927990] 0 = [4243251574, 4031114667, 2651660329, 723256782, 986326948, 1630763550, 2743519975, 848828262] := by decide
theorem c2cB115 : compress256 [4243251574, 4031114667, 2651660329, 723256782, 986326948, 1630763550, 2743519975, 848828262] 0 = [3856266498, 3745306921, 3227648574, 648035590, 436484972, 379990476, 802750271, 3160500488] := by decide
theorem c2cB116 : compress256 [3856266498, 3745306921, 3227648574, 648035590, 436484972, 379990476, 802750271, 3160500488] 0 = [1169941228, 4227392226, 3773019039, 2101343669, 2035805175, 63893850, 3757215930, 874775166] := by decide
theorem c2cB117 : compress256 [1169941228, 4227392226, 3773019039, 2101343669, 2035805175, 63893850, 3757215930, 874775166] 0 = [853067626, 3348636471, 1572968169, 111018826, 310947222, 1925346621, 3854452275, 697260685] := by decide
theorem c2cB118 : compress256 [853067626, 3348636471, 1572968169, 111018826, 310947222, 1925346621, 3854452275, 697260685] 0 = [1757150128, 2118952109, 3794415634, 3981903741, 4042347325, 2703734381, 3340001577, 4154777157] := by decide
theorem c2cB119 : compress256 [1757150128, 2118952109, 3794415634, 3981903741, 4042347325, 2703734381, 3340001577, 4154777157] 0 = [1927254709, 1933064835, 4097789517, 3871860788, 998810803, 1506972004, 4253495977, 1182273070] := by decide
theorem c2cB120 : compress256 [1927254709, 1933064835, 4097789517, 3871860788, 998810803, 1506972004, 4253495977, 1182273070] 0 = [3782302278, 3745575340, 2732108852, 1709161744, 2186464807, 1862214360, 17621374, 3774348258] := by decide
theorem c2cB121 : compress256 [3782302278, 3745575340, 2732108852, 1709161744, 2186464807, 1862214360, 17621374, 3774348258] 0 = [3457363635, 927067772, 816813394, 1558902019, 922656318, 4056651184, 2054316615, 78539624] := by decide
theorem c2cB122 : compress256 [3457363635, 927067772, 816813394, 1558902019, 922656318, 4056651184, 2054316615, 78539624] 0 = [1632097605, 1664427088, 3105605084, 1905324397, 2801206664, 3297240522, 3509802226, 4124794279] := by decide
theorem c2cB123 : compress256 [1632097605, 1664427088, 3105605084, 1905324397, 2801206664, 3297240522, 3509802226, 4124794279] 0 = [2993710055, 4150453498, 2659658452, 1085170921, 4046141890, 3522766423, 3797401402, 2235828279] := by decide
theorem c2cB124 : compress256 [2993710055, 4150453498, 2659658452, 1085170921, 4046141890, 3522766423, 3797401402, 2235828279] 0 = [286217268, 4115181462, 184022423, 2152117196, 3966098972, 2614418509, 2161804287, 2647147876] := by decide
theorem c2cB125 : compress256 [286217268, 4115181462, 184022423, 2152117196, 3966098972, 2614418509, 2161804287, 2647147876] 0 = [3216927094, 2646289264, 3839089745, 15347609, 2573882526, 3554258796, 4082160381, 3622972310] := by decide
theorem c2cB126 : compress256 [3216927094, 2646289264, 3839089745, 15347609, 2573882526, 3554258796, 4082160381, 3622972310] 0 = [1864176221, 3625410146, 459069592, 2416020518, 1891307511, 1059965480, 4275660621, 3120261901] := by decide
theorem c2cB127 : compress256 [1864176221, 3625410146, 459069592, 2416020518, 1891307511, 1059965480, 4275660621, 3120261901] 0 = [3007557561, 3913486390, 2025503637, 2936769834, 2322579692, 1322302159, 2230882593, 123636140] := by decide
theorem c2cB128 : compress256 [3007557561, 3913486390, 2025503637, 2936769834, 2322579692, 1322302159, 2230882593, 123636140] 0 = [4043311423, 650719, 3044682252, 3387009209, 3091846198, 4051434822, 3131549462, 4513717] := by decide
theorem c2cB129 : compress256 [4043311423, 650719, 3044682252, 3387009209, 3091846198, 4051434822, 3131549462, 4513717] 0 = [1605826557, 1566097521, 2872080376, 3809593251, 1574574377, 627138249, 3996141791, 3751978287] := by decide
theorem c2cB130 : compress256 [1605826557, 1566097521, 2872080376, 3809593251, 1574574377, 627138249, 3996141791, 3751978287] 0 = [1357532519, 3214945863, 639291314, 3642733126, 2326760846, 3302739151, 814244549, 2754216331] := by decide
theorem c2cB131 : compress256 [1357532519, 3214945863, 639291314, 3642733126, 2326760846, 3302739151, 814244549, 2754216331] 0 = [3006445869, 4220108544, 3686796241, 2215978009, 4198878187, 1310488842, 440930676, 481271287] := by decide
theorem c2cB132 : compress256 [3006445869, 4220108544, 3686796241, 2215978009, 4198878187, 1310488842, 440930676, 481271287] 0 = [3042995901, 2894769038, 3256169335, 2496320859, 3849562816, 2304737164, 2618138635, 3203177299] := by decide
theorem c2cB133 : compress256 [3042995901, 2894769038, 3256169335, 2496320859, 3849562816, 2304737164, 2618138635, 3203177299] 0 = [1779324081, 146934607, 787649631, 1025607682, 1644453070, 817924796, 2981433485, 1487594536] := by decide
theorem c2cB134 : compress256 [1779324081, 146934607, 787649631, 1025607682, 1644453070, 817924796, 2981433485, 1487594536] 0 = [3439994362, 1714214050, 3937285227, 2906527029, 610582920, 2772937988, 3085463630, 2582920943] := by decide
theorem c2cB135 : compress256 [3439994362, 1714214050, 3937285227, 2906527029, 610582920, 2772937988, 3085463630, 2582920943] 0 = [380852313, 1047532054, 593470831, 868322958, 3022605197, 743967044, 1240902975, 1470968358] := by decide
theorem c2cB136 : compress256 [380852313, 1047532054, 593470831, 868322958, 3022605197, 743967044, 1240902975, 1470968358] 0 = [4276860696, 606019909, 1423877871, 2726688247, 3568351592, 1737473333, 3601133607, 3650258426] := by decide
theorem c2cB137 : compress256 [4276860696, 606019909, 1423877871, 2726688247, 3568351592, 1737473333, 3601133607, 3650258426] 0 = [3218871934, 1913888796, 733527528, 3344391604, 3321121359, 1037616264, 3222008180, 3881701454] := by decide
theorem c2cB138 : compress256 [3218871934, 1913888796, 733527528, 3344391604, 3321121359, 1037616264, 3222008180, 3881701454] 0 = [3597728086, 3235972462, 2628217549, 2901407372, 3219429363, 2738156330, 858134934, 269466682] := by decide
theorem c2cB139 : compress256 [3597728086, 3235972462, 2628217549, 2901407372, 3219429363, 2738156330, 858134934, 269466682] 0 = [1365556838, 2865095532, 715920770, 3980242501, 3155351928, 629411874, 3129887494, 2865377240] := by decide
theorem c2cB140 : compress256 [1365556838, 2865095532, 715920770, 3980242501, 3155351928, 629411874, 3129887494, 2865377240] 0 = [907368962, 39939669, 1908020775, 4135856522, 3473973806, 1475549481, 832576035, 1797611257] := by decide
theorem c2cB141 : compress256 [907368962, 39939669, 1908020775, 4135856522, 3473973806, 1475549481, 832576035, 1797611257] 0 = [3705401179, 1677281387, 3605495338, 838350844, 1129494690, 3890961439, 2215107579, 528677185] := by decide
theorem c2cB142 : compress256 [3705401179, 1677281387, 3605495338, 838350844, 1129494690, 3890961439, 2215107579, 528677185] 0 = [1529113199, 4197294734, 2729922286, 3459123998, 1948005850, 1569667636, 645082749, 795170148] := by decide
theorem c2cB143 : compress256 [1529113199, 4197294734, 2729922286, 3459123998, 1948005850, 1569667636, 645082749, 795170148] 0 = [4041215380, 1039310987, 2852034888, 3931107455, 2072336117, 1592456903, 213978593, 346991325] := by decide
theorem c2cB144 : compress256 [4041215380, 1039310987, 2852034888, 3931107455, 2072336117, 1592456903, 213978593, 346991325] 0 = [2426401244, 2168278540, 3721408138, 1027848931, 1618612368, 2389939649, 502972551, 2090797411] := by decide
theorem c2cB145 : compress256 [2426401244, 2168278540, 3721408138, 1027848931, 1618612368, 2389939649, 502972551, 2090797411] 0 = [2644414190, 3425226803, 3024379675, 2807512277, 3250784928, 3597436244, 1892914026, 2611931828] := by decide
theorem c2cB146 : compress256 [2644414190, 3425226803, 3024379675, 2807512277, 3250784928, 3597436244, 1892914026, 2611931828] 0 = [989813266, 285412114, 1558398668, 2980128912, 1317962313, 4274575359, 1927487071, 1006455812] := by decide
theorem c2cB147 : compress256 [989813266, 285412114, 1558398668, 2980128912, 1317962313, 4274575359, 1927487071, 1006455812] 0 = [3071207800, 3284184061, 455187363, 1385200451, 735257610, 4191758848, 1744103786, 1659585290] := by decide
theorem c2cB148 : compress256 [3071207800, 3284184061, 455187363, 1385200451, 735257610, 4191758848, 1744103786, 1659585290] 0 = [3431176860, 639575313, 3154925490, 318543743, 1061832769, 690055310, 2229913284, 101952431] := by decide
theorem c2cB149 : compress256 [3431176860, 639575313, 3154925490, 318543743, 1061832769, 690055310, 2229913284, 101952431] 0 = [3485860306, 2314633502, 2796401324, 1554849419, 1768753007, 3145753378, 3262949003, 2001294526] := by decide
theorem c2cB150 : compress256 [3485860306, 2314633502, 2796401324, 1554849419, 1768753007, 3145753378, 3262949003, 2001294526] 0 = [2989565030, 2832851548, 1853858955, 501138990, 1119546663, 907401173, 1109552227, 4176415060] := by decide
theorem c2cB151 : compress256 [2989565030, 2832851548, 1853858955, 501138990, 1119546663, 907401173, 1109552227, 4176415060] 0 = [3632667849, 289437576, 572923705, 4226691119, 1526785417, 3901418815, 2786147092, 3751611318] := by decide
theorem c2cB152 : compress256 [3632667849, 289437576, 572923705, 4226691119, 1526785417, 3901418815, 2786147092, 3751611318] 0 = [286338699, 476332974, 2458222408, 2050185016, 462575677, 2278131848, 3210163281, 1477889940] := by decide
theorem c2cB153 : compress256 [286338699, 476332974, 2458222408, 2050185016, 462575677, 2278131848, 3210163281, 1477889940] 0 = [4171519667, 1025469386, 850104901, 777689146, 45530439, 2227224470, 2390056972, 1348869524] := by decide
theorem c2cB154 : compress256 [4171519667, 1025469386, 850104901, 777689146, 45530439, 2227224470, 2390056972, 1348869524] 0 = [4071238967, 855107103, 2791665289, 2350145069, 993404607, 1127272380, 368203744, 2739465803] := by decide
theorem c2cB155 : compress256 [4071238967, 855107103, 2791665289, 2350145069, 993404607, 1127272380, 368203744, 2739465803] 0 = [738539203, 2057541938, 508052771, 4116942888, 2326320460, 625268236, 1950408218, 2072533911] := by decide
theorem c2cB156 : compress256 [738539203, 2057541938, 508052771, 4116942888, 2326320460, 625268236, 1950408218, 2072533911] 0 = [378266424, 1603589186, 1544063910, 150383260, 3141691238, 672893859, 629703020, 1401321866] := by decide
theorem c2cB157 : compress256 [378266424, 1603589186, 1544063910, 150383260, 3141691238, 672893859, 629703020, 1401321866] 0 = [982472657, 3802079480, 4165090817, 1667897640, 2670255795, 3327768650, 3422342680, 2091458900] := by decide
theorem c2cB158 : compress256 [982472657, 3802079480, 4165090817, 1667897640, 2670255795, 3327768650, 3422342680, 2091458900] 0 = [3833970556, 2850108629, 4177379931, 403582663, 2946583206, 74802928, 3422539753, 448626481] := by decide
theorem c2cB159 : compress256 [3833970556, 2850108629, 4177379931, 403582663, 2946583206, 74802928, 3422539753, 448626481] 0 = [745326222, 207191187, 2422990799, 2466987238, 539165425, 1996930820, 3644282760, 3033167094] := by decide
theorem c2cB160 : compress256 [745326222, 207191187, 2422990799, 2466987238, 539165425, 1996930820, 3644282760, 3033167094] 6703903964971298549787012499102923063739682910296196688861780721860882015036773488400937149083451713845015929093243025426876941405973284973216824503123968 = [3270229509, 2058114651, 1057902180, 1694077673, 1049635759, 1256885007, 879383717, 1991631157] := by decide

theorem c2wordsB : sha256words (tarArchive [c2entryB]) = [3270229509, 2058114651, 1057902180, 1694077673, 1049635759, 1256885007, 879383717, 1991631157] := by
  show sha256blocks ((sha256pad (tarArchive [c2entryB])).len / 64) (sha256pad (tarArchive [c2entryB])).val h256 = [3270229509, 2058114651, 1057902180, 1694077673, 1049635759, 1256885007, 879383717, 1991631157]
  rw [show (sha256pad (tarArchive [c2entryB])).len / 64 = 161 from by decide]
  rw [sha256blocks_eq_foldl, c2blocksB]
  simp only [List.foldl_cons, List.foldl_nil]
  rw [c2cB0, c2cB1, c2cB2, c2cB3, c2cB4, c2cB5, c2cB6, c2cB7, c2cB8, c2cB9, c2cB10, c2cB11, c2cB12, c2cB13, c2cB14, c2cB15, c2cB16, c2cB17, c2cB18, c2cB19, c2cB20, c2cB21, c2cB22, c2cB23, c2cB24, c2cB25, c2cB26, c2cB27, c2cB28, c2cB29, c2cB30, c2cB31, c2cB32, c2cB33, c2cB34, c2cB35, c2cB36, c2cB37, c2cB38, c2cB39, c2cB40, c2cB41, c2cB42, c2cB43, c2cB44, c2cB45, c2cB46, c2cB47, c2cB48, c2cB49, c2cB50, c2cB51, c2cB52, c2cB53, c2cB54, c2cB55, c2cB56, c2cB57, c2cB58, c2cB59, c2cB60, c2cB61, c2cB62, c2cB63, c2cB64, c2cB65, c2cB66, c2cB67, c2cB68, c2cB69, c2cB70, c2cB71, c2cB72, c2cB73, c2cB74, c2cB75, c2cB76, c2cB77, c2cB78, c2cB79, c2cB80, c2cB81, c2cB82, c2cB83, c2cB84, c2cB85, c2cB86, c2cB87, c2cB88, c2cB89, c2cB90, c2cB91, c2cB92, c2cB93, c2cB94, c2cB95, c2cB96, c2cB97, c2cB98, c2cB99, c2cB100, c2cB101, c2cB102, c2cB103, c2cB104, c2cB105, c2cB106, c2cB107, c2cB108, c2cB109, c2cB110, c2cB111, c2cB112, c2cB113, c2cB114, c2cB115, c2cB116, c2cB117, c2cB118, c2cB119, c2cB120, c2cB121, c2cB122, c2cB123, c2cB124, c2cB125, c2cB126, c2cB127, c2cB128, c2cB129, c2cB130, c2cB131, c2cB132, c2cB133, c2cB134, c2cB135, c2cB136, c2cB137, c2cB138, c2cB139, c2cB140, c2cB141, c2cB142, c2cB143, c2cB144, c2cB145, c2cB146, c2cB147, c2cB148, c2cB149, c2cB150, c2cB151, c2cB152, c2cB153, c2cB154, c2cB155, c2cB156, c2cB157, c2cB158, c2cB159, c2cB160]

/-- Digest of the layer tar of the B directory, evaluated blockwise. -/
theorem c2digestB : layer_tar_digest [c2entryB] = "c2ebbe057aac565b3f0e4e6464f992e93e902baf4aea8b0f346a54a576b5e135" := by
  unfold layer_tar_digest
  rw [hash_digest_eq_sha256hex _ (tarArchive_wf _)]
  show hexOfWords (sha256words (tarArchive [c2entryB])) = _
  rw [c2wordsB]
  decide

/-- C2 is false as stated: the two staged directories agree on file
names, byte contents and permission bits (differing only in on-disk
timestamps and owner/group identities — here the numeric uid and the
owner names), yet the layer digests differ, because `set_tar_headers`
does not normalize the numeric `uid`/`gid` fields that `tarfile` copies
from `os.lstat` into the tar header. -/
theorem c2_uid_changes_digest :
    (c2entryA.name = c2entryB.name ∧ c2entryA.content = c2entryB.content ∧
      c2entryA.mode = c2entryB.mode) ∧
    layer_tar_digest [c2entryA] ≠ layer_tar_digest [c2entryB] := by
  refine ⟨⟨rfl, rfl, rfl⟩, ?_⟩
  rw [c2digestA, c2digestB]
  decide

/-! ## JSON values

The metadata files are Python dict/list/str/int structures serialized
with `json.dump`; they are modelled by a small JSON value type whose
object fields keep the literal order of the source. -/

/-- A JSON value. -/
inductive JValue where
  | s (v : String)
  | n (v : Int)
  | arr (vs : List JValue)
  | obj (fields : List (String × JValue))

/-- Lookup of a key in the fields of a JSON object. -/
def lookupFields : List (String × JValue) → String → Option JValue
  | [], _ => none
  | (k', v) :: rest, k => if k' = k then some v else lookupFields rest k

/-- Lookup of a key in a JSON object (`none` on non-objects). -/
def JValue.lookup : JValue → String → Option JValue
  | .obj fs, k => lookupFields fs k
  | _, _ => none

/-- Fuel-indexed worklist search: does the key occur in any object
anywhere inside one of the values? -/
def hasKeyAny : Nat → List JValue → String → Bool
  | 0, _, _ => false
  | _ + 1, [], _ => false
  | fuel + 1, v :: rest, k =>
      match v with
      | .obj fs => fs.any (fun p => p.1 = k) || hasKeyAny fuel (fs.map Prod.snd ++ rest) k
      | .arr vs => hasKeyAny fuel (vs ++ rest) k
      | _ => hasKeyAny fuel rest k

/-- Does the key occur in any object anywhere inside the value? -/
def JValue.hasKeyDeep (fuel : Nat) (v : JValue) (k : String) : Bool :=
  hasKeyAny fuel [v] k

/-! ## Python primitives

`str.split(sep, 1)`, `int()`, dict construction and the repository-name
regular expression, as `configure` and `preflight` use them. -/

/-- Python `str.split(sep, 1)` on a character list: one or two parts. -/
def splitOnceL (sep : Char) : List Char → List (List Char)
  | [] => [[]]
  | c :: cs =>
      if c = sep then [[], cs]
      else
        match splitOnceL sep cs with
        | [x] => [c :: x]
        | [x, y] => [c :: x, y]
        | r => r

/-- Python `str.split(sep, 1)`. -/
def splitOnce (sep : Char) (s : String) : List String :=
  (splitOnceL sep s.toList).map (fun l => String.mk l)

/-- Decimal digit-string value. -/
def digitsValGo : List Char → Nat → Option Nat
  | [], acc => some acc
  | c :: cs, acc =>
      if c.isDigit then digitsValGo cs (acc * 10 + (c.toNat - 48)) else none

/-- Value of a nonempty decimal digit string. -/
def digitsVal : List Char → Option Nat
  | [] => none
  | l => digitsValGo l 0

/-- Model of Python `int()` on an optionally signed decimal literal
(full `int()` also strips whitespace and accepts underscores, which the
port strings of this element never contain). -/
def pyInt (s : String) : Option Int :=
  match s.toList with
  | '-' :: rest => (digitsVal rest).map (fun n => -(n : Int))
  | l => (digitsVal l).map (fun n => (n : Int))

/-- Keys of a Python dict built by inserting the pairs in order: first
occurrence order, duplicate keys collapsed. -/
def dictKeysGo (seen : List String) : List (String × String) → List String
  | [] => []
  | (k, _) :: rest =>
      if k ∈ seen then dictKeysGo seen rest else k :: dictKeysGo (k :: seen) rest

/-- Keys of a Python dict built from the pairs, in insertion order. -/
def dictKeys (ps : List (String × String)) : List String := dictKeysGo [] ps

/-- Value of a key in a Python dict built from the pairs (the last
binding wins). -/
def dictGet (ps : List (String × String)) (k : String) : Option String :=
  (ps.reverse.find? (fun p => p.1 = k)).map Prod.snd

/-- `dict(ps).items()`: first-insertion key order, last value wins. -/
def dictItems (ps : List (String × String)) : List (String × String) :=
  (dictKeys ps).map (fun k => (k, (dictGet ps k).getD ""))

/-- Keys of the `{x: {} for x in l}` dict comprehension: `l` with
duplicates collapsed to the first occurrence. -/
def dedupKeys (l : List String) : List String :=
  dictKeys (l.map (fun s => (s, "")))

/-- Lowercase-alphanumeric character class `[a-z0-9]` of the repository
regular expression. -/
def isLowerAl (c : Char) : Bool :=
  (97 ≤ c.toNat && c.toNat ≤ 122) || (48 ≤ c.toNat && c.toNat ≤ 57)

/-- The separator class `[. _ / -]`. -/
def isSepChar (c : Char) : Bool :=
  c = '.' || c = '_' || c = '/' || c = '-'

/-- State machine for `([a-z0-9][. _ / -]?)+` after its first character:
the flag records that the previous character was a separator, so the
next one must be alphanumeric. -/
def repoPartGo : Bool → List Char → Bool
  | _, [] => true
  | true, c :: rest => isLowerAl c && repoPartGo false rest
  | false, c :: rest =>
      if isLowerAl c then repoPartGo false rest
      else if isSepChar c then repoPartGo true rest
      else false

/-- Matcher for one `([a-z0-9][. _ / -]?)+` group: nonempty, starts with
`[a-z0-9]`, never two separators in a row, may end with a separator. -/
def repoPart : List Char → Bool
  | [] => false
  | c :: rest => isLowerAl c && repoPartGo false rest

/-- `re.fullmatch` of the repository syntax
`([a-z0-9][. _ / -]?)+(:([a-z0-9][. _ / -]?)+)?` used by `preflight`: a part,
optionally a colon and a second part (a second colon makes the second
part fail, since `:` is in neither character class). -/
def repoFullmatch (s : String) : Bool :=
  match splitOnceL ':' s.toList with
  | [p] => repoPart p
  | [p, t] => repoPart p && repoPart t
  | _ => false

/-! ## `configure` -/

/-- The `health-check` sub-node of the element configuration; a `none`
field is absent from the YAML and takes the `node_get_member` default. -/
structure HealthCheckNode where
  tests : Option (List String)
  interval : Option Int
  timeout : Option Int
  retries : Option Int
deriving DecidableEq

/-- The validated element configuration node (the `config:` keys of the
.bst file, already schema-checked by `node_validate`). -/
structure ConfigNode where
  exposedPorts : List String
  env : List String
  entryPoint : List String
  cmd : List String
  volumes : List String
  workingDir : String
  healthCheck : HealthCheckNode
  imageNames : List String
deriving DecidableEq

/-- The `_health_check` record built by `configure`, with the
`node_get_member` defaults applied. -/
structure HealthCheck where
  Tests : List String
  Interval : Int
  Timeout : Int
  Retries : Int
deriving DecidableEq

/-- The element state after `configure`: ports and volumes reformatted
to dicts (keys kept), image names reformatted to a name → tag dict. -/
structure DockerConfig where
  exposedPorts : List String
  env : List String
  entryPoint : List String
  cmd : List String
  volumes : List String
  workingDir : String
  healthCheck : HealthCheck
  imageNames : List (String × String)
deriving DecidableEq

/-- A raised Python exception: a BuildStream `ElementError` with message
and reason, or a `ValueError` escaping from library code. -/
inductive PyErr where
  | element (msg reason : String)
  | valueError
deriving DecidableEq

/-- `dict([repo.split(':', 1) for repo in image_names])`: the split
pairs, or the `ValueError` the `dict` constructor raises when an entry
contains no colon (its split is a 1-element list). -/
def imageNamePairs : List String → Except PyErr (List (String × String))
  | [] => .ok []
  | nm :: rest =>
      match splitOnce ':' nm with
      | [r, t] =>
          match imageNamePairs rest with
          | .ok ps => .ok ((r, t) :: ps)
          | .error e => .error e
      | _ => .error .valueError

/-- Model of `configure`: populate the config attributes, apply the
health-check defaults, and reformat ports, volumes and image names to
dicts as the Docker image specification mandates. -/
def configure (node : ConfigNode) : Except PyErr DockerConfig :=
  match imageNamePairs node.imageNames with
  | .error e => .error e
  | .ok pairs => .ok {
    exposedPorts := dedupKeys node.exposedPorts
    env := node.env
    entryPoint := node.entryPoint
    cmd := node.cmd
    volumes := dedupKeys node.volumes
    workingDir := node.workingDir
    healthCheck := {
      Tests := node.healthCheck.tests.getD ["NONE"]
      Interval := node.healthCheck.interval.getD 0
      Timeout := node.healthCheck.timeout.getD 0
      Retries := node.healthCheck.retries.getD 0 }
    imageNames := dictItems pairs }

/-! ## `preflight` -/

/-- The admissible port protocol options. -/
def portOptions : List String := ["tcp", "udp"]

/-- The check `preflight` runs for one exposed port: split off a
protocol suffix at the first `/` and require it to be `tcp` or `udp`,
then parse the numeric part with `int()` and require it to be at most
65535 and nonnegative. -/
def checkPortRange (selfName q : String) : Except PyErr Unit :=
  match pyInt q with
  | none => .error .valueError
  | some n =>
      if 65535 < n ∨ n < 0 then
        .error (.element (selfName ++ ": Invalid port number " ++ q)
          "docker-port-out-out-of-range")
      else .ok ()

/-- One iteration of the port loop of `preflight`: the protocol check,
then the range check on the (possibly rebound) numeric part. -/
def checkPort (selfName p : String) : Except PyErr Unit :=
  if p.toList.contains '/' then
    match splitOnce '/' p with
    | [q, opt] =>
        if portOptions.contains opt then checkPortRange selfName q
        else .error (.element (selfName ++ ": Invalid port option " ++ opt ++
          ". Options include: ['tcp', 'udp']") "docker-invalid-port-option")
    | _ => checkPortRange selfName p
  else checkPortRange selfName p

/-- The port loop of `preflight`. -/
def checkPorts (selfName : String) : List String → Except PyErr Unit
  | [] => .ok ()
  | p :: ps =>
      match checkPort selfName p with
      | .error e => .error e
      | .ok _ => checkPorts selfName ps

/-- The image-name loop of `preflight` (iterating the keys of the
name → tag dict); note that the source reuses the reason string
`docker-bdepend-wrong-count` of the build-dependency count check. -/
def checkNames (selfName : String) : List String → Except PyErr Unit
  | [] => .ok ()
  | nm :: rest =>
      if repoFullmatch nm then checkNames selfName rest
      else .error (.element (selfName ++ ": " ++ nm ++ " image name is not valid")
        "docker-bdepend-wrong-count")

/-- Model of `preflight`: port validation, the build-dependency count
check, then image-name validation, in source order.  Elements are
opaque `Nat` handles; `buildDeps` is the declared direct
build-dependency list. -/
def preflight (selfName : String) (cfg : DockerConfig) (buildDeps : List Nat) :
    Except PyErr Unit :=
  match checkPorts selfName cfg.exposedPorts with
  | .error e => .error e
  | .ok _ =>
      if buildDeps.length < 1 then
        .error (.element
          (selfName ++ ": DockerElement element must have at least one build dependency")
          "docker-bdepend-wrong-count")
      else
        checkNames selfName (cfg.imageNames.map Prod.fst)

/-! ## The dependency flattener `_stage_layers` / `_stage_layer`

Elements are opaque `Nat` handles; `g e` is the ordered runtime
dependency list of `e` supplied by the collaborator (spec section 6,
item (b)).  `_stage_layer` walks runtime dependencies depth first,
skipping elements in the *shared* visited set and staging each newly
visited element after its dependencies; recursion is fuel-indexed. -/

mutual

/-- Model of `_stage_layer`: stage `e`'s runtime closure into one layer,
skipping and updating the shared visited list; returns the elements
staged into this layer in staging order and the updated visited list. -/
def stageLayer (g : Nat → List Nat) (fuel : Nat) (e : Nat) (visited : List Nat) :
    List Nat × List Nat :=
  match fuel with
  | 0 => ([], visited)
  | f + 1 =>
      if e ∈ visited then ([], visited)
      else
        let r := stageDeps g f (g e) (e :: visited)
        (r.1 ++ [e], r.2)
termination_by (fuel, 0)

/-- The loop of `_stage_layer` over the runtime dependencies. -/
def stageDeps (g : Nat → List Nat) (fuel : Nat) (ds : List Nat) (visited : List Nat) :
    List Nat × List Nat :=
  match ds with
  | [] => ([], visited)
  | d :: ds' =>
      let r1 := stageLayer g fuel d visited
      let r2 := stageDeps g fuel ds' r1.2
      (r1.1 ++ r2.1, r2.2)
termination_by (fuel, ds.length + 1)

end

/-- Model of `_stage_layers`: one layer per direct build dependency, in
declaration order, all sharing one visited list created once before the
loop. -/
def stageLayers (g : Nat → List Nat) (fuel : Nat) : List Nat → List Nat → List (List Nat)
  | [], _ => []
  | b :: bs, visited =>
      let r := stageLayer g fuel b visited
      r.1 :: stageLayers g fuel bs r.2

theorem stageLayers_length (g : Nat → List Nat) (fuel : Nat) :
    ∀ (bds : List Nat) (v : List Nat), (stageLayers g fuel bds v).length = bds.length := by
  intro bds
  induction bds with
  | nil => intro v; rfl
  | cons b bs ih => intro v; simp [stageLayers, ih]

/-- Stage one file into a directory listing: a file of the same name is
overwritten in place, a new file is appended. -/
def stageFile (dir : List FsEntry) (f : FsEntry) : List FsEntry :=
  if dir.any (fun x => x.name = f.name) then
    dir.map (fun x => if x.name = f.name then f else x)
  else dir ++ [f]

/-- Stage an element's files into a directory listing, in order. -/
def stageFiles (dir : List FsEntry) (fs : List FsEntry) : List FsEntry :=
  fs.foldl stageFile dir

/-- The staged directory of one layer: the files of its elements
(`files e` is the file diff element `e` materializes), staged in
traversal order, last writer wins. -/
def layerDir (files : Nat → List FsEntry) (elems : List Nat) : List FsEntry :=
  elems.foldl (fun d e => stageFiles d (files e)) []

/-- The digest `_create_layer` assigns to a staged layer directory. -/
def layerDigestOf (files : Nat → List FsEntry) (elems : List Nat) : String :=
  layer_tar_digest (layerDir files elems)

/-! ## The metadata generators -/

/-- The `_author` header `configure` sets. -/
def authorHeader : String := "BuildStream docker_image plugin"

/-- The `{x: {} for x in l}` expansion embedded in the records. -/
def emptyObjs (keys : List String) : List (String × JValue) :=
  keys.map (fun k => (k, JValue.obj []))

/-- The `_health_check` record as embedded in the image config. -/
def healthCheckJson (h : HealthCheck) : JValue :=
  .obj [("Tests", .arr (h.Tests.map JValue.s)), ("Interval", .n h.Interval),
        ("Timeout", .n h.Timeout), ("Retries", .n h.Retries)]

/-- Model of `_create_repositories_file`: maps each repository name to
`"<tag>:<top_layer_digest>"` for the digest it is handed. -/
def create_repositories_file (cfg : DockerConfig) (top_layer_digest : String) : JValue :=
  .obj (cfg.imageNames.map (fun p => (p.1, JValue.s (p.2 ++ ":" ++ top_layer_digest))))

/-- Model of `_create_manifest`: a single-entry list with the config
file name, the layer tar paths bottom to top, and the repo tags. -/
def create_manifest (cfg : DockerConfig) (layer_digests : List String)
    (config_digest : String) : JValue :=
  .arr [.obj [
    ("Config", .s (config_digest ++ ".json")),
    ("Layers", .arr (layer_digests.map (fun d => JValue.s (d ++ "/layer.tar")))),
    ("RepoTags", .arr (cfg.imageNames.map (fun p => JValue.s (p.1 ++ ":" ++ p.2))))]]

/-- Model of the `image_config` record of `_create_image_config`. -/
def create_image_config (cfg : DockerConfig) (created : String)
    (layer_digests : List String) : JValue :=
  .obj [
    ("created", .s created),
    ("author", .s authorHeader),
    ("config", .obj [
      ("ExposedPorts", .obj (emptyObjs cfg.exposedPorts)),
      ("Env", .arr (cfg.env.map JValue.s)),
      ("Entrypoint", .arr (cfg.entryPoint.map JValue.s)),
      ("Cmd", .arr (cfg.cmd.map JValue.s)),
      ("Volumes", .obj (emptyObjs cfg.volumes)),
      ("WorkingDir", .s cfg.workingDir),
      ("HealthCheck", healthCheckJson cfg.healthCheck)]),
    ("rootfs", .obj [
      ("diff_ids", .arr (layer_digests.map (fun d => JValue.s ("sha256:" ++ d)))),
      ("type", .s "layers")]),
    ("history", .arr (layer_digests.map (fun _ => JValue.obj [
      ("created", .s created),
      ("created_by", .s "BuildStream Docker Image Plugin")])))]

/-- The per-layer `v1_json` record of `_create_layer`: id, created,
author, checksum, and the run configuration *without* the health
check. -/
def create_layer_json (cfg : DockerConfig) (digest created : String) : JValue :=
  .obj [
    ("id", .s digest),
    ("created", .s created),
    ("author", .s authorHeader),
    ("checksum", .s ("tarsum.v1+sha256:" ++ digest)),
    ("config", .obj [
      ("ExposedPorts", .obj (emptyObjs cfg.exposedPorts)),
      ("Env", .arr (cfg.env.map JValue.s)),
      ("EntryPoint", .arr (cfg.entryPoint.map JValue.s)),
      ("Cmd", .arr (cfg.cmd.map JValue.s)),
      ("Volumes", .obj (emptyObjs cfg.volumes)),
      ("WorkingDir", .s cfg.workingDir)])]

/-- Python `json.dump` with default separators, fuel-indexed over the
nesting depth (every record this element serializes has depth at most
5; the configuration strings need no JSON escaping). -/
def jsonDumpD : Nat → JValue → String
  | 0, _ => ""
  | _ + 1, .s v => "\"" ++ v ++ "\""
  | _ + 1, .n v => toString v
  | fuel + 1, .arr vs =>
      "[" ++ jsonSep.intercalate (vs.map (fun v => jsonDumpD fuel v)) ++ "]"
  | fuel + 1, .obj fs =>
      "\x7b" ++
        jsonSep.intercalate
          (fs.map (fun p => "\"" ++ p.1 ++ "\": " ++ jsonDumpD fuel p.2)) ++
        "\x7d"
where
  jsonSep : String := ", "

/-- Model of `_save_json`: the serialized bytes written to the file. -/
def save_json (v : JValue) : Bytes := Bytes.ofString (jsonDumpD 32 v)

/-! ## `assemble` -/

/-- The assembled image-level artifacts. -/
structure Artifacts where
  layerDigests : List String
  layers : List (String × JValue)
  imageDigest : String
  imageConfig : JValue
  repositories : JValue
  manifest : JValue

/-- The repositories file exactly as `assemble` creates it: line 173
passes `layer_digests[0]` — the *base* layer digest — as the
`top_layer_digest` argument (`layer_digests` is ordered bottom to top;
preflight guarantees it is nonempty, so the default of `headD` is never
used). -/
def assembleRepositories (cfg : DockerConfig) (layer_digests : List String) : JValue :=
  create_repositories_file cfg (layer_digests.headD "")

/-- Model of `assemble`: stage one layer per build dependency through
the shared visited list, create the layers bottom to top, then the
image config, the repositories file and the manifest. -/
def assemble (cfg : DockerConfig) (created : String) (g : Nat → List Nat)
    (files : Nat → List FsEntry) (fuel : Nat) (bds : List Nat) : Artifacts :=
  let staged := stageLayers g fuel bds []
  let layer_digests := staged.map (layerDigestOf files)
  let imageCfg := create_image_config cfg created layer_digests
  let imageDigest := hash_digest (save_json imageCfg)
  { layerDigests := layer_digests
    layers := layer_digests.map (fun d => (d, create_layer_json cfg d created))
    imageDigest := imageDigest
    imageConfig := imageCfg
    repositories := assembleRepositories cfg layer_digests
    manifest := create_manifest cfg layer_digests imageDigest }

/-- The whole per-build pipeline: `configure`, `preflight`, `assemble`;
an error anywhere stops the pipeline and no artifact is produced. -/
def buildPipeline (selfName : String) (node : ConfigNode) (created : String)
    (g : Nat → List Nat) (files : Nat → List FsEntry) (fuel : Nat) (bds : List Nat) :
    Except PyErr Artifacts :=
  match configure node with
  | .error e => .error e
  | .ok cfg =>
      match preflight selfName cfg bds with
      | .error e => .error e
      | .ok _ => .ok (assemble cfg created g files fuel bds)

/-- The error of a pipeline run, when it failed. -/
def pipelineError (r : Except PyErr Artifacts) : Option PyErr :=
  match r with
  | .error e => some e
  | .ok _ => none

/-! ## The file-system operation traces (scratch-then-rename) -/

/-- A file-system operation observable in the build directory. -/
inductive FsOp where
  | mkdir (path : List String)
  | write (path : List String)
  | atomicRename (src dst : List String)
deriving DecidableEq

/-- The operation trace of `_create_layer` for one layer whose tar
hashes to `d`: the tar is written under the scratch directory
`layers/tmp`, the scratch directory is atomically renamed to the
digest-named directory, and then the `VERSION` and `json` metadata are
written directly into the renamed directory. -/
def createLayerOps (d : String) : List FsOp :=
  [.mkdir ["layers", "tmp"],
   .write ["layers", "tmp", "layer.tar"],
   .atomicRename ["layers", "tmp"] ["layers", d],
   .write ["layers", d, "VERSION"],
   .write ["layers", d, "json"]]

/-- The operation trace of `_create_image_config`: serialize to
`layers/tmp`, hash, then atomically rename to
`layers/<image-digest>.json`. -/
def createImageConfigOps (imageDigest : String) : List FsOp :=
  [.write ["layers", "tmp"],
   .atomicRename ["layers", "tmp"] ["layers", imageDigest ++ ".json"]]

/-- The operation trace of `assemble` after staging: the layers bottom
to top, the image config, the repositories file, the manifest, and the
final image tar. -/
def assembleOps (layerDigests : List String) (imageDigest : String) : List FsOp :=
  (layerDigests.flatMap createLayerOps) ++ createImageConfigOps imageDigest ++
    [.write ["layers", "repositories"], .write ["layers", "manifest.json"],
     .write ["image", "image.tar"]]

/-- Is the path at or under a content-addressed name: inside a layer
directory named by one of the digests, or at the image config file? -/
def underDigestName (layerDigests : List String) (imageDigest : String)
    (p : List String) : Bool :=
  match p with
  | "layers" :: d :: _ => decide (d ∈ layerDigests) || decide (d = imageDigest ++ ".json")
  | _ => false

/-! ## Accessors for the generated records -/

def JValue.strAt (v : JValue) (k : String) : Option String :=
  match v.lookup k with
  | some (.s x) => some x
  | _ => none

def diffIds (cfgJson : JValue) : Option (List JValue) :=
  match cfgJson.lookup "rootfs" with
  | some r =>
      match r.lookup "diff_ids" with
      | some (.arr l) => some l
      | _ => none
  | _ => none

def historyList (cfgJson : JValue) : Option (List JValue) :=
  match cfgJson.lookup "history" with
  | some (.arr l) => some l
  | _ => none

def manifestLayersList (m : JValue) : Option (List JValue) :=
  match m with
  | .arr [entry] =>
      match entry.lookup "Layers" with
      | some (.arr l) => some l
      | _ => none
  | _ => none

/-! C1 -/

def c1node : ConfigNode :=
  { exposedPorts := [], env := [], entryPoint := [], cmd := [], volumes := []
    workingDir := "", healthCheck := ⟨none, none, none, none⟩, imageNames := ["r:t"] }

def c1cfg : DockerConfig :=
  { exposedPorts := [], env := [], entryPoint := [], cmd := [], volumes := []
    workingDir := "", healthCheck := ⟨["NONE"], 0, 0, 0⟩, imageNames := [("r", "t")] }

theorem c1_repositories_use_base_layer_digest :
    (∀ (cfg : DockerConfig) (created : String) (g : Nat → List Nat)
      (files : Nat → List FsEntry) (fuel : Nat) (bds : List Nat),
      (assemble cfg created g files fuel bds).repositories =
        create_repositories_file cfg
          (((stageLayers g fuel bds []).map (layerDigestOf files)).headD "")) ∧
    configure c1node = .ok c1cfg ∧
    (assembleRepositories c1cfg ["d0aa", "d1bb"]).strAt "r" = some "t:d0aa" ∧
    ¬ (assembleRepositories c1cfg ["d0aa", "d1bb"]).strAt "r" = some "t:d1bb" := by
  refine ⟨fun _ _ _ _ _ _ => rfl, rfl, rfl, by decide⟩

/-! C4 -/

def emptyNode : ConfigNode :=
  { exposedPorts := [], env := [], entryPoint := [], cmd := [], volumes := []
    workingDir := "", healthCheck := ⟨none, none, none, none⟩, imageNames := [] }

def c4cfg : DockerConfig :=
  { exposedPorts := [], env := [], entryPoint := [], cmd := [], volumes := []
    workingDir := "", healthCheck := ⟨["NONE"], 0, 0, 0⟩, imageNames := [] }

theorem c4_layer_json_lacks_tests :
    configure emptyNode = .ok c4cfg ∧
    JValue.hasKeyDeep 10 (create_layer_json c4cfg "d0" "t0") "Tests" = false ∧
    JValue.hasKeyDeep 10 (create_layer_json c4cfg "d0" "t0") "HealthCheck" = false ∧
    JValue.hasKeyDeep 10 (create_layer_json c4cfg "d0" "t0") "Interval" = false := by
  exact ⟨rfl, by decide, by decide, by decide⟩

theorem c4_single_layer_defaults (created d : String) (g : Nat → List Nat) (b : Nat)
    (hb : g b = []) :
    stageLayers g 1 [b] [] = [[b]] ∧
    (diffIds (create_image_config c4cfg created [d])).map List.length = some 1 ∧
    (historyList (create_image_config c4cfg created [d])).map List.length = some 1 ∧
    ((create_image_config c4cfg created [d]).lookup "config").bind
        (fun c => c.lookup "HealthCheck") =
      some (.obj [("Tests", .arr [.s "NONE"]), ("Interval", .n 0), ("Timeout", .n 0),
        ("Retries", .n 0)]) ∧
    JValue.hasKeyDeep 10 (create_layer_json c4cfg d created) "HealthCheck" = false := by
  refine ⟨?_, rfl, rfl, rfl, ?_⟩
  · simp [stageLayers, stageLayer, stageDeps, hb]
  · rfl

theorem c4_single_layer_defaults_witness :
    (fun _ : Nat => ([] : List Nat)) 0 = [] ∧
    (stageLayers (fun _ => []) 1 [0] [] = [[0]] ∧
    (diffIds (create_image_config c4cfg "t0" ["d0"])).map List.length = some 1 ∧
    (historyList (create_image_config c4cfg "t0" ["d0"])).map List.length = some 1 ∧
    ((create_image_config c4cfg "t0" ["d0"]).lookup "config").bind
        (fun c => c.lookup "HealthCheck") =
      some (.obj [("Tests", .arr [.s "NONE"]), ("Interval", .n 0), ("Timeout", .n 0),
        ("Retries", .n 0)]) ∧
    JValue.hasKeyDeep 10 (create_layer_json c4cfg "d0" "t0") "HealthCheck" = false) :=
  ⟨rfl, c4_single_layer_defaults "t0" "d0" (fun _ => []) 0 rfl⟩

/-! C5 -/

theorem c5_metadata_written_in_place :
    FsOp.write ["layers", "aa", "VERSION"] ∈ assembleOps ["aa"] "bb" ∧
    underDigestName ["aa"] "bb" ["layers", "aa", "VERSION"] = true ∧
    FsOp.write ["layers", "aa", "json"] ∈ assembleOps ["aa"] "bb" := by
  refine ⟨by decide, by decide, by decide⟩

theorem c5_scratch_then_rename (d img : String) (hd : d ≠ "tmp")
    (hi : img ++ ".json" ≠ "tmp") :
    (createLayerOps d).getD 1 (.mkdir []) = .write ["layers", "tmp", "layer.tar"] ∧
    (createLayerOps d).getD 2 (.mkdir []) = .atomicRename ["layers", "tmp"] ["layers", d] ∧
    (createImageConfigOps img).getD 0 (.mkdir []) = .write ["layers", "tmp"] ∧
    (createImageConfigOps img).getD 1 (.mkdir []) =
      .atomicRename ["layers", "tmp"] ["layers", img ++ ".json"] ∧
    (∀ op ∈ (createLayerOps d).take 2, ∀ p, op = .write p →
      underDigestName [d] img p = false) ∧
    (∀ op ∈ (createImageConfigOps img).take 1, ∀ p, op = .write p →
      underDigestName [d] img p = false) ∧
    (createLayerOps d).drop 3 = [.write ["layers", d, "VERSION"], .write ["layers", d, "json"]] := by
  refine ⟨rfl, rfl, rfl, rfl, ?_, ?_, rfl⟩
  · intro op hop p hp
    simp only [createLayerOps, List.take, List.mem_cons, List.not_mem_nil, or_false] at hop
    rcases hop with h | h
    · subst h; cases hp
    · subst h
      cases hp
      simp only [underDigestName, decide_eq_false_iff_not, List.mem_singleton,
        Bool.or_eq_false_iff]
      exact ⟨by simpa using fun h => hd h.symm, by simpa using fun h => hi h.symm⟩
  · intro op hop p hp
    simp only [createImageConfigOps, List.take, List.mem_cons, List.not_mem_nil,
      or_false] at hop
    subst hop
    cases hp
    simp only [underDigestName, decide_eq_false_iff_not, List.mem_singleton,
      Bool.or_eq_false_iff]
    exact ⟨by simpa using fun h => hd h.symm, by simpa using fun h => hi h.symm⟩

theorem c5_scratch_then_rename_witness :
    ("aa" : String) ≠ "tmp" ∧
    ((createLayerOps "aa").getD 1 (.mkdir []) = .write ["layers", "tmp", "layer.tar"] ∧
    (createLayerOps "aa").getD 2 (.mkdir []) = .atomicRename ["layers", "tmp"] ["layers", "aa"] ∧
    (createImageConfigOps "bb").getD 0 (.mkdir []) = .write ["layers", "tmp"] ∧
    (createImageConfigOps "bb").getD 1 (.mkdir []) =
      .atomicRename ["layers", "tmp"] ["layers", "bb" ++ ".json"] ∧
    (∀ op ∈ (createLayerOps "aa").take 2, ∀ p, op = .write p →
      underDigestName ["aa"] "bb" p = false) ∧
    (∀ op ∈ (createImageConfigOps "bb").take 1, ∀ p, op = .write p →
      underDigestName ["aa"] "bb" p = false) ∧
    (createLayerOps "aa").drop 3 =
      [.write ["layers", "aa", "VERSION"], .write ["layers", "aa", "json"]]) :=
  ⟨by decide, c5_scratch_then_rename "aa" "bb" (by decide) (by decide)⟩

/-! C6 -/

theorem c6_ordering (cfg : DockerConfig) (created cfgDigest : String)
    (files : Nat → List FsEntry) (g : Nat → List Nat) (fuel : Nat) (bds : List Nat)
    (hN : 1 ≤ bds.length) :
    manifestLayersList (create_manifest cfg
        ((stageLayers g fuel bds []).map (layerDigestOf files)) cfgDigest) =
      some (((stageLayers g fuel bds []).map (layerDigestOf files)).map
        (fun d => JValue.s (d ++ "/layer.tar"))) ∧
    diffIds (create_image_config cfg created
        ((stageLayers g fuel bds []).map (layerDigestOf files))) =
      some (((stageLayers g fuel bds []).map (layerDigestOf files)).map
        (fun d => JValue.s ("sha256:" ++ d))) ∧
    ((stageLayers g fuel bds []).map (layerDigestOf files)).length = bds.length ∧
    (∀ i : Nat, (((stageLayers g fuel bds []).map (layerDigestOf files)).map
        (fun d => JValue.s (d ++ "/layer.tar")))[i]? =
      ((stageLayers g fuel bds [])[i]?).map
        (fun l => JValue.s (layerDigestOf files l ++ "/layer.tar"))) ∧
    (∀ i : Nat, (((stageLayers g fuel bds []).map (layerDigestOf files)).map
        (fun d => JValue.s ("sha256:" ++ d)))[i]? =
      ((stageLayers g fuel bds [])[i]?).map
        (fun l => JValue.s ("sha256:" ++ layerDigestOf files l))) := by
  refine ⟨rfl, rfl, ?_, ?_, ?_⟩
  · rw [List.length_map, stageLayers_length]
  · intro i
    rw [List.getElem?_map, List.getElem?_map]
    cases (stageLayers g fuel bds [])[i]? <;> rfl
  · intro i
    rw [List.getElem?_map, List.getElem?_map]
    cases (stageLayers g fuel bds [])[i]? <;> rfl

theorem c6_ordering_witness :
    1 ≤ ([0] : List Nat).length ∧
    manifestLayersList (create_manifest c4cfg
        ((stageLayers (fun _ => []) 1 [0] []).map (layerDigestOf (fun _ => []))) "cd") =
      some (((stageLayers (fun _ => []) 1 [0] []).map (layerDigestOf (fun _ => []))).map
        (fun d => JValue.s (d ++ "/layer.tar"))) :=
  ⟨by decide, (c6_ordering c4cfg "t0" "cd" (fun _ => []) (fun _ => []) 1 [0] (by decide)).1⟩

/-! ## Claim C8: preflight rejection of invalid run-configurations -/


theorem strAppendAssoc (a b c : String) : a ++ b ++ c = a ++ (b ++ c) :=
  String.append_assoc a b c

theorem strAppendEmpty (a : String) : a ++ "" = a := String.append_empty a

/-- Substring containment witnessed by a decomposition. -/
def containsSub (s v : String) : Prop := ∃ a b, s = a ++ (v ++ b)

/-- The protocol suffix of a port string (after the first `/`). -/
def portOptionPart (p : String) : String :=
  match splitOnce '/' p with
  | [_, opt] => opt
  | _ => ""

/-- The numeric part of a port string (before the first `/`, or the
whole string). -/
def portNumberPart (p : String) : String :=
  if p.toList.contains '/' then (splitOnce '/' p).headD p else p

/-- The port has a protocol suffix that is neither `tcp` nor `udp`. -/
def portProtocolBad (p : String) : Bool :=
  p.toList.contains '/' && !(portOptions.contains (portOptionPart p))

/-- The numeric part parses and is out of the range 0..65535. -/
def portNumberBad (p : String) : Bool :=
  match pyInt (portNumberPart p) with
  | some n => decide (65535 < n ∨ n < 0)
  | none => false

/-- The port fails one of the two preflight port checks. -/
def portBad (p : String) : Bool := portProtocolBad p || portNumberBad p

theorem splitOnceL_two (sep : Char) :
    ∀ l : List Char, l.contains sep = true → ∃ x y, splitOnceL sep l = [x, y] := by
  intro l
  induction l with
  | nil => intro h; cases h
  | cons c cs ih =>
      intro h
      by_cases hc : c = sep
      · exact ⟨[], cs, by simp [splitOnceL, hc]⟩
      · have hcs : cs.contains sep = true := by
          simp only [List.contains_cons] at h
          rcases Bool.or_eq_true_iff.mp h with h1 | h1
          · exact absurd (beq_iff_eq.mp h1).symm hc
          · exact h1
        obtain ⟨x, y, hxy⟩ := ih hcs
        exact ⟨c :: x, y, by simp [splitOnceL, hc, hxy]⟩

theorem splitOnce_two (p : String) (h : p.toList.contains '/' = true) :
    splitOnce '/' p = [portNumberPart p, portOptionPart p] := by
  obtain ⟨x, y, hxy⟩ := splitOnceL_two '/' p.toList h
  have hmem : '/' ∈ p.data := by simpa using h
  unfold splitOnce portNumberPart portOptionPart splitOnce
  rw [hxy]
  simp [hmem, hxy]

theorem checkPort_protocol_bad (s p : String) (h : portProtocolBad p = true) :
    checkPort s p = .error (.element (s ++ ": Invalid port option " ++ portOptionPart p ++
      ". Options include: ['tcp', 'udp']") "docker-invalid-port-option") := by
  have hc : p.toList.contains '/' = true := (Bool.and_eq_true_iff.mp h).1
  have hoptm : portOptionPart p ∉ portOptions := by
    have := (Bool.and_eq_true_iff.mp h).2
    simpa using this
  have hmem : '/' ∈ p.data := by simpa using hc
  unfold checkPort
  rw [splitOnce_two p hc]
  simp [hmem, hoptm]

theorem checkPortRange_bad (s q : String) (n : Int) (hpy : pyInt q = some n)
    (hn : 65535 < n ∨ n < 0) :
    checkPortRange s q = .error (.element (s ++ ": Invalid port number " ++ q)
      "docker-port-out-out-of-range") := by
  unfold checkPortRange
  rw [hpy]
  simp [hn]

theorem checkPortRange_ok (s q : String) (n : Int) (hpy : pyInt q = some n)
    (hn : ¬(65535 < n ∨ n < 0)) :
    checkPortRange s q = .ok () := by
  unfold checkPortRange
  rw [hpy]
  simp [hn]

theorem checkPort_protocol_ok (s p : String) (hprot : portProtocolBad p = false) :
    checkPort s p = checkPortRange s (portNumberPart p) := by
  by_cases hc : p.toList.contains '/' = true
  · have hopt : portOptionPart p ∈ portOptions := by
      unfold portProtocolBad at hprot
      rcases Bool.and_eq_false_iff.mp hprot with h1 | h1
      · rw [hc] at h1; cases h1
      · simpa using h1
    have hmem : '/' ∈ p.data := by simpa using hc
    unfold checkPort
    rw [splitOnce_two p hc]
    simp [hmem, hopt]
  · have hc' : p.toList.contains '/' = false := by simpa using hc
    have hnotmem : '/' ∉ p.data := by simpa using hc'
    have hpart : portNumberPart p = p := by unfold portNumberPart; simp [hnotmem]
    unfold checkPort
    rw [hpart]
    simp [hnotmem]

theorem checkPort_number_bad (s p : String) (hprot : portProtocolBad p = false)
    (hnum : portNumberBad p = true) :
    checkPort s p = .error (.element (s ++ ": Invalid port number " ++ portNumberPart p)
      "docker-port-out-out-of-range") := by
  rw [checkPort_protocol_ok s p hprot]
  unfold portNumberBad at hnum
  cases hpy : pyInt (portNumberPart p) with
  | none => rw [hpy] at hnum; cases hnum
  | some n =>
      rw [hpy] at hnum
      exact checkPortRange_bad s _ n hpy (by simpa using hnum)

theorem checkPort_ok (s p : String) (hbad : portBad p = false)
    (hparse : (pyInt (portNumberPart p)).isSome = true) :
    checkPort s p = .ok () := by
  have hprot : portProtocolBad p = false := (Bool.or_eq_false_iff.mp hbad).1
  have hnum : portNumberBad p = false := (Bool.or_eq_false_iff.mp hbad).2
  rw [checkPort_protocol_ok s p hprot]
  unfold portNumberBad at hnum
  cases hpy : pyInt (portNumberPart p) with
  | none => rw [hpy] at hparse; simp at hparse
  | some n =>
      rw [hpy] at hnum
      exact checkPortRange_ok s _ n hpy (by simpa using hnum)

/-- Message of the protocol error for port `p`. -/
def portOptionMsg (s p : String) : String :=
  s ++ ": Invalid port option " ++ portOptionPart p ++ ". Options include: ['tcp', 'udp']"

/-- Message of the range error for port `p`. -/
def portNumberMsg (s p : String) : String :=
  s ++ ": Invalid port number " ++ portNumberPart p

/-- Message of the invalid-image-name error. -/
def imageNameMsg (s nm : String) : String := s ++ ": " ++ nm ++ " image name is not valid"

theorem portOptionMsg_contains (s p : String) :
    containsSub (portOptionMsg s p) (portOptionPart p) := by
  refine ⟨s ++ ": Invalid port option ", ". Options include: ['tcp', 'udp']", ?_⟩
  unfold portOptionMsg
  rw [strAppendAssoc]

theorem portNumberMsg_contains (s p : String) :
    containsSub (portNumberMsg s p) (portNumberPart p) :=
  ⟨s ++ ": Invalid port number ", "", by unfold portNumberMsg; rw [strAppendEmpty]⟩

theorem imageNameMsg_contains (s nm : String) :
    containsSub (imageNameMsg s nm) nm := by
  refine ⟨s ++ ": ", " image name is not valid", ?_⟩
  unfold imageNameMsg
  rw [strAppendAssoc]

theorem checkPorts_first_error (s : String) :
    ∀ ports : List String,
      (∀ p ∈ ports, portProtocolBad p = false → (pyInt (portNumberPart p)).isSome = true) →
      (∃ p ∈ ports, portBad p = true) →
      ∃ p ∈ ports, portBad p = true ∧
        ((portProtocolBad p = true ∧
          checkPorts s ports = .error (.element (portOptionMsg s p) "docker-invalid-port-option")) ∨
         (portProtocolBad p = false ∧ portNumberBad p = true ∧
          checkPorts s ports = .error (.element (portNumberMsg s p) "docker-port-out-out-of-range"))) := by
  intro ports
  induction ports with
  | nil => intro _ hbad; obtain ⟨p, hp, _⟩ := hbad; cases hp
  | cons q qs ih =>
      intro hparse hbad
      by_cases hq : portBad q = true
      · refine ⟨q, by simp, hq, ?_⟩
        by_cases hprot : portProtocolBad q = true
        · left
          refine ⟨hprot, ?_⟩
          unfold checkPorts
          rw [checkPort_protocol_bad s q hprot]
          rfl
        · right
          have hprot' : portProtocolBad q = false := by simpa using hprot
          have hnum : portNumberBad q = true := by
            unfold portBad at hq
            rcases Bool.or_eq_true_iff.mp hq with h | h
            · exact absurd h hprot
            · exact h
          refine ⟨hprot', hnum, ?_⟩
          unfold checkPorts
          rw [checkPort_number_bad s q hprot' hnum]
          rfl
      · have hq' : portBad q = false := by simpa using hq
        have hqok : checkPort s q = .ok () :=
          checkPort_ok s q hq'
            (hparse q (by simp) ((Bool.or_eq_false_iff.mp hq').1))
        have hbad' : ∃ p ∈ qs, portBad p = true := by
          obtain ⟨p, hp, hpb⟩ := hbad
          rcases List.mem_cons.mp hp with rfl | hp'
          · exact absurd hpb hq
          · exact ⟨p, hp', hpb⟩
        obtain ⟨p, hp, hpb, hrest⟩ := ih (fun p hp h => hparse p (by simp [hp]) h) hbad'
        refine ⟨p, by simp [hp], hpb, ?_⟩
        rcases hrest with ⟨h1, h2⟩ | ⟨h1, h2, h3⟩
        · left
          refine ⟨h1, ?_⟩
          unfold checkPorts
          rw [hqok, h2]
        · right
          refine ⟨h1, h2, ?_⟩
          unfold checkPorts
          rw [hqok, h3]

theorem checkPorts_all_ok (s : String) :
    ∀ ports : List String,
      (∀ p ∈ ports, portProtocolBad p = false → (pyInt (portNumberPart p)).isSome = true) →
      (∀ p ∈ ports, portBad p = false) →
      checkPorts s ports = .ok () := by
  intro ports
  induction ports with
  | nil => intro _ _; rfl
  | cons q qs ih =>
      intro hparse hok
      have hqok : checkPort s q = .ok () :=
        checkPort_ok s q (hok q (by simp))
          (hparse q (by simp) ((Bool.or_eq_false_iff.mp (hok q (by simp))).1))
      unfold checkPorts
      rw [hqok]
      exact ih (fun p hp h => hparse p (by simp [hp]) h) (fun p hp => hok p (by simp [hp]))

theorem checkNames_first_error (s : String) :
    ∀ names : List String,
      (∃ nm ∈ names, repoFullmatch nm = false) →
      ∃ nm ∈ names, repoFullmatch nm = false ∧
        checkNames s names = .error (.element (imageNameMsg s nm) "docker-bdepend-wrong-count") := by
  intro names
  induction names with
  | nil => intro hbad; obtain ⟨nm, hnm, _⟩ := hbad; cases hnm
  | cons q qs ih =>
      intro hbad
      by_cases hq : repoFullmatch q = true
      · have hbad' : ∃ nm ∈ qs, repoFullmatch nm = false := by
          obtain ⟨nm, hnm, hb⟩ := hbad
          rcases List.mem_cons.mp hnm with rfl | hnm'
          · rw [hq] at hb; cases hb
          · exact ⟨nm, hnm', hb⟩
        obtain ⟨nm, hnm, hb, hres⟩ := ih hbad'
        refine ⟨nm, by simp [hnm], hb, ?_⟩
        unfold checkNames
        rw [hq]
        simp only [if_true]
        exact hres
      · have hq' : repoFullmatch q = false := by simpa using hq
        refine ⟨q, by simp, hq', ?_⟩
        unfold checkNames
        rw [hq']
        simp [imageNameMsg]

/-- C8: a run-configuration with an out-of-range exposed port, an
unsupported port protocol, or a malformed repository name makes
`preflight` fail with a fatal `ElementError` whose message carries the
offending value, and the build pipeline stops there: no staging,
archiving or hashing output is produced.  (The name check requires at
least one build dependency, since the dependency-count check precedes
it; the range check presupposes the numeric part parses, since `int()`
would otherwise raise first.) -/
theorem c8_invalid_config_rejected (selfName : String) (node : ConfigNode)
    (cfg : DockerConfig) (bds : List Nat) (created : String) (g : Nat → List Nat)
    (files : Nat → List FsEntry) (fuel : Nat)
    (hcfg : configure node = .ok cfg)
    (hparse : ∀ p ∈ cfg.exposedPorts, portProtocolBad p = false →
      (pyInt (portNumberPart p)).isSome = true)
    (hbad : (∃ p ∈ cfg.exposedPorts, portBad p = true) ∨
      (bds ≠ [] ∧ (∀ p ∈ cfg.exposedPorts, portBad p = false) ∧
        ∃ nm ∈ cfg.imageNames.map Prod.fst, repoFullmatch nm = false)) :
    ∃ msg reason, preflight selfName cfg bds = .error (.element msg reason) ∧
      buildPipeline selfName node created g files fuel bds = .error (.element msg reason) ∧
      ∃ v, containsSub msg v ∧
        ((∃ p ∈ cfg.exposedPorts, portProtocolBad p = true ∧ v = portOptionPart p) ∨
         (∃ p ∈ cfg.exposedPorts, portNumberBad p = true ∧ v = portNumberPart p) ∨
         (∃ nm ∈ cfg.imageNames.map Prod.fst, repoFullmatch nm = false ∧ v = nm)) := by
  have main : ∃ msg reason, preflight selfName cfg bds = .error (.element msg reason) ∧
      ∃ v, containsSub msg v ∧
        ((∃ p ∈ cfg.exposedPorts, portProtocolBad p = true ∧ v = portOptionPart p) ∨
         (∃ p ∈ cfg.exposedPorts, portNumberBad p = true ∧ v = portNumberPart p) ∨
         (∃ nm ∈ cfg.imageNames.map Prod.fst, repoFullmatch nm = false ∧ v = nm)) := by
    rcases hbad with hports | ⟨hbds, hportsok, hnames⟩
    · obtain ⟨p, hp, _, hcase⟩ := checkPorts_first_error selfName cfg.exposedPorts hparse hports
      rcases hcase with ⟨hprot, herr⟩ | ⟨_, hnum, herr⟩
      · refine ⟨portOptionMsg selfName p, "docker-invalid-port-option", ?_, ?_⟩
        · unfold preflight
          rw [herr]
        · exact ⟨portOptionPart p, portOptionMsg_contains selfName p,
            Or.inl ⟨p, hp, hprot, rfl⟩⟩
      · refine ⟨portNumberMsg selfName p, "docker-port-out-out-of-range", ?_, ?_⟩
        · unfold preflight
          rw [herr]
        · exact ⟨portNumberPart p, portNumberMsg_contains selfName p,
            Or.inr (Or.inl ⟨p, hp, hnum, rfl⟩)⟩
    · obtain ⟨nm, hnm, hb, herr⟩ :=
        checkNames_first_error selfName (cfg.imageNames.map Prod.fst) hnames
      refine ⟨imageNameMsg selfName nm, "docker-bdepend-wrong-count", ?_, ?_⟩
      · unfold preflight
        rw [checkPorts_all_ok selfName cfg.exposedPorts hparse hportsok]
        have : ¬ bds.length < 1 := by
          cases bds with
          | nil => exact absurd rfl hbds
          | cons b bs => simp
        simp only [this, if_false]
        exact herr
      · exact ⟨nm, imageNameMsg_contains selfName nm, Or.inr (Or.inr ⟨nm, hnm, hb, rfl⟩)⟩
  obtain ⟨msg, reason, hpre, hv⟩ := main
  refine ⟨msg, reason, hpre, ?_, hv⟩
  unfold buildPipeline
  rw [hcfg]
  show (match preflight selfName cfg bds with
    | .error e => (.error e : Except PyErr Artifacts)
    | .ok _ => .ok (assemble cfg created g files fuel bds)) =
    .error (.element msg reason)
  rw [hpre]

/-- The configuration node of the C8 witness: one out-of-range exposed
port. -/
def c8node : ConfigNode :=
  { exposedPorts := ["99999"], env := [], entryPoint := [], cmd := [], volumes := []
    workingDir := "", healthCheck := ⟨none, none, none, none⟩, imageNames := [] }

/-- The element state `configure` derives from `c8node`. -/
def c8cfg : DockerConfig :=
  { exposedPorts := ["99999"], env := [], entryPoint := [], cmd := [], volumes := []
    workingDir := "", healthCheck := ⟨["NONE"], 0, 0, 0⟩, imageNames := [] }

/-- Witness for C8 at a concrete input: exposed port `99999` is out of
range; preflight fails with a message containing `99999` and the
pipeline produces nothing. -/
theorem c8_invalid_config_rejected_witness :
    configure c8node = .ok c8cfg ∧
    (∃ msg reason,
      preflight "el" c8cfg [0] = .error (.element msg reason) ∧
      buildPipeline "el" c8node "t" (fun _ => []) (fun _ => []) 1 [0] =
        .error (.element msg reason) ∧
      ∃ v, containsSub msg v ∧
        ((∃ p ∈ c8cfg.exposedPorts, portProtocolBad p = true ∧ v = portOptionPart p) ∨
         (∃ p ∈ c8cfg.exposedPorts, portNumberBad p = true ∧ v = portNumberPart p) ∨
         (∃ nm ∈ c8cfg.imageNames.map Prod.fst, repoFullmatch nm = false ∧ v = nm))) :=
  ⟨rfl,
    c8_invalid_config_rejected "el" c8node c8cfg [0] "t" (fun _ => []) (fun _ => []) 1 rfl
      (by intro p hp _; rcases List.mem_singleton.mp hp with rfl; rfl)
      (Or.inl ⟨"99999", by simp [c8cfg], by rfl⟩)⟩

/-! ## Claim C9 -/

/-- The configuration node of the C9 failing input: image name
`BAD:latest`, whose repository part is uppercase and therefore
malformed. -/
def c9node : ConfigNode :=
  { exposedPorts := [], env := [], entryPoint := [], cmd := [], volumes := []
    workingDir := "", healthCheck := ⟨none, none, none, none⟩
    imageNames := ["BAD:latest"] }

/-- The element state `configure` derives from `c9node`. -/
def c9cfg : DockerConfig :=
  { exposedPorts := [], env := [], entryPoint := [], cmd := [], volumes := []
    workingDir := "", healthCheck := ⟨["NONE"], 0, 0, 0⟩
    imageNames := [("BAD", "latest")] }

/-- C9: with zero build dependencies `preflight` raises the fatal
`docker-bdepend-wrong-count` error and the pipeline produces nothing —
but the image-name check reuses the *same* reason string, so an error
with that reason is also raised with one build dependency and a
malformed image name (`preflight` line 130, a copy of line 121's
reason). -/
theorem c9_wrong_count_reason :
    preflight "el" c4cfg [] = .error (.element
      "el: DockerElement element must have at least one build dependency"
      "docker-bdepend-wrong-count") ∧
    pipelineError (buildPipeline "el" emptyNode "t" (fun _ => []) (fun _ => []) 1 []) =
      some (.element "el: DockerElement element must have at least one build dependency"
        "docker-bdepend-wrong-count") ∧
    configure c9node = .ok c9cfg ∧
    preflight "el" c9cfg [7] = .error (.element "el: BAD image name is not valid"
      "docker-bdepend-wrong-count") := by
  exact ⟨rfl, rfl, rfl, rfl⟩

/-! ## Claim C10 -/

theorem splitOnceL_no_sep (sep : Char) :
    ∀ l : List Char, sep ∉ l → splitOnceL sep l = [l] := by
  intro l
  induction l with
  | nil => intro _; rfl
  | cons c cs ih =>
      intro h
      have hc : ¬ c = sep := fun hq => h (hq ▸ List.mem_cons_self c cs)
      have hcs : sep ∉ cs := fun hq => h (List.mem_cons_of_mem c hq)
      simp [splitOnceL, hc, ih hcs]

theorem splitOnceL_first (sep : Char) :
    ∀ pre post : List Char, sep ∉ pre →
      splitOnceL sep (pre ++ sep :: post) = [pre, post] := by
  intro pre
  induction pre with
  | nil => intro post _; simp [splitOnceL]
  | cons c cs ih =>
      intro post h
      have hc : ¬ c = sep := fun hq => h (hq ▸ List.mem_cons_self c cs)
      have hcs : sep ∉ cs := fun hq => h (List.mem_cons_of_mem c hq)
      simp [splitOnceL, hc, ih post hcs]

theorem splitOnceL_cases (sep : Char) :
    ∀ l : List Char, (∃ x, splitOnceL sep l = [x]) ∨ (∃ x y, splitOnceL sep l = [x, y]) := by
  intro l
  induction l with
  | nil => exact Or.inl ⟨[], rfl⟩
  | cons c cs ih =>
      by_cases hc : c = sep
      · exact Or.inr ⟨[], cs, by simp [splitOnceL, hc]⟩
      · rcases ih with ⟨x, hx⟩ | ⟨x, y, hxy⟩
        · exact Or.inl ⟨c :: x, by simp [splitOnceL, hc, hx]⟩
        · exact Or.inr ⟨c :: x, y, by simp [splitOnceL, hc, hxy]⟩

theorem imageNamePairs_valueError :
    ∀ (names : List String) (nm : String), nm ∈ names → (':' : Char) ∉ nm.toList →
      imageNamePairs names = .error .valueError := by
  intro names
  induction names with
  | nil => intro nm h _; cases h
  | cons q qs ih =>
      intro nm hmem hnc
      rcases List.mem_cons.mp hmem with rfl | hmem'
      · unfold imageNamePairs splitOnce
        rw [splitOnceL_no_sep ':' nm.toList hnc]
        rfl
      · unfold imageNamePairs
        rcases splitOnceL_cases ':' q.toList with ⟨x, hx⟩ | ⟨x, y, hxy⟩
        · unfold splitOnce
          rw [hx]
          rfl
        · unfold splitOnce
          rw [hxy]
          simp only [List.map]
          rw [ih nm hmem' hnc]

/-- C10: `configure` splits each image-name entry at the *first* colon
only (`repo:tag:extra` maps `repo` to `tag:extra`), and an entry with no
colon at all makes the `dict(...)` construction in `configure` raise an
unhandled `ValueError`, so such an entry never reaches `preflight`'s
repository-name validation (the pipeline dies in `configure`). -/
theorem c10_image_name_split (pre post nocolon : List Char)
    (hpre : (':' : Char) ∉ pre) (hnc : (':' : Char) ∉ nocolon)
    (node : ConfigNode) (hmem : String.mk nocolon ∈ node.imageNames) :
    splitOnce ':' (String.mk (pre ++ ':' :: post)) = [String.mk pre, String.mk post] ∧
    imageNamePairs [String.mk (pre ++ ':' :: post)] =
      .ok [(String.mk pre, String.mk post)] ∧
    configure node = .error .valueError ∧
    (∀ selfName created g files fuel bds,
      pipelineError (buildPipeline selfName node created g files fuel bds) =
        some .valueError) := by
  have hsplit : splitOnceL ':' (String.mk (pre ++ ':' :: post)).toList = [pre, post] := by
    show splitOnceL ':' (pre ++ ':' :: post) = [pre, post]
    exact splitOnceL_first ':' pre post hpre
  have hnames : imageNamePairs node.imageNames = .error .valueError :=
    imageNamePairs_valueError node.imageNames (String.mk nocolon) hmem hnc
  have hcfg : configure node = .error .valueError := by
    unfold configure
    rw [hnames]
  refine ⟨?_, ?_, hcfg, ?_⟩
  · unfold splitOnce
    rw [hsplit]
    rfl
  · unfold imageNamePairs splitOnce
    rw [hsplit]
    rfl
  · intro selfName created g files fuel bds
    unfold buildPipeline
    rw [hcfg]
    rfl

/-- Witness for C10 at concrete input: `repo:tag:extra` maps `repo` to
`tag:extra`; the entry `bad` (no colon) makes `configure` fail with
`ValueError` before `preflight` can run. -/
theorem c10_image_name_split_witness :
    ((':' : Char) ∉ ['r', 'e', 'p', 'o'] ∧ (':' : Char) ∉ ['b', 'a', 'd'] ∧
      String.mk ['b', 'a', 'd'] ∈
        (ConfigNode.mk [] [] [] [] [] "" ⟨none, none, none, none⟩ ["bad"]).imageNames) ∧
    (splitOnce ':' (String.mk (['r', 'e', 'p', 'o'] ++ ':' ::
        ['t', 'a', 'g', ':', 'e', 'x', 't', 'r', 'a'])) =
      [String.mk ['r', 'e', 'p', 'o'],
       String.mk ['t', 'a', 'g', ':', 'e', 'x', 't', 'r', 'a']] ∧
    imageNamePairs [String.mk (['r', 'e', 'p', 'o'] ++ ':' ::
        ['t', 'a', 'g', ':', 'e', 'x', 't', 'r', 'a'])] =
      .ok [(String.mk ['r', 'e', 'p', 'o'],
        String.mk ['t', 'a', 'g', ':', 'e', 'x', 't', 'r', 'a'])] ∧
    configure (ConfigNode.mk [] [] [] [] [] "" ⟨none, none, none, none⟩ ["bad"]) =
      .error .valueError ∧
    (∀ selfName created g files fuel bds,
      pipelineError (buildPipeline selfName
        (ConfigNode.mk [] [] [] [] [] "" ⟨none, none, none, none⟩ ["bad"])
        created g files fuel bds) = some .valueError)) :=
  ⟨⟨by decide, by decide, by decide⟩,
    c10_image_name_split ['r', 'e', 'p', 'o'] ['t', 'a', 'g', ':', 'e', 'x', 't', 'r', 'a']
      ['b', 'a', 'd'] (by decide) (by decide)
      (ConfigNode.mk [] [] [] [] [] "" ⟨none, none, none, none⟩ ["bad"]) (by decide)⟩

/-! ## Claim C3: the shared visited set partitions the layers -/


/-- Reachability over runtime-dependency edges. -/
inductive Reaches (g : Nat → List Nat) : Nat → Nat → Prop where
  | refl (e : Nat) : Reaches g e e
  | step {e d x : Nat} : d ∈ g e → Reaches g d x → Reaches g e x

/-- The visited list is closed under runtime edges, except possibly at
the gray (in-progress) elements. -/
def ClosedEx (g : Nat → List Nat) (gray v : List Nat) : Prop :=
  ∀ x ∈ v, x ∉ gray → ∀ d ∈ g x, d ∈ v

theorem reaches_rank {g : Nat → List Nat} {rank : Nat → Nat}
    (hrank : ∀ e d, d ∈ g e → rank d < rank e) {e x : Nat}
    (h : Reaches g e x) : x = e ∨ rank x < rank e := by
  induction h with
  | refl => exact Or.inl rfl
  | step hd _ ih =>
      right
      rcases ih with rfl | hlt
      · exact hrank _ _ hd
      · exact lt_trans hlt (hrank _ _ hd)

theorem closedEx_reach {g : Nat → List Nat} {rank : Nat → Nat}
    (hrank : ∀ e d, d ∈ g e → rank d < rank e) {gray v : List Nat} {e x : Nat}
    (hC : ClosedEx g gray v) (he : e ∈ v) (hGr : ∀ y ∈ gray, rank e < rank y)
    (h : Reaches g e x) : x ∈ v := by
  induction h with
  | refl => exact he
  | @step e d x hd hr ih =>
      have hegray : e ∉ gray := fun hg => lt_irrefl _ (hGr e hg)
      have hdv : d ∈ v := hC e he hegray d hd
      exact ih hdv (fun y hy => lt_trans (hrank _ _ hd) (hGr y hy))

theorem stageDeps_spec (g : Nat → List Nat) (rank : Nat → Nat)
    (hrank : ∀ e d, d ∈ g e → rank d < rank e) (fuel : Nat)
    (hA : ∀ (e : Nat) (v gray : List Nat), rank e < fuel →
      (∀ y ∈ gray, y ∈ v) → (∀ y ∈ gray, rank e < rank y) → ClosedEx g gray v →
      (∀ x, x ∈ (stageLayer g fuel e v).2 ↔ x ∈ (stageLayer g fuel e v).1 ∨ x ∈ v) ∧
      (∀ x ∈ (stageLayer g fuel e v).1, x ∉ v) ∧
      (stageLayer g fuel e v).1.Nodup ∧
      (∀ x, x ∈ (stageLayer g fuel e v).1 ↔ Reaches g e x ∧ x ∉ v) ∧
      ClosedEx g gray (stageLayer g fuel e v).2) :
    ∀ (ds : List Nat) (v gray : List Nat),
      (∀ d ∈ ds, rank d < fuel) → (∀ y ∈ gray, y ∈ v) →
      (∀ d ∈ ds, ∀ y ∈ gray, rank d < rank y) → ClosedEx g gray v →
      (∀ x, x ∈ (stageDeps g fuel ds v).2 ↔ x ∈ (stageDeps g fuel ds v).1 ∨ x ∈ v) ∧
      (∀ x ∈ (stageDeps g fuel ds v).1, x ∉ v) ∧
      (stageDeps g fuel ds v).1.Nodup ∧
      (∀ x, x ∈ (stageDeps g fuel ds v).1 ↔ (∃ d ∈ ds, Reaches g d x) ∧ x ∉ v) ∧
      ClosedEx g gray (stageDeps g fuel ds v).2 := by
  intro ds
  induction ds with
  | nil =>
      intro v gray _ _ _ hC
      refine ⟨?_, ?_, ?_, ?_, ?_⟩ <;> simp [stageDeps, hC]
  | cons d ds' ih =>
      intro v gray hf hGv hGr hC
      obtain ⟨A1, A2, A3, A4, A5⟩ :=
        hA d v gray (hf d (by simp)) hGv (hGr d (by simp)) hC
      have hvsub : ∀ x ∈ v, x ∈ (stageLayer g fuel d v).2 :=
        fun x hx => (A1 x).mpr (Or.inr hx)
      obtain ⟨B1, B2, B3, B4, B5⟩ :=
        ih (stageLayer g fuel d v).2 gray
          (fun d' hd' => hf d' (by simp [hd']))
          (fun y hy => hvsub y (hGv y hy))
          (fun d' hd' => hGr d' (by simp [hd']))
          A5
      have hds : stageDeps g fuel (d :: ds') v =
          ((stageLayer g fuel d v).1 ++ (stageDeps g fuel ds' (stageLayer g fuel d v).2).1,
           (stageDeps g fuel ds' (stageLayer g fuel d v).2).2) := by
        rw [stageDeps]
      rw [hds]
      refine ⟨?_, ?_, ?_, ?_, ?_⟩
      · intro x
        simp only [List.mem_append]
        rw [B1 x, A1 x]
        tauto
      · intro x hx
        simp only [List.mem_append] at hx
        rcases hx with hx | hx
        · exact A2 x hx
        · exact fun hv => B2 x hx (hvsub x hv)
      · refine List.Nodup.append A3 B3 ?_
        intro x hx1 hx2
        exact B2 x hx2 ((A1 x).mpr (Or.inl hx1))
      · intro x
        simp only [List.mem_append]
        constructor
        · intro hx
          rcases hx with hx | hx
          · obtain ⟨hr, hnv⟩ := (A4 x).mp hx
            exact ⟨⟨d, by simp, hr⟩, hnv⟩
          · obtain ⟨⟨d', hd', hr⟩, hnv1⟩ := (B4 x).mp hx
            refine ⟨⟨d', by simp [hd'], hr⟩, fun hv => hnv1 (hvsub x hv)⟩
        · rintro ⟨⟨d', hd', hr⟩, hnv⟩
          rcases List.mem_cons.mp hd' with rfl | hd''
          · exact Or.inl ((A4 x).mpr ⟨hr, hnv⟩)
          · by_cases hx1 : x ∈ (stageLayer g fuel d v).2
            · rcases (A1 x).mp hx1 with hs | hv
              · exact Or.inl hs
              · exact absurd hv hnv
            · exact Or.inr ((B4 x).mpr ⟨⟨d', hd'', hr⟩, hx1⟩)
      · exact B5

theorem stageLayer_spec (g : Nat → List Nat) (rank : Nat → Nat)
    (hrank : ∀ e d, d ∈ g e → rank d < rank e) :
    ∀ (fuel : Nat) (e : Nat) (v gray : List Nat), rank e < fuel →
      (∀ y ∈ gray, y ∈ v) → (∀ y ∈ gray, rank e < rank y) → ClosedEx g gray v →
      (∀ x, x ∈ (stageLayer g fuel e v).2 ↔ x ∈ (stageLayer g fuel e v).1 ∨ x ∈ v) ∧
      (∀ x ∈ (stageLayer g fuel e v).1, x ∉ v) ∧
      (stageLayer g fuel e v).1.Nodup ∧
      (∀ x, x ∈ (stageLayer g fuel e v).1 ↔ Reaches g e x ∧ x ∉ v) ∧
      ClosedEx g gray (stageLayer g fuel e v).2 := by
  intro fuel
  induction fuel with
  | zero => intro e v gray h; exact absurd h (Nat.not_lt_zero _)
  | succ f ihf =>
      intro e v gray hf hGv hGr hC
      by_cases hev : e ∈ v
      · have hl : stageLayer g (f + 1) e v = ([], v) := by
          rw [stageLayer]
          simp [hev]
        rw [hl]
        refine ⟨by simp, by simp, by simp, ?_, hC⟩
        intro x
        simp only [List.not_mem_nil, false_iff]
        rintro ⟨hr, hnv⟩
        exact hnv (closedEx_reach hrank hC hev hGr hr)
      · have hl : stageLayer g (f + 1) e v =
            ((stageDeps g f (g e) (e :: v)).1 ++ [e], (stageDeps g f (g e) (e :: v)).2) := by
          rw [stageLayer]
          simp [hev]
        obtain ⟨B1, B2, B3, B4, B5⟩ :=
          stageDeps_spec g rank hrank f
            (fun e' v' gray' h1 h2 h3 h4 => ihf e' v' gray' h1 h2 h3 h4)
            (g e) (e :: v) (e :: gray)
            (fun d hd => lt_of_lt_of_le (hrank e d hd) (Nat.lt_succ_iff.mp hf))
            (fun y hy => by
              rcases List.mem_cons.mp hy with rfl | hy'
              · exact List.mem_cons_self _ _
              · exact List.mem_cons_of_mem _ (hGv y hy'))
            (fun d hd y hy => by
              rcases List.mem_cons.mp hy with rfl | hy'
              · exact hrank _ _ hd
              · exact lt_trans (hrank _ _ hd) (hGr y hy'))
            (by
              intro x hx hxg d hd
              rcases List.mem_cons.mp hx with rfl | hxv
              · exact absurd (List.mem_cons_self _ _) hxg
              · exact List.mem_cons_of_mem _
                  (hC x hxv (fun hg => hxg (List.mem_cons_of_mem _ hg)) d hd))
        rw [hl]
        refine ⟨?_, ?_, ?_, ?_, ?_⟩
        · intro x
          simp only [List.mem_append, List.mem_singleton]
          rw [B1 x]
          constructor
          · rintro (hs | hv)
            · exact Or.inl (Or.inl hs)
            · rcases List.mem_cons.mp hv with rfl | hv'
              · exact Or.inl (Or.inr rfl)
              · exact Or.inr hv'
          · rintro ((hs | rfl) | hv)
            · exact Or.inl hs
            · exact Or.inr (List.mem_cons_self _ _)
            · exact Or.inr (List.mem_cons_of_mem _ hv)
        · intro x hx
          simp only [List.mem_append, List.mem_singleton] at hx
          rcases hx with hx | rfl
          · exact fun hv => B2 x hx (List.mem_cons_of_mem _ hv)
          · exact hev
        · refine List.Nodup.append B3 (List.nodup_singleton e) ?_
          intro x hx1 hx2
          rw [List.mem_singleton] at hx2
          subst hx2
          exact B2 x hx1 (List.mem_cons_self _ _)
        · intro x
          simp only [List.mem_append, List.mem_singleton]
          constructor
          · rintro (hx | hxe)
            · obtain ⟨⟨d, hd, hr⟩, hnv⟩ := (B4 x).mp hx
              exact ⟨Reaches.step hd hr, fun hv => hnv (List.mem_cons_of_mem _ hv)⟩
            · exact ⟨by rw [hxe]; exact Reaches.refl e, by rw [hxe]; exact hev⟩
          · rintro ⟨hr, hnv⟩
            cases hr with
            | refl => exact Or.inr rfl
            | @step _ d _ hd hr' =>
                by_cases hxe : x = e
                · exact Or.inr hxe
                · left
                  refine (B4 x).mpr ⟨⟨d, hd, hr'⟩, ?_⟩
                  intro hx
                  rcases List.mem_cons.mp hx with rfl | hv
                  · exact hxe rfl
                  · exact hnv hv
        · intro x hx hxg d hd
          rcases (B1 x).mp hx with hs | hv
          · have hxe? : x ∉ (e :: gray) := by
              intro hg
              rcases List.mem_cons.mp hg with rfl | hg'
              · exact B2 x hs (List.mem_cons_self _ _)
              · exact hxg hg'
            exact B5 x hx hxe? d hd
          · rcases List.mem_cons.mp hv with hq | hv'
            · rw [hq] at hd
              by_cases hdv : d ∈ (e :: v)
              · exact (B1 d).mpr (Or.inr hdv)
              · exact (B1 d).mpr (Or.inl ((B4 d).mpr ⟨⟨d, hd, Reaches.refl d⟩, hdv⟩))
            · have hxe : x ≠ e := fun hq => hev (hq ▸ hv')
              have hxg' : x ∉ (e :: gray) := by
                intro hg
                rcases List.mem_cons.mp hg with rfl | hg'
                · exact hxe rfl
                · exact hxg hg'
              exact B5 x hx hxg' d hd

theorem stageLayers_spec (g : Nat → List Nat) (rank : Nat → Nat)
    (hrank : ∀ e d, d ∈ g e → rank d < rank e) (fuel : Nat) :
    ∀ (bds : List Nat) (v : List Nat),
      (∀ b ∈ bds, rank b < fuel) → ClosedEx g [] v →
      (∀ i x, x ∈ (stageLayers g fuel bds v).getD i [] ↔
        (i < bds.length ∧ Reaches g (bds.getD i 0) x ∧ x ∉ v ∧
          ∀ j, j < i → ¬ Reaches g (bds.getD j 0) x)) ∧
      (∀ i, ((stageLayers g fuel bds v).getD i []).Nodup) := by
  intro bds
  induction bds with
  | nil =>
      intro v _ _
      constructor
      · intro i x
        simp [stageLayers, List.getD]
      · intro i
        simp [stageLayers, List.getD]
  | cons b bs ih =>
      intro v hf hC
      obtain ⟨A1, A2, A3, A4, A5⟩ :=
        stageLayer_spec g rank hrank fuel b v [] (hf b (by simp))
          (by simp) (by simp) hC
      have hL : stageLayers g fuel (b :: bs) v =
          (stageLayer g fuel b v).1 ::
            stageLayers g fuel bs (stageLayer g fuel b v).2 := by
        rw [stageLayers]
      obtain ⟨IH1, IH2⟩ :=
        ih (stageLayer g fuel b v).2
          (fun b' hb' => hf b' (by simp [hb'])) A5
      rw [hL]
      constructor
      · intro i x
        cases i with
        | zero =>
            simp only [List.getD_cons_zero, List.length_cons]
            constructor
            · intro hx
              obtain ⟨hr, hnv⟩ := (A4 x).mp hx
              exact ⟨Nat.succ_pos _, hr, hnv, fun j hj => absurd hj (Nat.not_lt_zero _)⟩
            · rintro ⟨_, hr, hnv, _⟩
              exact (A4 x).mpr ⟨hr, hnv⟩
        | succ i =>
            simp only [List.getD_cons_succ, List.length_cons]
            rw [IH1 i x]
            constructor
            · rintro ⟨hi, hr, hnv', hmin⟩
              have hnvs : x ∉ (stageLayer g fuel b v).1 ∧ x ∉ v := by
                constructor
                · exact fun hs => hnv' ((A1 x).mpr (Or.inl hs))
                · exact fun hv => hnv' ((A1 x).mpr (Or.inr hv))
              refine ⟨Nat.succ_lt_succ hi, hr, hnvs.2, ?_⟩
              intro j hj
              cases j with
              | zero =>
                  intro hrb
                  exact hnvs.1 ((A4 x).mpr ⟨by simpa using hrb, hnvs.2⟩)
              | succ j =>
                  simp only [List.getD_cons_succ]
                  exact hmin j (Nat.lt_of_succ_lt_succ hj)
            · rintro ⟨hi, hr, hnv, hmin⟩
              refine ⟨Nat.lt_of_succ_lt_succ hi, hr, ?_, ?_⟩
              · intro hv'
                rcases (A1 x).mp hv' with hs | hv
                · obtain ⟨hrb, _⟩ := (A4 x).mp hs
                  exact hmin 0 (Nat.succ_pos _) (by simpa using hrb)
                · exact hnv hv
              · intro j hj
                have := hmin (j + 1) (Nat.succ_lt_succ hj)
                simpa using this
      · intro i
        cases i with
        | zero => simpa using A3
        | succ i => simpa using IH2 i

/-- C3: in a diamond — an element `c` reachable over runtime edges from
two distinct direct build dependencies (positions `i < j` in declaration
order, with no earlier build dependency reaching `c`) — the traversal
stages `c` into exactly the layer of the earlier build dependency: once
there, and zero times in every other layer, because the visited list is
created once and shared across all the build dependencies.  `rank` is a
topological height witnessing that the runtime-dependency graph is
acyclic, and the fuel dominates it. -/
theorem c3_diamond_staged_once (g : Nat → List Nat) (rank : Nat → Nat)
    (hrank : ∀ e d, d ∈ g e → rank d < rank e) (fuel : Nat) (bds : List Nat)
    (hfuel : ∀ b ∈ bds, rank b < fuel) (i j c : Nat) (hij : i < j)
    (hj : j < bds.length)
    (hA : Reaches g (bds.getD i 0) c) (hB : Reaches g (bds.getD j 0) c)
    (hmin : ∀ k, k < i → ¬ Reaches g (bds.getD k 0) c) :
    ((stageLayers g fuel bds []).getD i []).count c = 1 ∧
    ∀ k, k < bds.length → k ≠ i →
      ((stageLayers g fuel bds []).getD k []).count c = 0 := by
  obtain ⟨H1, H2⟩ :=
    stageLayers_spec g rank hrank fuel bds [] hfuel (by intro x hx; cases hx)
  have hi : i < bds.length := lt_trans hij hj
  have hmem : c ∈ (stageLayers g fuel bds []).getD i [] :=
    (H1 i c).mpr ⟨hi, hA, by simp, hmin⟩
  constructor
  · exact List.count_eq_one_of_mem (H2 i) hmem
  · intro k hk hki
    rw [List.count_eq_zero]
    intro hmemk
    obtain ⟨_, hrk, _, hmink⟩ := (H1 k c).mp hmemk
    rcases Nat.lt_or_ge k i with hlt | hge
    · exact hmin k hlt hrk
    · have : i < k := lt_of_le_of_ne hge (Ne.symm hki)
      exact hmink i this hA

/-- Witness for C3: the diamond `0 → 2 ← 1` with build dependencies
`[0, 1]`: element 2 is staged once into layer 0 and not into layer 1. -/
theorem c3_diamond_staged_once_witness :
    (∀ e d : Nat, d ∈ (fun x => if x ≤ 1 then [2] else []) e →
      (fun x : Nat => if x = 2 then 0 else 1) d <
        (fun x : Nat => if x = 2 then 0 else 1) e) ∧
    ((stageLayers (fun x => if x ≤ 1 then [2] else []) 2 [0, 1] []).getD 0 []).count 2 = 1 ∧
    (∀ k, k < ([0, 1] : List Nat).length → k ≠ 0 →
      ((stageLayers (fun x => if x ≤ 1 then [2] else []) 2 [0, 1] []).getD k []).count 2 = 0) := by
  have hrank : ∀ e d : Nat, d ∈ (fun x => if x ≤ 1 then [2] else []) e →
      (fun x : Nat => if x = 2 then 0 else 1) d <
        (fun x : Nat => if x = 2 then 0 else 1) e := by
    intro e d hd
    simp only at hd
    by_cases he : e ≤ 1
    · rw [if_pos he] at hd
      rcases List.mem_singleton.mp hd with rfl
      have : ¬ e = 2 := by omega
      simp [this]
    · rw [if_neg he] at hd
      cases hd
  have hfuel : ∀ b ∈ ([0, 1] : List Nat), (fun x : Nat => if x = 2 then 0 else 1) b < 2 := by
    intro b hb
    rcases List.mem_cons.mp hb with rfl | hb'
    · simp
    · rcases List.mem_singleton.mp hb' with rfl
      simp
  have hres := c3_diamond_staged_once (fun x => if x ≤ 1 then [2] else [])
    (fun x => if x = 2 then 0 else 1) hrank 2 [0, 1] hfuel 0 1 2
    (by omega) (by simp)
    (Reaches.step (by simp) (Reaches.refl 2))
    (Reaches.step (by simp) (Reaches.refl 2))
    (fun k hk => absurd hk (Nat.not_lt_zero _))
  exact ⟨hrank, hres.1, hres.2⟩

/-! ## Claim C7: content-derived names -/

/-- C7: the name of each layer directory equals the hex SHA-256 digest
of the `layer.tar` it holds (the blockwise `_hash_digest` of the
archive equals the SHA-256 of the whole stream), the image config file
is named `<d>.json` for `d` the digest of its own serialized bytes, and
in both traces the serialization write precedes the rename to the
digest-derived name. -/
theorem c7_digest_naming :
    (∀ (files : Nat → List FsEntry) (elems : List Nat),
      layerDigestOf files elems = sha256hex (tarArchive (layerDir files elems))) ∧
    (∀ v : JValue, hash_digest (save_json v) = sha256hex (save_json v)) ∧
    (∀ (cfg : DockerConfig) (created : String) (g : Nat → List Nat)
        (files : Nat → List FsEntry) (fuel : Nat) (bds : List Nat),
      (assemble cfg created g files fuel bds).imageDigest =
        hash_digest (save_json ((assemble cfg created g files fuel bds).imageConfig)) ∧
      (assemble cfg created g files fuel bds).layers =
        (assemble cfg created g files fuel bds).layerDigests.map
          (fun d => (d, create_layer_json cfg d created))) ∧
    (∀ d : String,
      (createLayerOps d).getD 1 (.mkdir []) = .write ["layers", "tmp", "layer.tar"] ∧
      (createLayerOps d).getD 2 (.mkdir []) =
        .atomicRename ["layers", "tmp"] ["layers", d]) ∧
    (∀ imgDigest : String,
      (createImageConfigOps imgDigest).getD 0 (.mkdir []) = .write ["layers", "tmp"] ∧
      (createImageConfigOps imgDigest).getD 1 (.mkdir []) =
        .atomicRename ["layers", "tmp"] ["layers", imgDigest ++ ".json"]) := by
  refine ⟨?_, ?_, ?_, ?_, ?_⟩
  · intro files elems
    unfold layerDigestOf layer_tar_digest
    exact hash_digest_eq_sha256hex _ (tarArchive_wf _)
  · intro v
    exact hash_digest_eq_sha256hex _ (Bytes.WF.ofString _)
  · intro cfg created g files fuel bds
    exact ⟨rfl, rfl⟩
  · intro d
    exact ⟨rfl, rfl⟩
  · intro imgDigest
    exact ⟨rfl, rfl⟩
